import Mathlib

/-!
# TCN75A temperature sensor firmware (RP2040, two cores)

A shallow embedding of the request dispatcher that runs on core 1
(`core1.c`), of the bus helpers (`i2c_util.c`) and of the text menus
(`menu_handler.c`).

Machine integers are natural numbers, reduced modulo `2 ^ 8` or `2 ^ 32`
where the C code narrows them.  Stateful code is written with an explicit
`World` that is passed through every call.  Everything the program does to
its surroundings (console output, keyboard input, pushes to the inter-core
FIFO, bus transfers, stores to the global `dev_addr`) is appended to
`World.trace` in program order, so that orderings can be stated about the
trace.  The answers of the bus are taken from an arbitrary oracle
`World.bus`, one answer per SDK bus call.
-/

namespace I2CTemp

/-! ## config.h -/

abbrev ONBOARD_LED : Nat := 25
abbrev LED0 : Nat := 6
abbrev LED1 : Nat := 7
abbrev BTN0 : Nat := 15
abbrev BTN1 : Nat := 14
abbrev BTN2 : Nat := 13
abbrev BTN3 : Nat := 12
abbrev BTN4 : Nat := 11
abbrev ALERT_GP : Nat := 18
abbrev I2C_SDA_PIN : Nat := 16
abbrev I2C_SCL_PIN : Nat := 17
abbrev BLINK_LED_DELAY : Nat := 500
abbrev NUMBER_OF_GPIOS : Nat := 9
abbrev NUMBER_OF_BTNS : Nat := 8
abbrev NUMBER_OF_I2C : Nat := 1
abbrev I2C_READ_TIMEOUT_MICRO_SEC : Nat := 100000
abbrev TCN75A_DEFAULT_ADDR : Nat := 0x48
abbrev AMBIENT_TEMP_REG : Nat := 0b00
abbrev SENSOR_CONFIG_REG : Nat := 0b01
abbrev TEMP_HYST_MIN_REG : Nat := 0b10
abbrev TEMP_SET_MAX_REG : Nat := 0b11

abbrev SHUTDOWN_MASK : Nat := 0b00000001
abbrev ALERT_MODE_MASK : Nat := 0b00000010
abbrev ALERT_POLARITY_MASK : Nat := 0b00000100
abbrev FAULT_QUEUE_MASK : Nat := 0b00011000
abbrev ADC_RESOLUTION_MASK : Nat := 0b01100000
abbrev ONE_SHOT_MASK : Nat := 0b10000000

/-- The macro of config.h, which is what core1.c sees: it is defined after
the enumerator of the same name in gpio_util.h has been read. -/
abbrev DISABLE_IRQ : Nat := 0
/-- The macro of config.h (see `DISABLE_IRQ`). -/
abbrev ENABLE_IRQ : Nat := 1

abbrev SHUTDOWN_MODE_REQ_MASK : Nat := 0b00000001
abbrev COMP_INT_MODE_REQ_MASK : Nat := 0b00000010
abbrev ALERT_POLARITY_REQ_MASK : Nat := 0b00000100
abbrev FAULT_QUEUE_MODE_REQ_MASK : Nat := 0b00011000
abbrev ADC_RESOLUTION_REQ_MASK : Nat := 0b01100000
abbrev ONE_SHOT_MODE_REQ_MASK : Nat := 0b10000000

abbrev NO_CHANGE_SHIFT : Nat := 1 <<< 16
abbrev SHUTDOWN_MODE_SHIFT : Nat := 1 <<< 31
abbrev COMP_INT_MODE_SHIFT : Nat := 1 <<< 30
abbrev ALERT_POLARITY_SHIFT : Nat := 1 <<< 29
abbrev FAULT_QUEUE_MODE_SHIFT : Nat := 1 <<< 28
abbrev ADC_RESOLUTION_SHIFT : Nat := 1 <<< 27
abbrev ONE_SHOT_MODE_SHIFT : Nat := 1 <<< 26

/-! ## gpio_util.h, menu_handler.h -/

abbrev SCAN_I2C_BUS : Nat := 0
abbrev SHOW_CONFIG : Nat := 1
abbrev SHOW_DEV_ID : Nat := 2
abbrev SHOW_ALERT_MENU : Nat := 3
abbrev SHOW_TEMP : Nat := 4

abbrev WRITE_TEMP_HYST_LIMIT : Nat := 1 <<< 29
abbrev WRITE_TEMP_SET_LIMIT : Nat := 1 <<< 28
abbrev READ_TEMP_HYST_LIMIT : Nat := 1 <<< 27
abbrev READ_TEMP_SET_LIMIT : Nat := 1 <<< 26

/-! ## hardware/gpio.h (SDK) -/

abbrev GPIO_IRQ_EDGE_FALL : Nat := 0x4
abbrev GPIO_IRQ_EDGE_RISE : Nat := 0x8
abbrev GPIO_IN : Nat := 0
abbrev GPIO_OUT : Nat := 1
abbrev GPIO_FUNC_I2C : Nat := 3
abbrev IO_IRQ_BANK0 : Nat := 13

/-! ## gpio_util.h, i2c_util.h: the configuration records -/

structure GpioConfig where
  pin_number : Nat
  pin_dir : Nat
  has_irq : Bool
  has_pullup : Bool
  deriving DecidableEq, Repr

structure I2CConfig where
  sda_pin_number : Nat
  scl_pin_number : Nat
  has_pullup : Bool
  deriving DecidableEq, Repr

/-! ## Effects and the world -/

/-- Modelled from the spec: the type `BtnState` of debounce.h, which is not
part of the sources.  The spec lists a pin identifier, a pending-rising flag,
a pending-falling flag, a debounce progress counter and the last dispatched
action; main.c initialises the five members as `{BTNn, false, false, 0, 0}`. -/
structure BtnState where
  pin : Nat
  pending_rising : Bool
  pending_falling : Bool
  progress : Nat
  last_action : Nat
  deriving DecidableEq, Repr

/-- An argument of a `printf` call.  The two floating point arguments of
`print_temp_table` are kept symbolic: they are `fixedToFloat(i, d)` and
`c2f(fixedToFloat(i, d))`, both from util.h. -/
inductive PArg where
  | int (n : Int)
  | str (s : String)
  | celsius (integer_part decimal_part : Nat)
  | fahrenheit (integer_part decimal_part : Nat)
  deriving DecidableEq, Repr

/-- One observable step of the program, with the arguments of the call and,
for calls that answer, the answer. -/
inductive Event where
  | clear_screen
  | printf (fmt : String) (args : List PArg)
  | scanf_char (c : Char)
  | get_input (text : List Char)
  | sleep_ms (ms : Nat)
  | multicore_fifo_push_blocking (v : Nat)
  | multicore_fifo_drain
  | i2c_write_blocking (addr : Nat) (src : List Nat) (nostop : Bool) (ret : Int)
  | i2c_read_blocking (addr len : Nat) (nostop : Bool) (ret : Int) (dst : List Nat)
  | i2c_read_timeout_us (addr len : Nat) (nostop : Bool) (timeout : Nat) (ret : Int)
      (dst : List Nat)
  | store_dev_addr (v : Nat)
  | store_enable_read_temp (v : Bool)
  | reset_btn_state (btn : Nat)
  | set_rising_edge_state (btn : Nat)
  | set_falling_edge_state (btn : Nat)
  | debounce (btn : Nat) (ret : Bool)
  | multicore_fifo_push_timeout_us (v timeout_us : Nat) (ret : Bool)
  | multicore_fifo_rvalid (ret : Bool)
  | multicore_fifo_pop_blocking (ret : Nat)
  | gpio_get (pin : Nat) (ret : Bool)
  | gpio_put (pin : Nat) (value : Bool)
  | gpio_init (pin : Nat)
  | gpio_set_dir (pin dir : Nat)
  | gpio_pull_up (pin : Nat)
  | gpio_set_function (pin fn : Nat)
  | gpio_set_irq_enabled (pin events : Nat) (enabled : Bool)
  | irq_set_enabled (num : Nat) (enabled : Bool)
  deriving DecidableEq, Repr

/-- What the bus answers to one SDK call: the return value and, for a read,
the bytes that arrived. -/
structure BusReply where
  ret : Int
  data : List Nat
  deriving DecidableEq, Repr

structure World where
  /-- The global `dev_addr` (main.c). -/
  dev_addr : Nat
  /-- Characters the user will type. -/
  stdin : List Char
  /-- The answer of the bus to the n-th SDK bus call. -/
  bus : Nat → BusReply
  /-- Number of SDK bus calls made so far. -/
  bus_calls : Nat
  trace : List Event
  /-- The global `enable_read_temp` (main.c). -/
  enable_read_temp : Bool := false
  /-- The global array `btns` (main.c): five initialised entries, the other
  three zero. -/
  btns : Fin NUMBER_OF_BTNS → BtnState := fun i =>
    if i.val = 0 then ⟨BTN0, false, false, 0, 0⟩
    else if i.val = 1 then ⟨BTN1, false, false, 0, 0⟩
    else if i.val = 2 then ⟨BTN2, false, false, 0, 0⟩
    else if i.val = 3 then ⟨BTN3, false, false, 0, 0⟩
    else if i.val = 4 then ⟨BTN4, false, false, 0, 0⟩
    else ⟨0, false, false, 0, 0⟩
  /-- Whether the n-th timed push finds room in the FIFO before its
  deadline. -/
  fifo_push_ok : Nat → Bool := fun _ => true
  /-- Number of timed pushes made so far. -/
  fifo_pushes : Nat := 0
  /-- The level the n-th `gpio_get` sees on its pin. -/
  gpio_levels : Nat → Bool := fun _ => true
  /-- Number of `gpio_get` calls made so far. -/
  gpio_reads : Nat := 0
  /-- What the n-th look at the read FIFO finds: `none` when it is empty,
  otherwise the word at its head. -/
  fifo_rx : Nat → Option Nat := fun _ => none
  /-- Number of looks at the read FIFO completed so far. -/
  fifo_checks : Nat := 0

/-- The functions of debounce.h, which the sources use but do not define.
`debounce` receives a copy of the button state and answers whether the press
is stable. -/
structure BtnLib where
  reset_btn_state : BtnState → BtnState
  set_rising_edge_state : BtnState → BtnState
  set_falling_edge_state : BtnState → BtnState
  debounce : BtnState → Bool

/-- Functions and values the sources use but do not define: `get_input` and
`str_to_fixed_point` of util.h, and two indeterminate values of the C
program. -/
structure Env where
  /-- `get_input(input, n)` on the pending keyboard input: the text stored,
  and how many characters were consumed; `none` when it never returns. -/
  get_input : List Char → Nat → Option (List Char × Nat)
  /-- `str_to_fixed_point(input, output)`: the returned flag and the contents
  of `output[0]`, `output[1]` after the call. -/
  str_to_fixed_point : List Char → Bool × Int × Int
  /-- The value the caller of `show_alert_menu` receives when the function
  leaves its loop through `break` and ends without a `return`. -/
  alert_menu_no_return : Nat
  /-- The contents of the local array `buf` of `handle_show_alert_menu`
  before anything is stored in it. -/
  alert_buf_uninit : Nat × Nat

def World.emit (w : World) (e : Event) : World :=
  { w with trace := w.trace ++ [e] }

def World.emits (w : World) (es : List Event) : World :=
  { w with trace := w.trace ++ es }

def printf (fmt : String) (args : List PArg) (w : World) : World :=
  w.emit (.printf fmt args)

def clear_screen (w : World) : World :=
  w.emit .clear_screen

def sleep_ms (ms : Nat) (w : World) : World :=
  w.emit (.sleep_ms ms)

def multicore_fifo_push_blocking (v : Nat) (w : World) : World :=
  w.emit (.multicore_fifo_push_blocking v)

def multicore_fifo_drain (w : World) : World :=
  w.emit .multicore_fifo_drain

/-- The SDK call `multicore_fifo_push_timeout_us(data, timeout_us)`: true when
the word was pushed, false when the FIFO stayed full until the deadline. -/
def multicore_fifo_push_timeout_us (data timeout_us : Nat) (w : World) : Bool × World :=
  let ok := w.fifo_push_ok w.fifo_pushes
  (ok, { w with fifo_pushes := w.fifo_pushes + 1,
                trace := w.trace ++ [.multicore_fifo_push_timeout_us data timeout_us ok] })

/-- The SDK call `multicore_fifo_rvalid()`.  An empty FIFO completes the
look; a waiting word stays at the head until it is popped. -/
def multicore_fifo_rvalid (w : World) : Bool × World :=
  match w.fifo_rx w.fifo_checks with
  | none => (false, { w with fifo_checks := w.fifo_checks + 1,
                             trace := w.trace ++ [.multicore_fifo_rvalid false] })
  | some _ => (true, w.emit (.multicore_fifo_rvalid true))

/-- The SDK call `multicore_fifo_pop_blocking()`; `none` when no word ever
arrives. -/
def multicore_fifo_pop_blocking (w : World) : Option (Nat × World) :=
  match w.fifo_rx w.fifo_checks with
  | none => none
  | some v => some (v, { w with fifo_checks := w.fifo_checks + 1,
                                trace := w.trace ++ [.multicore_fifo_pop_blocking v] })

def gpio_get (pin : Nat) (w : World) : Bool × World :=
  let v := w.gpio_levels w.gpio_reads
  (v, { w with gpio_reads := w.gpio_reads + 1, trace := w.trace ++ [.gpio_get pin v] })

def gpio_put (pin : Nat) (value : Bool) (w : World) : World :=
  w.emit (.gpio_put pin value)

def gpio_init (pin : Nat) (w : World) : World :=
  w.emit (.gpio_init pin)

def gpio_set_dir (pin dir : Nat) (w : World) : World :=
  w.emit (.gpio_set_dir pin dir)

def gpio_pull_up (pin : Nat) (w : World) : World :=
  w.emit (.gpio_pull_up pin)

def gpio_set_function (pin fn : Nat) (w : World) : World :=
  w.emit (.gpio_set_function pin fn)

def gpio_set_irq_enabled (pin events : Nat) (enabled : Bool) (w : World) : World :=
  w.emit (.gpio_set_irq_enabled pin events enabled)

def irq_set_enabled (num : Nat) (enabled : Bool) (w : World) : World :=
  w.emit (.irq_set_enabled num enabled)

/-- The characters `scanf` skips for a blank in its format. -/
def isspace (c : Char) : Bool :=
  c = ' ' || c = '\t' || c = '\n' || c.toNat = 11 || c.toNat = 12 || c = '\r'

/-- The call `scanf(" %c", &option)`: skips white space and stores the next
character; `none` when no character ever arrives. -/
def scanf_char (w : World) : Option (Char × World) :=
  match w.stdin.dropWhile isspace with
  | [] => none
  | c :: rest => some (c, { w with stdin := rest, trace := w.trace ++ [.scanf_char c] })

/-- The buffer `dst` after a read of `len` bytes during which `data` arrived. -/
def fill_buf (dst : List Nat) (len : Nat) (data : List Nat) : List Nat :=
  let got := (data.take len).map (· % 256)
  got ++ dst.drop got.length

def i2c_write_blocking (addr : Nat) (src : List Nat) (nostop : Bool) (w : World) :
    Int × World :=
  let r := w.bus w.bus_calls
  (r.ret, { w with bus_calls := w.bus_calls + 1,
                   trace := w.trace ++ [.i2c_write_blocking addr src nostop r.ret] })

def i2c_read_blocking (addr : Nat) (dst : List Nat) (len : Nat) (nostop : Bool) (w : World) :
    (Int × List Nat) × World :=
  let r := w.bus w.bus_calls
  let dst := fill_buf dst len r.data
  ((r.ret, dst), { w with bus_calls := w.bus_calls + 1,
                          trace := w.trace ++ [.i2c_read_blocking addr len nostop r.ret dst] })

def i2c_read_timeout_us (addr : Nat) (dst : List Nat) (len : Nat) (nostop : Bool)
    (timeout : Nat) (w : World) : (Int × List Nat) × World :=
  let r := w.bus w.bus_calls
  let dst := fill_buf dst len r.data
  ((r.ret, dst),
   { w with bus_calls := w.bus_calls + 1,
            trace := w.trace ++ [.i2c_read_timeout_us addr len nostop timeout r.ret dst] })

/-! ## config.c -/

def proj_gpio : List GpioConfig :=
  [ ⟨BTN0, GPIO_IN, true, false⟩, ⟨BTN1, GPIO_IN, true, false⟩,
    ⟨BTN2, GPIO_IN, true, false⟩, ⟨BTN3, GPIO_IN, true, false⟩,
    ⟨BTN4, GPIO_IN, true, false⟩, ⟨LED0, GPIO_OUT, false, false⟩,
    ⟨LED1, GPIO_OUT, false, false⟩, ⟨ONBOARD_LED, GPIO_OUT, false, false⟩,
    ⟨ALERT_GP, GPIO_IN, false, true⟩ ]

def proj_i2c : List I2CConfig :=
  [ { sda_pin_number := I2C_SDA_PIN, scl_pin_number := I2C_SCL_PIN, has_pullup := true } ]

/-! ## gpio_util.c -/

/-- The loop visits `gpio[0]`, ..., `gpio[len - 1]`. -/
def set_gpio (gpio : List GpioConfig) (len : Nat) (w : World) : World :=
  (gpio.take len).foldl
    (fun w g =>
      let w := gpio_init g.pin_number w
      let w := gpio_set_dir g.pin_number g.pin_dir w
      if g.has_pullup then gpio_pull_up g.pin_number w else w)
    w

def enable_irq (gpio : List GpioConfig) (len : Nat) (w : World) : World :=
  (gpio.take len).foldl
    (fun w g =>
      if g.has_irq then
        let w := gpio_set_irq_enabled g.pin_number
          (GPIO_IRQ_EDGE_RISE ||| GPIO_IRQ_EDGE_FALL) true w
        irq_set_enabled IO_IRQ_BANK0 true w
      else w)
    w

def disable_irq (gpio : List GpioConfig) (len : Nat) (w : World) : World :=
  (gpio.take len).foldl
    (fun w g =>
      if g.has_irq then
        let w := gpio_set_irq_enabled g.pin_number
          (GPIO_IRQ_EDGE_RISE ||| GPIO_IRQ_EDGE_FALL) false w
        irq_set_enabled IO_IRQ_BANK0 false w
      else w)
    w

/-! ## i2c_util.c -/

/-- The body of the loop of `set_i2c`.  It is written with `i2c->`, so every
turn uses the entry the pointer `i2c` points to, which is `i2c[0]`. -/
def set_i2c_body (c : I2CConfig) (w : World) : World :=
  let w := gpio_set_function c.sda_pin_number GPIO_FUNC_I2C w
  let w := gpio_set_function c.scl_pin_number GPIO_FUNC_I2C w
  if c.has_pullup then
    let w := gpio_pull_up c.sda_pin_number w
    gpio_pull_up c.scl_pin_number w
  else w

/-- The loop makes `len` turns, `i` running from 0 to `len - 1`; the body does
not use `i`.  An array has at least one entry. -/
def set_i2c (i2c : List I2CConfig) (len : Nat) (w : World) : World :=
  (List.range len).foldl (fun w _ => set_i2c_body (i2c.headD ⟨0, 0, false⟩) w) w

def reg_write (addr reg : Nat) (buf : List Nat) (nbytes : Nat) (w : World) : Int × World :=
  let msg := reg :: buf.take nbytes
  i2c_write_blocking addr msg false w

def reg_read (addr reg : Nat) (buf : List Nat) (nbytes : Nat) (w : World) :
    (Int × List Nat) × World :=
  if nbytes < 1 then ((0, buf), w)
  else
    let (_, w) := i2c_write_blocking addr [reg] true w
    i2c_read_blocking addr buf nbytes false w

/-- The byte `rxdata` points to is written by the SDK and never read by a
caller; it starts here as `[0]`. -/
def check_addr (addr : Nat) (timeout : Nat) (w : World) : Int × World :=
  let ((ret, _), w) := i2c_read_timeout_us addr [0] 1 false timeout w
  (ret, w)

def reserved_addr (addr : Nat) : Bool :=
  if (addr &&& 0x78) = 0 ∨ (addr &&& 0x78) = 0x78 then true else false

/-- The body of the `for` loop of `scan_i2c_bus` for one value of `addr`. -/
def scan_i2c_bus_body (timeout : Nat) (addr : Nat) (w : World) : World :=
  let w := if addr % 16 = 0 then printf "%02x " [.int addr] w else w
  let w :=
    if reserved_addr addr then printf "X" [] w
    else
      let (ret, w) := check_addr addr timeout w
      printf (if ret ≤ 0 then "." else "@") [] w
  printf (if addr % 16 = 15 then "\n" else "  ") [] w

/-- The loop `for (uint8_t addr = 0; addr < (1 << 7); ++addr)`, from the
current value of `addr`; `none` when the fuel does not suffice. -/
def scan_i2c_bus_loop (timeout : Nat) : Nat → Nat → World → Option World
  | 0, _, _ => none
  | fuel + 1, addr, w =>
    if addr < (1 <<< 7) then
      scan_i2c_bus_loop timeout fuel ((addr + 1) % 256) (scan_i2c_bus_body timeout addr w)
    else some w

def scan_i2c_bus (timeout : Nat) (w : World) : Option World :=
  let w := printf "\nI2C Bus Scan\n" [] w
  let w := printf "   0  1  2  3  4  5  6  7  8  9  A  B  C  D  E  F\n" [] w
  match scan_i2c_bus_loop timeout 256 0 w with
  | none => none
  | some w => some (printf "Done.\n" [] w)

def read_temp_reg (dev_addr reg_addr : Nat) (buf : List Nat) (nbytes : Nat) (w : World) :
    List Nat × World :=
  let ((_, buf), w) := reg_read dev_addr reg_addr buf nbytes w
  (buf, w)

def write_temp_reg (dev_addr reg_addr : Nat) (buf : List Nat) (nbytes : Nat) (w : World) :
    World :=
  (reg_write dev_addr reg_addr buf nbytes w).2

def print_temp_table (integer_part decimal_part : Nat) (w : World) : World :=
  let w := printf "%-8s--%-8s\n" [.str "-------", .str "-------"] w
  let w := printf "%-8s| %-8s\n" [.str "Temp C", .str "Temp F"] w
  let w := printf "%-8s+ %-8s\n" [.str "-------", .str "-------"] w
  printf "%-8.4f| %-8.4f\n"
    [.celsius integer_part decimal_part, .fahrenheit integer_part decimal_part] w

def read_temperature_registers (dev_addr reg_addr : Nat) (buf : List Nat) (nbytes : Nat)
    (message : String) (w : World) : World :=
  let (buf, w) := read_temp_reg dev_addr reg_addr buf nbytes w
  let w := printf "%s\n" [.str message] w
  print_temp_table (buf.getD 0 0) (buf.getD 1 0) w

def print_ambient_temperature (dev_addr : Nat) (w : World) : World :=
  let w := clear_screen w
  read_temperature_registers dev_addr AMBIENT_TEMP_REG [0, 0] 2 "Ambient Temperature" w

def read_temp_hyst_limit (dev_addr : Nat) (w : World) : World :=
  read_temperature_registers dev_addr TEMP_HYST_MIN_REG [0, 0] 2 "Temperature Hyst Limit" w

def write_temp_hyst_limit (dev_addr integer_part decimal_part : Nat) (w : World) : World :=
  let w := write_temp_reg dev_addr TEMP_HYST_MIN_REG [integer_part, decimal_part] 2 w
  read_temp_hyst_limit dev_addr w

def read_temp_set_limit (dev_addr : Nat) (w : World) : World :=
  read_temperature_registers dev_addr TEMP_SET_MAX_REG [0, 0] 2 "Temperature Set Limit" w

def write_temp_set_limit (dev_addr integer_part decimal_part : Nat) (w : World) : World :=
  let w := write_temp_reg dev_addr TEMP_SET_MAX_REG [integer_part, decimal_part] 2 w
  read_temp_set_limit dev_addr w

def read_config (dev_addr : Nat) (w : World) : Nat × World :=
  let (tmp, w) := read_temp_reg dev_addr SENSOR_CONFIG_REG [0] 1 w
  (tmp.getD 0 0, w)

def write_config (dev_addr conf : Nat) (w : World) : Nat × World :=
  let w := write_temp_reg dev_addr SENSOR_CONFIG_REG [conf] 1 w
  (0, w)

/-! ## menu_handler.c -/

def show_landing_page_events : List Event :=
  [ .clear_screen,
    .printf " _____ ____ _   _ _____ ____    _    \n" [],
    .printf "|_   _/ ___| \\ | |___  | ___|  / \\   \n" [],
    .printf "  | || |   |  \\| |  / /|___ \\ / _ \\  \n" [],
    .printf "  | || |___| |\\  | / /  ___) / ___ \\ \n" [],
    .printf "  |_| \\____|_| \\_|/_/  |____/_/   \\_\\ \n" [],
    .printf " ------------------------------------------ \n" [],
    .printf "| Press button 0 to scan addresses         | \n" [],
    .printf "| Press button 1 to access config menu     | \n" [],
    .printf "| Press button 2 to access device ID menu  | \n" [],
    .printf "| Press button 3 to access alert  menu     | \n" [],
    .printf "| Press button 4 to print temperature      | \n" [],
    .printf " ------------------------------------------ \n" [] ]

def show_landing_page (w : World) : World :=
  w.emits show_landing_page_events

/-- What the main loop of `show_config_menu` shows before it reads a key. -/
def config_menu_prompt : List Event :=
  [ .clear_screen,
    .printf "[0] SHUTDOWN Setting\n" [],
    .printf "[1] COMP/INT Select\n" [],
    .printf "[2] ALERT POLARITY\n" [],
    .printf "[3] FAULT QUEUE\n" [],
    .printf "[4] ADC RES\n" [],
    .printf "[5] ONE-SHOT\n" [],
    .printf "[x] QUIT\n" [] ]

/-- What the inner loop entered with the key `menu` shows before it reads a
key. -/
def config_sub_menu_prompt (menu : Char) : List Event :=
  if menu = '0' then
    [ .clear_screen,
      .printf "SHUTDOWN Setting\n" [],
      .printf "[0] Disable Shutdown\n" [],
      .printf "[1] Enable Shutdown\n" [],
      .printf "[x] Return to main\n" [] ]
  else if menu = '1' then
    [ .clear_screen,
      .printf "COMP/INT Select\n" [],
      .printf "[0] Comparator mode\n" [],
      .printf "[1] Interrupt mode\n" [],
      .printf "[x] Return to main\n" [] ]
  else if menu = '2' then
    [ .clear_screen,
      .printf "Alert Polarity\n" [],
      .printf "[0] Active low\n" [],
      .printf "[1] Active High\n" [],
      .printf "[x] Return to main\n" [] ]
  else if menu = '3' then
    [ .clear_screen,
      .printf "Fault Queue\n" [],
      .printf "[0] 00\n" [],
      .printf "[1] 01\n" [],
      .printf "[2] 10\n" [],
      .printf "[3] 11\n" [],
      .printf "[x] Return to main\n" [] ]
  else if menu = '4' then
    [ .clear_screen,
      .printf "ADC Resolution\n" [],
      .printf "[0] 9 bit or 0.5C\n" [],
      .printf "[1] 10 bit or 0.25C\n" [],
      .printf "[2] 11 bit or 0.125C\n" [],
      .printf "[3] 12 bit or 0.0625C\n" [],
      .printf "[x] Return to main\n" [] ]
  else
    [ .clear_screen,
      .printf "One SHOT setting\n" [],
      .printf "[0] Disable\n" [],
      .printf "[1] Enable\n" [],
      .printf "[x] Return to main\n" [] ]

/-- The `return` statements of the inner loop entered with the key `menu`:
the word returned for the key `option`, if that key returns. -/
def config_sub_menu_return (menu option : Char) : Option Nat :=
  if menu = '0' then
    if option = '0' then some (SHUTDOWN_MODE_SHIFT ||| 0b00000000)
    else if option = '1' then some (SHUTDOWN_MODE_SHIFT ||| 0b00000001)
    else none
  else if menu = '1' then
    if option = '0' then some (COMP_INT_MODE_SHIFT ||| 0b00000000)
    else if option = '1' then some (COMP_INT_MODE_SHIFT ||| 0b00000010)
    else none
  else if menu = '2' then
    if option = '0' then some (ALERT_POLARITY_SHIFT ||| 0b00000000)
    else if option = '1' then some (ALERT_POLARITY_SHIFT ||| 0b00000100)
    else none
  else if menu = '3' then
    if option = '0' then some (FAULT_QUEUE_MODE_SHIFT ||| 0b00000000)
    else if option = '1' then some (FAULT_QUEUE_MODE_SHIFT ||| 0b00001000)
    else if option = '2' then some (FAULT_QUEUE_MODE_SHIFT ||| 0b00010000)
    else if option = '3' then some (FAULT_QUEUE_MODE_SHIFT ||| 0b00011000)
    else none
  else if menu = '4' then
    if option = '0' then some (ADC_RESOLUTION_SHIFT ||| 0b00000000)
    else if option = '1' then some (ADC_RESOLUTION_SHIFT ||| 0b00100000)
    else if option = '2' then some (ADC_RESOLUTION_SHIFT ||| 0b01000000)
    else if option = '3' then some (ADC_RESOLUTION_SHIFT ||| 0b01100000)
    else none
  else
    if option = '0' then some (ONE_SHOT_MODE_SHIFT ||| 0b00000000)
    else if option = '1' then some (ONE_SHOT_MODE_SHIFT ||| 0b10000000)
    else none

/-- One of the six inner `while (1)` loops of `show_config_menu`, the one
entered with the key `menu`.  The result is `some r` when the loop executes
`return r`, and `none` when it is left through `break` (key `x`).  The whole
result is `none` when no key ever arrives. -/
def config_sub_menu : Char → Nat → World → Option (Option Nat × World)
  | _, 0, _ => none
  | menu, fuel + 1, w =>
    let w := w.emits (config_sub_menu_prompt menu)
    match scanf_char w with
    | none => none
    | some (option, w) =>
      match config_sub_menu_return menu option with
      | some r => some (some r, w)
      | none =>
        if option = 'x' then some (none, w)
        else config_sub_menu menu fuel w

/-- The outer `while (1)` loop of `show_config_menu`. -/
def show_config_menu_loop : Nat → World → Option (Nat × World)
  | 0, _ => none
  | fuel + 1, w =>
    let w := w.emits config_menu_prompt
    match scanf_char w with
    | none => none
    | some (option, w) =>
      if option = '0' ∨ option = '1' ∨ option = '2' ∨ option = '3' ∨ option = '4'
          ∨ option = '5' then
        match config_sub_menu option fuel w with
        | none => none
        | some (some r, w) => some (r, w)
        | some (none, w) => show_config_menu_loop fuel w
      else if option = 'x' then some (1 <<< 16, w)
      else show_config_menu_loop fuel w

/-- Every turn of a loop reads at least one key, so one more turn than there
are pending characters is fuel enough. -/
def show_config_menu (w : World) : Option (Nat × World) :=
  show_config_menu_loop (w.stdin.length + 1) w

def dev_change_menu_prompt : List Event :=
  [ .printf "Change Device ID\n" [],
    .printf "[0] 0x48\n" [],
    .printf "[1] 0x49\n" [],
    .printf "[2] 0x4A\n" [],
    .printf "[3] 0x4B\n" [],
    .printf "[4] 0x4C\n" [],
    .printf "[5] 0x4D\n" [],
    .printf "[6] 0x4E\n" [],
    .printf "[7] 0x4F\n" [],
    .printf "[x] Return to main\n" [] ]

/-- The `switch (option)` of `show_dev_change_menu`: the value assigned to
`addr`, or `none` for the `default` case. -/
def dev_change_menu_switch (option : Char) : Option Nat :=
  if option = 'x' then some 0
  else if option = '0' then some 0x48
  else if option = '1' then some 0x49
  else if option = '2' then some 0x4A
  else if option = '3' then some 0x4B
  else if option = '4' then some 0x4C
  else if option = '5' then some 0x4D
  else if option = '6' then some 0x4E
  else if option = '7' then some 0x4F
  else none

def show_dev_change_menu_loop : Nat → World → Option (Nat × World)
  | 0, _ => none
  | fuel + 1, w =>
    let w := w.emits dev_change_menu_prompt
    match scanf_char w with
    | none => none
    | some (option, w) =>
      match dev_change_menu_switch option with
      | some addr => some (addr, clear_screen w)
      | none => show_dev_change_menu_loop fuel (clear_screen w)

/-- The local `addr` starts as `default_addr` and is assigned in every case
of the switch that reaches the `return`. -/
def show_dev_change_menu (_default_addr : Nat) (w : World) : Option (Nat × World) :=
  let w := clear_screen w
  show_dev_change_menu_loop (w.stdin.length + 1) w

def alert_menu_prompt : List Event :=
  [ .clear_screen,
    .printf "ALERT Config\n" [],
    .printf "[0] Write Temp Hyst Limit\n" [],
    .printf "[1] Write Temp Set Limit\n" [],
    .printf "[2] Show Temp Hyst Limit\n" [],
    .printf "[3] Show Temp Set Limit\n" [],
    .printf "[x] Return to main\n" [] ]

/-- The call `get_input(input, n)`. -/
def get_input (E : Env) (n : Nat) (w : World) : Option (List Char × World) :=
  match E.get_input w.stdin n with
  | none => none
  | some (text, k) =>
    some (text, { w with stdin := w.stdin.drop k, trace := w.trace ++ [.get_input text] })

/-- The conversion of an `int32_t` to the `uint8_t` it is stored in. -/
def to_uint8 (x : Int) : Nat := (x % 256).toNat

/-- The branches for the keys `0` and `1` of `show_alert_menu` up to the test
of `is_success`: the new contents of `buf` when the text was accepted. -/
def alert_menu_enter (E : Env) (question : String) (w : World) :
    Option (Option (Nat × Nat) × World) :=
  let w := clear_screen w
  let w := printf question [] w
  match get_input E 8 w with
  | none => none
  | some (input, w) =>
    let (is_success, output0, output1) := E.str_to_fixed_point input
    if is_success then some (some (to_uint8 output0, to_uint8 output1), w)
    else
      let w := printf "Invalid input! Returning to the previous menu\n" [] w
      some (none, sleep_ms 2000 w)

/-- The loop of `show_alert_menu`; the result is the returned word and the
contents of `buf`. -/
def show_alert_menu_loop (E : Env) : Nat → Nat × Nat → World → Option ((Nat × Nat × Nat) × World)
  | 0, _, _ => none
  | fuel + 1, buf, w =>
    let w := w.emits alert_menu_prompt
    match scanf_char w with
    | none => none
    | some (option, w) =>
      if option = '0' then
        match alert_menu_enter E "Enter Temp Hyst Limit: " w with
        | none => none
        | some (some buf, w) => some ((WRITE_TEMP_HYST_LIMIT, buf), w)
        | some (none, w) => show_alert_menu_loop E fuel buf w
      else if option = '1' then
        match alert_menu_enter E "Enter Temp Set Limit: " w with
        | none => none
        | some (some buf, w) => some ((WRITE_TEMP_SET_LIMIT, buf), w)
        | some (none, w) => show_alert_menu_loop E fuel buf w
      else if option = '2' then some ((READ_TEMP_HYST_LIMIT, buf), w)
      else if option = '3' then some ((READ_TEMP_SET_LIMIT, buf), w)
      else if option = 'x' then some ((E.alert_menu_no_return, buf), clear_screen w)
      else show_alert_menu_loop E fuel buf w

def show_alert_menu (E : Env) (buf : Nat × Nat) (w : World) :
    Option ((Nat × Nat × Nat) × World) :=
  show_alert_menu_loop E (w.stdin.length + 1) buf w

def parse_config (conf : Nat) (w : World) : World :=
  let w := printf "+--------------------+--------------+\n" [] w
  let w := printf "|       Setting      |     Value    |\n" [] w
  let w := printf "+--------------------+--------------+\n" [] w
  let w := printf "| %-18s | " [.str "Shutdown:"] w
  let w :=
    if (conf &&& SHUTDOWN_MASK) = 0 then printf "%-12s |\n" [.str "Disable"] w
    else if (conf &&& SHUTDOWN_MASK) = SHUTDOWN_MASK then printf "%-12s |\n" [.str "Enable"] w
    else printf "%-12s |\n" [.str "UNKNOWN"] w
  let w := printf "| %-18s | " [.str "Alert Mode:"] w
  let w :=
    if ((conf &&& ALERT_MODE_MASK) >>> 1) = 0 then printf "%-12s |\n" [.str "Comp"] w
    else if ((conf &&& ALERT_MODE_MASK) >>> 1) = 1 then printf "%-12s |\n" [.str "Intr"] w
    else printf "%-12s |\n" [.str "UNKNOWN"] w
  let w := printf "| %-18s | " [.str "Alert Polarity:"] w
  let w :=
    if ((conf &&& ALERT_POLARITY_MASK) >>> 2) = 0 then printf "%-12s |\n" [.str "Low"] w
    else if ((conf &&& ALERT_POLARITY_MASK) >>> 2) = 1 then printf "%-12s |\n" [.str "High"] w
    else printf "%-12s |\n" [.str "UNKNOWN"] w
  let w := printf "| %-18s | " [.str "Fault Queue:"] w
  let w :=
    if ((conf &&& FAULT_QUEUE_MASK) >>> 3) = 0 then printf "%-12d |\n" [.int 1] w
    else if ((conf &&& FAULT_QUEUE_MASK) >>> 3) = 1 then printf "%-12d |\n" [.int 2] w
    else if ((conf &&& FAULT_QUEUE_MASK) >>> 3) = 2 then printf "%-12d |\n" [.int 4] w
    else if ((conf &&& FAULT_QUEUE_MASK) >>> 3) = 3 then printf "%-12d |\n" [.int 6] w
    else printf "%-12s |\n" [.str "UNKNOWN"] w
  let w := printf "| %-18s | " [.str "ADC Resolution:"] w
  let w :=
    if ((conf &&& ADC_RESOLUTION_MASK) >>> 5) = 0 then printf "%-12s |\n" [.str "0.5C"] w
    else if ((conf &&& ADC_RESOLUTION_MASK) >>> 5) = 1 then printf "%-12s |\n" [.str "0.25C"] w
    else if ((conf &&& ADC_RESOLUTION_MASK) >>> 5) = 2 then
      printf "%-12s |\n" [.str "0.125C"] w
    else if ((conf &&& ADC_RESOLUTION_MASK) >>> 5) = 3 then
      printf "%-12s |\n" [.str "0.0625C"] w
    else printf "%-12s |\n" [.str "UNKNOWN"] w
  let w := printf "| %-18s | " [.str "One-Shot:"] w
  let w :=
    if ((conf &&& ONE_SHOT_MASK) >>> 7) = 0 then printf "%-12s |\n" [.str "Disable"] w
    else if ((conf &&& ONE_SHOT_MASK) >>> 7) = 1 then printf "%-12s |\n" [.str "Enable"] w
    else printf "%-12s |\n" [.str "UNKNOWN"] w
  printf "+--------------------+--------------+\n" [] w

/-! ## core1.c -/

/-- Lines 102 to 126 of `handle_show_config`: the values of `has_new_change`
and `new_config_result` after the chain of tests.  The operand `~MASK` is an
`int` with every bit above the mask set; `new_config_result` is a `uint8_t`. -/
def config_change (user_config_result curr_config_result : Nat) : Bool × Nat :=
  if user_config_result &&& NO_CHANGE_SHIFT ≠ 0 then (false, 0x0)
  else if user_config_result &&& SHUTDOWN_MODE_SHIFT ≠ 0 then
    (true, ((curr_config_result &&& (0xFFFFFFFF ^^^ SHUTDOWN_MODE_REQ_MASK)) |||
            (user_config_result &&& SHUTDOWN_MODE_REQ_MASK)) % 256)
  else if user_config_result &&& COMP_INT_MODE_SHIFT ≠ 0 then
    (true, ((curr_config_result &&& (0xFFFFFFFF ^^^ COMP_INT_MODE_REQ_MASK)) |||
            (user_config_result &&& COMP_INT_MODE_REQ_MASK)) % 256)
  else if user_config_result &&& ALERT_POLARITY_SHIFT ≠ 0 then
    (true, ((curr_config_result &&& (0xFFFFFFFF ^^^ ALERT_POLARITY_REQ_MASK)) |||
            (user_config_result &&& ALERT_POLARITY_REQ_MASK)) % 256)
  else if user_config_result &&& FAULT_QUEUE_MODE_SHIFT ≠ 0 then
    (true, ((curr_config_result &&& (0xFFFFFFFF ^^^ FAULT_QUEUE_MODE_REQ_MASK)) |||
            (user_config_result &&& FAULT_QUEUE_MODE_REQ_MASK)) % 256)
  else if user_config_result &&& ADC_RESOLUTION_SHIFT ≠ 0 then
    (true, ((curr_config_result &&& (0xFFFFFFFF ^^^ ADC_RESOLUTION_REQ_MASK)) |||
            (user_config_result &&& ADC_RESOLUTION_REQ_MASK)) % 256)
  else if user_config_result &&& ONE_SHOT_MODE_SHIFT ≠ 0 then
    (true, ((curr_config_result &&& (0xFFFFFFFF ^^^ ONE_SHOT_MODE_REQ_MASK)) |||
            (user_config_result &&& ONE_SHOT_MODE_REQ_MASK)) % 256)
  else (false, 0x0)

/-- Lines 101 to 136 of `handle_show_config`: what the function does once
`show_config_menu` has returned `user_config_result`. -/
def handle_show_config_apply (user_config_result : Nat) (w : World) : World :=
  let (curr_config_result, w) := read_config w.dev_addr w
  let (has_new_change, new_config_result) := config_change user_config_result curr_config_result
  let w := if has_new_change then (write_config w.dev_addr new_config_result w).2 else w
  let w := show_landing_page w
  let (config_result, w) := read_config w.dev_addr w
  let w := printf "Sensor Config Status\n" [] w
  let w := parse_config config_result w
  multicore_fifo_push_blocking ENABLE_IRQ w

def handle_show_config (w : World) : Option World :=
  let w := multicore_fifo_push_blocking DISABLE_IRQ w
  match show_config_menu w with
  | none => none
  | some (user_config_result, w) => some (handle_show_config_apply user_config_result w)

/-- Lines 155 to 170 of `handle_show_dev_id`: what the function does once
`show_dev_change_menu` has returned `addr`. -/
def handle_show_dev_id_apply (addr : Nat) (w : World) : World :=
  let w := show_landing_page w
  let w := multicore_fifo_push_blocking ENABLE_IRQ w
  let w :=
    if addr ≠ 0 then
      let (ret, w) := check_addr addr I2C_READ_TIMEOUT_MICRO_SEC w
      if ret > 0 then
        let w := { w with dev_addr := addr, trace := w.trace ++ [.store_dev_addr addr] }
        printf "[SUCCCESS] Dev ID changed to 0x%x\n" [.int addr] w
      else
        printf "[WARNING] Could not communicate with Dev ID 0x%x\n" [.int addr] w
    else w
  multicore_fifo_drain w

def handle_show_dev_id (w : World) : Option World :=
  let w := multicore_fifo_push_blocking DISABLE_IRQ w
  match show_dev_change_menu TCN75A_DEFAULT_ADDR w with
  | none => none
  | some (addr, w) => some (handle_show_dev_id_apply addr w)

/-- Lines 198 to 210 of `handle_show_alert_menu`: what the function does once
`show_alert_menu` has returned `result` and left `buf`. -/
def handle_show_alert_menu_apply (result : Nat) (buf : Nat × Nat) (w : World) : World :=
  let w := show_landing_page w
  let w :=
    if (result &&& READ_TEMP_HYST_LIMIT) ≠ 0 ∧ READ_TEMP_HYST_LIMIT ≠ 0 then
      read_temp_hyst_limit w.dev_addr w
    else if (result &&& READ_TEMP_SET_LIMIT) ≠ 0 ∧ READ_TEMP_SET_LIMIT ≠ 0 then
      read_temp_set_limit w.dev_addr w
    else if (result &&& WRITE_TEMP_HYST_LIMIT) ≠ 0 ∧ WRITE_TEMP_HYST_LIMIT ≠ 0 then
      write_temp_hyst_limit w.dev_addr buf.1 buf.2 w
    else if (result &&& WRITE_TEMP_SET_LIMIT) ≠ 0 ∧ WRITE_TEMP_SET_LIMIT ≠ 0 then
      write_temp_set_limit w.dev_addr buf.1 buf.2 w
    else w
  multicore_fifo_push_blocking ENABLE_IRQ w

def handle_show_alert_menu (E : Env) (w : World) : Option World :=
  let w := multicore_fifo_push_blocking DISABLE_IRQ w
  match show_alert_menu E E.alert_buf_uninit w with
  | none => none
  | some ((result, buf), w) => some (handle_show_alert_menu_apply result buf w)

def handle_request (E : Env) (request : Nat) (w : World) : Option World :=
  if request = SCAN_I2C_BUS then
    let w := show_landing_page w
    match scan_i2c_bus I2C_READ_TIMEOUT_MICRO_SEC w with
    | none => none
    | some w => some (multicore_fifo_drain w)
  else if request = SHOW_CONFIG then handle_show_config w
  else if request = SHOW_DEV_ID then handle_show_dev_id w
  else if request = SHOW_ALERT_MENU then handle_show_alert_menu E w
  else some w

/-- One turn of the `while (1)` loop of `core1_entry`. -/
def core1_entry_iteration (E : Env) (w : World) : Option World :=
  let (level, w) := gpio_get ALERT_GP w
  let has_alert_N := !level
  let w := gpio_put LED1 has_alert_N w
  let w := gpio_put LED0 (!has_alert_N) w
  let (valid, w) := multicore_fifo_rvalid w
  if valid then
    match multicore_fifo_pop_blocking w with
    | none => none
    | some (request, w) => handle_request E request w
  else some w

/-! ## main.c -/

/-- One turn of the `while (1)` loop of `main`. -/
def main_loop_iteration (w : World) : Option World :=
  let (valid, w) := multicore_fifo_rvalid w
  let handled : Option World :=
    if valid then
      match multicore_fifo_pop_blocking w with
      | none => none
      | some (request, w) =>
        if request = DISABLE_IRQ then some (disable_irq proj_gpio NUMBER_OF_GPIOS w)
        else if request = ENABLE_IRQ then some (enable_irq proj_gpio NUMBER_OF_GPIOS w)
        else some w
    else some w
  match handled with
  | none => none
  | some w =>
    let w := if w.enable_read_temp then print_ambient_temperature w.dev_addr w else w
    let w := gpio_put ONBOARD_LED true w
    let w := sleep_ms BLINK_LED_DELAY w
    let w := gpio_put ONBOARD_LED false w
    some (sleep_ms BLINK_LED_DELAY w)

/-! ## gpio_callback.c -/

/-- The first chain of tests of `gpio_callback`: the index in `btns` of the
button on pin `gpio` and its action, or `none` for any other pin. -/
def gpio_callback_target (gpio : Nat) : Option (Fin NUMBER_OF_BTNS × Nat) :=
  if gpio = BTN0 then some (0, SCAN_I2C_BUS)
  else if gpio = BTN1 then some (1, SHOW_CONFIG)
  else if gpio = BTN2 then some (2, SHOW_DEV_ID)
  else if gpio = BTN3 then some (3, SHOW_ALERT_MENU)
  else if gpio = BTN4 then some (4, SHOW_TEMP)
  else none

def gpio_callback (L : BtnLib) (gpio events : Nat) (w : World) : World :=
  match gpio_callback_target gpio with
  | none => w
  | some (target_btn, btn_action) =>
    if events &&& GPIO_IRQ_EDGE_RISE ≠ 0 ∧ events &&& GPIO_IRQ_EDGE_FALL ≠ 0 then
      { w with btns := Function.update w.btns target_btn
                 (L.reset_btn_state (w.btns target_btn)),
               trace := w.trace ++ [.reset_btn_state target_btn.val] }
    else if events &&& GPIO_IRQ_EDGE_RISE ≠ 0 then
      { w with btns := Function.update w.btns target_btn
                 (L.set_rising_edge_state (w.btns target_btn)),
               trace := w.trace ++ [.set_rising_edge_state target_btn.val] }
    else
      let w :=
        if events &&& GPIO_IRQ_EDGE_FALL ≠ 0 then
          { w with btns := Function.update w.btns target_btn
                     (L.set_falling_edge_state (w.btns target_btn)),
                   trace := w.trace ++ [.set_falling_edge_state target_btn.val] }
        else w
      let is_btn_stable := L.debounce (w.btns target_btn)
      let w := w.emit (.debounce target_btn.val is_btn_stable)
      if is_btn_stable then
        if btn_action = SHOW_TEMP then
          { w with enable_read_temp := true,
                   trace := w.trace ++ [.store_enable_read_temp true] }
        else
          let w := { w with enable_read_temp := false,
                            trace := w.trace ++ [.store_enable_read_temp false] }
          let w := multicore_fifo_drain w
          (multicore_fifo_push_timeout_us btn_action 1000 w).2
      else w

/-! ## Notions used to state the properties -/

def Event.is_console : Event → Bool
  | .clear_screen => true
  | .printf _ _ => true
  | .scanf_char _ => true
  | .get_input _ => true
  | .sleep_ms _ => true
  | _ => false

def Event.is_bus : Event → Bool
  | .i2c_write_blocking _ _ _ _ => true
  | .i2c_read_blocking _ _ _ _ _ => true
  | .i2c_read_timeout_us _ _ _ _ _ _ => true
  | _ => false

def Event.is_push : Event → Bool
  | .multicore_fifo_push_blocking _ => true
  | _ => false

/-- The selector flags with the masks of their fields, in the order in which
a request is examined. -/
def selector_priority : List (Nat × Nat) :=
  [ (SHUTDOWN_MODE_SHIFT, SHUTDOWN_MODE_REQ_MASK),
    (COMP_INT_MODE_SHIFT, COMP_INT_MODE_REQ_MASK),
    (ALERT_POLARITY_SHIFT, ALERT_POLARITY_REQ_MASK),
    (FAULT_QUEUE_MODE_SHIFT, FAULT_QUEUE_MODE_REQ_MASK),
    (ADC_RESOLUTION_SHIFT, ADC_RESOLUTION_REQ_MASK),
    (ONE_SHOT_MODE_SHIFT, ONE_SHOT_MODE_REQ_MASK) ]

/-- The first entry of `selector_priority` whose flag is set in `r`. -/
def first_selected (r : Nat) : Option (Nat × Nat) :=
  selector_priority.find? (fun p => r &&& p.1 ≠ 0)

/-- The value of `tmp[0]` in `read_config` after the bus answered `reply` to
the read. -/
def read_config_byte (reply : BusReply) : Nat :=
  (fill_buf [0] 1 reply.data).getD 0 0

/-- The two bus transfers of one `read_config(i2c, addr)`. -/
def read_config_events (addr : Nat) (r1 r2 : BusReply) : List Event :=
  [ .i2c_write_blocking addr [SENSOR_CONFIG_REG] true r1.ret,
    .i2c_read_blocking addr 1 false r2.ret (fill_buf [0] 1 r2.data) ]

/-- The bus transfer of one `write_config(i2c, addr, conf)`. -/
def write_config_events (addr conf : Nat) (r : BusReply) : List Event :=
  [ .i2c_write_blocking addr [SENSOR_CONFIG_REG, conf] false r.ret ]

/-- A world in which nothing has happened yet. -/
def World.blank : World :=
  { dev_addr := TCN75A_DEFAULT_ADDR, stdin := [], bus := fun _ => ⟨0, []⟩, bus_calls := 0,
    trace := [] }

/-- What `parse_config(conf)` prints. -/
def parse_config_events (conf : Nat) : List Event :=
  (parse_config conf World.blank).trace

/-- The configuration bytes written to a sensor: the address and the byte of
every write of two bytes that starts with the register pointer
`SENSOR_CONFIG_REG`. -/
def config_writes (tr : List Event) : List (Nat × Nat) :=
  tr.filterMap fun e =>
    match e with
    | .i2c_write_blocking addr [reg, conf] _ _ =>
      if reg = SENSOR_CONFIG_REG then some (addr, conf) else none
    | _ => none

/-- `w'` is `w` after console activity only. -/
def ConsoleOnly (w w' : World) : Prop :=
  w'.dev_addr = w.dev_addr ∧ w'.bus = w.bus ∧ w'.bus_calls = w.bus_calls ∧
    ∃ ev, w'.trace = w.trace ++ ev ∧ ∀ e ∈ ev, e.is_console = true

/-- A bus on which every read delivers the byte `0xA5` and every transfer
reports one byte. -/
def sample_bus : Nat → BusReply := fun _ => ⟨1, [0xA5]⟩

/-- A world with the given pending keys and `sample_bus`. -/
def sample_world (keys : List Char) : World :=
  { dev_addr := TCN75A_DEFAULT_ADDR, stdin := keys, bus := sample_bus, bus_calls := 0,
    trace := [] }

/-- The number of addresses below `a` that are not reserved: the number of
probes a scan has made when it reaches `a`. -/
def probe_index (a : Nat) : Nat :=
  ((List.range a).filter (fun x => !reserved_addr x)).length

/-- What one turn of the scan loop shows and does for the address `a` when
the bus answers `reply` to the probe (if there is one). -/
def scan_row (timeout a : Nat) (reply : BusReply) : List Event :=
  (if a % 16 = 0 then [Event.printf "%02x " [.int a]] else []) ++
    (if reserved_addr a then [Event.printf "X" []]
     else [Event.i2c_read_timeout_us a 1 false timeout reply.ret (fill_buf [0] 1 reply.data),
           Event.printf (if reply.ret ≤ 0 then "." else "@") []]) ++
    [Event.printf (if a % 16 = 15 then "\n" else "  ") []]

/-- The probes in a trace: address and returned value of every
`i2c_read_timeout_us`, in order. -/
def probes (tr : List Event) : List (Nat × Int) :=
  tr.filterMap fun e =>
    match e with
    | .i2c_read_timeout_us addr _ _ _ ret _ => some (addr, ret)
    | _ => none

/-- The scan markers in a trace: every `printf` of `X`, `.` or `@`, in
order. -/
def markers (tr : List Event) : List String :=
  tr.filterMap fun e =>
    match e with
    | .printf fmt [] => if fmt = "X" ∨ fmt = "." ∨ fmt = "@" then some fmt else none
    | _ => none

/-- Everything a scan shows and does when the bus answers with `bus` from
call number `k0` on: the two heading lines, the turns for the addresses
0, 1, ..., 127 in this order, and the closing line. -/
def scan_events (timeout : Nat) (bus : Nat → BusReply) (k0 : Nat) : List Event :=
  [Event.printf "\nI2C Bus Scan\n" [],
   Event.printf "   0  1  2  3  4  5  6  7  8  9  A  B  C  D  E  F\n" []] ++
    (List.range 128).flatMap (fun a => scan_row timeout a (bus (k0 + probe_index a))) ++
    [Event.printf "Done.\n" []]

/-- From `w` to `w'` the trace only grew, and by no push to the FIFO. -/
def NoPush (w w' : World) : Prop :=
  ∃ ev, w'.trace = w.trace ++ ev ∧ ∀ e ∈ ev, e.is_push = false

/-- From `w` to `wf` the trace grew by a push of `DISABLE_IRQ`, then events
that are no pushes, then a push of `ENABLE_IRQ`. -/
def IrqBracketed (w wf : World) : Prop :=
  ∃ mid, wf.trace =
      w.trace ++ [.multicore_fifo_push_blocking DISABLE_IRQ] ++ mid ++
        [.multicore_fifo_push_blocking ENABLE_IRQ] ∧
    ∀ e ∈ mid, e.is_push = false

def Event.is_store : Event → Bool
  | .store_dev_addr _ => true
  | _ => false

/-- No bus transfer and no store to `dev_addr` happens before the first push
of `DISABLE_IRQ`, nor from the first push of `ENABLE_IRQ` after it on. -/
def transaction_inside_bracket (tr : List Event) : Bool :=
  let before := tr.takeWhile (fun e => e ≠ .multicore_fifo_push_blocking DISABLE_IRQ)
  let rest := tr.dropWhile (fun e => e ≠ .multicore_fifo_push_blocking DISABLE_IRQ)
  let after := rest.dropWhile (fun e => e ≠ .multicore_fifo_push_blocking ENABLE_IRQ)
  (before ++ after).all (fun e => !e.is_bus && !e.is_store)

/-- A line reader and a converter that accepts one text, for examples. -/
def sample_env : Env :=
  { get_input := fun s n =>
      let line := s.takeWhile (fun c => c ≠ '\n')
      some (line.take (n - 1), line.length + 1),
    str_to_fixed_point := fun text =>
      if text = ['2', '5', '.', '5'] then (true, 25, 128) else (false, 0, 0),
    alert_menu_no_return := 0,
    alert_buf_uninit := (0, 0) }

/-! ## Notions used to state the properties of gpio_callback -/

/-- A message is sent: a push to the FIFO, blocking or timed. -/
def Event.is_send : Event → Bool
  | .multicore_fifo_push_blocking _ => true
  | .multicore_fifo_push_timeout_us _ _ _ => true
  | _ => false

/-- The channel is used: a drain or a push. -/
def Event.is_channel : Event → Bool
  | .multicore_fifo_drain => true
  | .multicore_fifo_push_blocking _ => true
  | .multicore_fifo_push_timeout_us _ _ _ => true
  | _ => false

/-- What one invocation of `gpio_callback` adds to the trace. -/
def gpio_callback_events (L : BtnLib) (gpio events : Nat) (w : World) : List Event :=
  (gpio_callback L gpio events w).trace.drop w.trace.length

/-- The button state `gpio_callback` hands to `debounce` when the delivery
does not report a rising edge. -/
def debounce_arg (L : BtnLib) (events : Nat) (b : BtnState) : BtnState :=
  if events &&& GPIO_IRQ_EDGE_FALL ≠ 0 then L.set_falling_edge_state b else b

/-- The variables of the program: the globals `dev_addr`, `enable_read_temp`
and `btns`. -/
def World.vars (w : World) : Nat × Bool × (Fin NUMBER_OF_BTNS → BtnState) :=
  (w.dev_addr, w.enable_read_temp, w.btns)

/-- A debounce library for examples: `debounce` reports a stable press when a
falling edge is pending. -/
def sample_lib : BtnLib :=
  { reset_btn_state := fun b => { b with pending_rising := false, pending_falling := false,
                                         progress := 0 },
    set_rising_edge_state := fun b => { b with pending_rising := true },
    set_falling_edge_state := fun b => { b with pending_falling := true },
    debounce := fun b => b.pending_falling }

/-! ## Notions used to state the properties of the alert menu -/

/-- The two bus transfers of a read of the two bytes of the temperature
register `reg`. -/
def read_temp_events (addr reg : Nat) (r1 r2 : BusReply) : List Event :=
  [ .i2c_write_blocking addr [reg] true r1.ret,
    .i2c_read_blocking addr 2 false r2.ret (fill_buf [0, 0] 2 r2.data) ]

/-- The bus transfer of a write of the bytes `b0`, `b1` to the temperature
register `reg`. -/
def write_temp_events (addr reg b0 b1 : Nat) (r : BusReply) : List Event :=
  [ .i2c_write_blocking addr [reg, b0, b1] false r.ret ]

/-- An environment in which the value left behind when `show_alert_menu`
ends without a `return` has bit 27 set. -/
def quit_env : Env :=
  { sample_env with alert_menu_no_return := READ_TEMP_HYST_LIMIT }

/-! ## Notions used to state the properties of parse_config and of the
configuration menu -/

/-- The values of the six rows of the configuration table for the byte
`conf`, read off the register layout: Shutdown is bit 0, Alert Mode bit 1,
Alert Polarity bit 2, Fault Queue bits 3-4, ADC Resolution bits 5-6 and
One-Shot bit 7. -/
def config_rows (conf : Nat) : List PArg :=
  [ .str (if conf % 2 = 1 then "Enable" else "Disable"),
    .str (if conf / 2 % 2 = 1 then "Intr" else "Comp"),
    .str (if conf / 4 % 2 = 1 then "High" else "Low"),
    .int ([1, 2, 4, 6].getD (conf / 8 % 4) 0),
    .str (["0.5C", "0.25C", "0.125C", "0.0625C"].getD (conf / 32 % 4) ""),
    .str (if conf / 128 % 2 = 1 then "Enable" else "Disable") ]

/-- The configuration table with the given values in its six rows. -/
def config_table (rows : List PArg) : List Event :=
  [ .printf "+--------------------+--------------+\n" [],
    .printf "|       Setting      |     Value    |\n" [],
    .printf "+--------------------+--------------+\n" [],
    .printf "| %-18s | " [.str "Shutdown:"],
    .printf "%-12s |\n" [rows.getD 0 (.str "")],
    .printf "| %-18s | " [.str "Alert Mode:"],
    .printf "%-12s |\n" [rows.getD 1 (.str "")],
    .printf "| %-18s | " [.str "Alert Polarity:"],
    .printf "%-12s |\n" [rows.getD 2 (.str "")],
    .printf "| %-18s | " [.str "Fault Queue:"],
    .printf "%-12d |\n" [rows.getD 3 (.str "")],
    .printf "| %-18s | " [.str "ADC Resolution:"],
    .printf "%-12s |\n" [rows.getD 4 (.str "")],
    .printf "| %-18s | " [.str "One-Shot:"],
    .printf "%-12s |\n" [rows.getD 5 (.str "")],
    .printf "+--------------------+--------------+\n" [] ]

/-- The seven flags of a request word: the six selector flags and the
no-change flag. -/
def request_flags : List Nat :=
  [ SHUTDOWN_MODE_SHIFT, COMP_INT_MODE_SHIFT, ALERT_POLARITY_SHIFT, FAULT_QUEUE_MODE_SHIFT,
    ADC_RESOLUTION_SHIFT, ONE_SHOT_MODE_SHIFT, NO_CHANGE_SHIFT ]

/-! ## Notions used to state the properties of the two main loops -/

/-- The interrupts are enabled or disabled: `gpio_set_irq_enabled` or
`irq_set_enabled`. -/
def Event.is_irq_control : Event → Bool
  | .gpio_set_irq_enabled _ _ _ => true
  | .irq_set_enabled _ _ => true
  | _ => false

/-- What `enable_irq(proj_gpio, NUMBER_OF_GPIOS)` (with `true`) and
`disable_irq(proj_gpio, NUMBER_OF_GPIOS)` (with `false`) do: the five buttons
are the entries with `has_irq`. -/
def irq_events (enabled : Bool) : List Event :=
  [BTN0, BTN1, BTN2, BTN3, BTN4].flatMap fun pin =>
    [ Event.gpio_set_irq_enabled pin (GPIO_IRQ_EDGE_RISE ||| GPIO_IRQ_EDGE_FALL) enabled,
      Event.irq_set_enabled IO_IRQ_BANK0 enabled ]

/-- A world in which the word `v` waits in the read FIFO. -/
def pending_world (v : Nat) : World :=
  { sample_world [] with fifo_rx := fun _ => some v }

/-- The contents of the two inter-core FIFOs of the RP2040, oldest word
first: the words core 1 has written for core 0 and the words core 0 has
written for core 1. -/
structure Fifos where
  to_core0 : List Nat
  to_core1 : List Nat
  deriving DecidableEq, Repr

/-- What one SDK call made on core `core` does to the two FIFOs
(pico/multicore.h): a push that succeeds appends to the FIFO read by the
other core; a pop removes the head of the FIFO read by this core; a drain
discards everything in the FIFO read by this core. -/
def fifo_effect (core : Nat) (e : Event) (q : Fifos) : Fifos :=
  match e with
  | .multicore_fifo_push_blocking v =>
    if core = 0 then { q with to_core1 := q.to_core1 ++ [v] }
    else { q with to_core0 := q.to_core0 ++ [v] }
  | .multicore_fifo_push_timeout_us v _ true =>
    if core = 0 then { q with to_core1 := q.to_core1 ++ [v] }
    else { q with to_core0 := q.to_core0 ++ [v] }
  | .multicore_fifo_pop_blocking _ =>
    if core = 0 then { q with to_core0 := q.to_core0.tail }
    else { q with to_core1 := q.to_core1.tail }
  | .multicore_fifo_drain =>
    if core = 0 then { q with to_core0 := [] } else { q with to_core1 := [] }
  | _ => q

/-- The FIFOs after the events `evs`, all of core `core`, in order. -/
def fifo_run (core : Nat) (evs : List Event) (q : Fifos) : Fifos :=
  evs.foldl (fun q e => fifo_effect core e q) q

/-- The states of the program that can be reached: from any state in which
`dev_addr` has its initial value, by key presses arriving, by a request
handled on core 1, by a delivery to `gpio_callback`, and by a turn of either
main loop. -/
inductive Reachable (E : Env) (L : BtnLib) : World → Prop
  | start (w : World) : w.dev_addr = TCN75A_DEFAULT_ADDR → Reachable E L w
  | keys (w : World) (typed : List Char) :
      Reachable E L w → Reachable E L { w with stdin := w.stdin ++ typed }
  | request (w w' : World) (request : Nat) :
      Reachable E L w → handle_request E request w = some w' → Reachable E L w'
  | callback (w : World) (gpio events : Nat) :
      Reachable E L w → Reachable E L (gpio_callback L gpio events w)
  | core1_turn (w w' : World) :
      Reachable E L w → core1_entry_iteration E w = some w' → Reachable E L w'
  | main_turn (w w' : World) :
      Reachable E L w → main_loop_iteration w = some w' → Reachable E L w'

/-- The world after core 1 has handled `SHOW_DEV_ID` with the key `3` typed
and a sensor answering the probe. -/
def changed_world : World :=
  (handle_request sample_env SHOW_DEV_ID (sample_world ['3'])).getD (sample_world [])

/-! ## The temperature format of util.h -/

/-- Modelled from the spec: the integer byte of a temperature, read as a
two's-complement count of whole degrees. -/
def signed8 (b : Nat) : Int :=
  if b % 256 < 128 then ((b % 256 : Nat) : Int) else ((b % 256 : Nat) : Int) - 256

/-- Modelled from the spec: the temperature in the bytes
`(integer_part, decimal_part)` as a count of sixteenths of a degree.  The
relevant high bits of the fraction byte are taken to be its upper four, the
finest resolution the configuration menu offers (12 bit or 0.0625C). -/
def fixed_steps (integer_part decimal_part : Nat) : Int :=
  signed8 integer_part * 16 + ((decimal_part % 256 / 16 : Nat) : Int)

/-- Modelled from the spec: `fixedToFloat(integer_part, decimal_part)` of
util.h, which is not part of the sources: the signed whole degrees of the
integer byte plus the binary fraction in the high bits of the fraction byte.
Every value is a multiple of 1/16 below 128 in size, which a `float` holds
exactly. -/
def fixedToFloat (integer_part decimal_part : Nat) : ℚ :=
  (signed8 integer_part : ℚ) + ((decimal_part % 256 / 16 : Nat) : ℚ) / 16

/-- Modelled from the spec: the number written by a run of decimal digits;
`none` for an empty run or any other character. -/
def parse_digits (cs : List Char) : Option Nat :=
  if cs = [] then none
  else
    cs.foldl
      (fun acc c =>
        match acc with
        | none => none
        | some n => if c.isDigit then some (10 * n + (c.toNat - 48)) else none)
      (some 0)

/-- Modelled from the spec: an unsigned decimal text, digits with an optional
point followed by digits, as its digits read as one number and the count of
digits after the point. -/
def parse_unsigned (cs : List Char) : Option (Nat × Nat) :=
  let whole := cs.takeWhile (fun c => c ≠ '.')
  match cs.dropWhile (fun c => c ≠ '.') with
  | [] => (parse_digits whole).map (fun n => (n, 0))
  | _ :: frac =>
    match parse_digits whole, parse_digits frac with
    | some a, some b => some (a * 10 ^ frac.length + b, frac.length)
    | _, _ => none

/-- Modelled from the spec: a decimal text with an optional leading minus
sign: whether it is negative, its digits read as one number, and the count
of digits after the point; `none` for malformed text. -/
def parse_decimal (cs : List Char) : Option (Bool × Nat × Nat) :=
  if cs.head? = some '-' then (parse_unsigned cs.tail).map (fun p => (true, p.1, p.2))
  else (parse_unsigned cs).map (fun p => (false, p.1, p.2))

/-- Modelled from the spec: the number a decimal text denotes. -/
def decimal_value (cs : List Char) : Option ℚ :=
  (parse_decimal cs).map fun p =>
    (if p.1 then -(p.2.1 : ℚ) else (p.2.1 : ℚ)) / 10 ^ p.2.2

/-- Modelled from the spec: `str_to_fixed_point(input, output)` of util.h,
which is not part of the sources: parses a decimal text, rounds it to the
nearest sixteenth of a degree (a half upwards), and leaves the whole degrees
in `output[0]` and the fraction byte in `output[1]`; malformed text gives
false and no output. -/
def str_to_fixed_point (input : List Char) : Bool × Int × Int :=
  match parse_decimal input with
  | none => (false, 0, 0)
  | some (negative, m, d) =>
    let num : Int := if negative then -(m : Int) else (m : Int)
    let steps : Int := (2 * 16 * num + 10 ^ d) / (2 * 10 ^ d)
    (true, steps / 16, steps % 16 * 16)

/-- Modelled from the spec: the four decimal digits of a number of ten
thousandths below one. -/
def fraction_digits (n : Nat) : List Char :=
  [n / 1000 % 10, n / 100 % 10, n / 10 % 10, n % 10].map (fun d => Char.ofNat (48 + d))

/-- Modelled from the spec: the decimal text of the temperature in the bytes
`(integer_part, decimal_part)` with four digits after the point, the
precision `print_temp_table` prints with. -/
def decimal_text (integer_part decimal_part : Nat) : List Char :=
  let s := fixed_steps integer_part decimal_part
  (if s < 0 then ['-'] else []) ++
    (Nat.toDigits 10 (s.natAbs / 16) ++ '.' :: fraction_digits (s.natAbs % 16 * 625))

/-! ## Bit arithmetic of one field update -/

theorem testBit_allOnes32 (i : Nat) (hi : i < 32) : (0xFFFFFFFF : Nat).testBit i = true := by
  have h : (0xFFFFFFFF : Nat) = 2 ^ 32 - 1 := by norm_num
  rw [h, Nat.testBit_two_pow_sub_one]
  simpa using hi

theorem testBit_allOnes8 (i : Nat) (hi : i < 8) : (0xFF : Nat).testBit i = true := by
  have h : (0xFF : Nat) = 2 ^ 8 - 1 := by norm_num
  rw [h, Nat.testBit_two_pow_sub_one]
  simpa using hi

theorem testBit_of_lt_256 (x i : Nat) (hx : x < 256) (hi : 8 ≤ i) : x.testBit i = false := by
  apply Nat.testBit_lt_two_pow
  calc x < 2 ^ 8 := by simpa using hx
    _ ≤ 2 ^ i := Nat.pow_le_pow_right (by norm_num) hi

/-- Bit `i` of the byte the code computes for one field. -/
theorem field_update_testBit (mask b r i : Nat) (hm : mask < 256) (hb : b < 256) :
    (((b &&& (0xFFFFFFFF ^^^ mask)) ||| (r &&& mask)) % 256).testBit i =
      if mask.testBit i then r.testBit i else b.testBit i := by
  have h256 : (256 : Nat) = 2 ^ 8 := by norm_num
  rw [h256, Nat.testBit_mod_two_pow]
  by_cases hi : i < 8
  · have h32 : i < 32 := by omega
    simp [hi, Nat.testBit_lor, Nat.testBit_land, Nat.testBit_xor, testBit_allOnes32 i h32]
    cases mask.testBit i <;> simp
  · have hm' := testBit_of_lt_256 mask i hm (by omega)
    have hb' := testBit_of_lt_256 b i hb (by omega)
    simp [hi, hm', hb']

/-- The byte the code computes is the byte-wide expression. -/
theorem field_update_eq (mask b r : Nat) (hm : mask < 256) (hb : b < 256) :
    ((b &&& (0xFFFFFFFF ^^^ mask)) ||| (r &&& mask)) % 256 =
      (b &&& (0xFF ^^^ mask)) ||| (r &&& mask) := by
  apply Nat.eq_of_testBit_eq
  intro i
  rw [field_update_testBit mask b r i hm hb]
  by_cases hi : i < 8
  · simp [Nat.testBit_lor, Nat.testBit_land, Nat.testBit_xor, testBit_allOnes8 i hi]
    cases mask.testBit i <;> simp
  · have hm' := testBit_of_lt_256 mask i hm (by omega)
    have hb' := testBit_of_lt_256 b i hb (by omega)
    simp [Nat.testBit_lor, Nat.testBit_land, hm', hb']

theorem read_config_byte_lt (reply : BusReply) : read_config_byte reply < 256 := by
  unfold read_config_byte fill_buf
  rcases reply with ⟨ret, data⟩
  cases data with
  | nil => simp
  | cons d ds => simp; omega

/-! ## What the helpers of i2c_util.c do to the world -/

theorem read_config_fst (a : Nat) (w : World) :
    (read_config a w).1 = read_config_byte (w.bus (w.bus_calls + 1)) := by
  simp [read_config, read_temp_reg, reg_read, i2c_write_blocking, i2c_read_blocking,
    read_config_byte]

theorem read_config_snd (a : Nat) (w : World) :
    (read_config a w).2 =
      { w with bus_calls := w.bus_calls + 2,
               trace := w.trace ++
                 read_config_events a (w.bus w.bus_calls) (w.bus (w.bus_calls + 1)) } := by
  simp [read_config, read_temp_reg, reg_read, i2c_write_blocking, i2c_read_blocking,
    read_config_events]

theorem write_config_snd (a conf : Nat) (w : World) :
    (write_config a conf w).2 =
      { w with bus_calls := w.bus_calls + 1,
               trace := w.trace ++ write_config_events a conf (w.bus w.bus_calls) } := by
  simp [write_config, write_temp_reg, reg_write, i2c_write_blocking, write_config_events]

theorem emits_emits (w : World) (a b : List Event) : (w.emits a).emits b = w.emits (a ++ b) := by
  simp [World.emits]

theorem emits_nil (w : World) : w.emits [] = w := by
  simp [World.emits]

theorem printf_eq_emits (fmt : String) (args : List PArg) (w : World) :
    printf fmt args w = w.emits [.printf fmt args] := rfl

theorem ite_emits (c : Prop) [Decidable c] (w : World) (a b : List Event) :
    (if c then w.emits a else w.emits b) = w.emits (if c then a else b) := by
  split <;> rfl

theorem parse_config_eq (conf : Nat) (w : World) :
    parse_config conf w = w.emits (parse_config_events conf) := by
  simp only [parse_config_events, parse_config, printf_eq_emits, emits_emits, ite_emits]
  simp [World.emits, World.blank]

theorem all_ite (c : Prop) [Decidable c] (a b : List Event) (p : Event → Bool) :
    (if c then a else b).all p = if c then a.all p else b.all p := by
  split <;> rfl

theorem parse_config_events_console (conf : Nat) :
    ∀ e ∈ parse_config_events conf, e.is_console = true := by
  rw [← List.all_eq_true]
  simp only [parse_config_events, parse_config, printf_eq_emits, emits_emits, ite_emits]
  simp [World.emits, World.blank, List.all_append, all_ite, Event.is_console]

/-! ## handle_show_config -/

theorem config_change_fst (r b : Nat) :
    (config_change r b).1 = true ↔
      (r &&& NO_CHANGE_SHIFT = 0 ∧
        (r &&& SHUTDOWN_MODE_SHIFT ≠ 0 ∨ r &&& COMP_INT_MODE_SHIFT ≠ 0 ∨
         r &&& ALERT_POLARITY_SHIFT ≠ 0 ∨ r &&& FAULT_QUEUE_MODE_SHIFT ≠ 0 ∨
         r &&& ADC_RESOLUTION_SHIFT ≠ 0 ∨ r &&& ONE_SHOT_MODE_SHIFT ≠ 0)) := by
  unfold config_change
  split_ifs <;> simp_all

/-- Everything `handle_show_config` does after the menu has returned `r`,
as a list of events. -/
theorem handle_show_config_apply_trace (r : Nat) (w : World) :
    (handle_show_config_apply r w).trace =
      w.trace ++ read_config_events w.dev_addr (w.bus w.bus_calls) (w.bus (w.bus_calls + 1)) ++
        (if (config_change r (read_config_byte (w.bus (w.bus_calls + 1)))).1 then
          write_config_events w.dev_addr
            (config_change r (read_config_byte (w.bus (w.bus_calls + 1)))).2
            (w.bus (w.bus_calls + 2))
         else []) ++
        show_landing_page_events ++
        (if (config_change r (read_config_byte (w.bus (w.bus_calls + 1)))).1 then
          read_config_events w.dev_addr (w.bus (w.bus_calls + 3)) (w.bus (w.bus_calls + 4)) ++
            [.printf "Sensor Config Status\n" []] ++
            parse_config_events (read_config_byte (w.bus (w.bus_calls + 4)))
         else
          read_config_events w.dev_addr (w.bus (w.bus_calls + 2)) (w.bus (w.bus_calls + 3)) ++
            [.printf "Sensor Config Status\n" []] ++
            parse_config_events (read_config_byte (w.bus (w.bus_calls + 3)))) ++
        [.multicore_fifo_push_blocking ENABLE_IRQ] := by
  unfold handle_show_config_apply
  simp only [read_config_fst, read_config_snd, write_config_snd, parse_config_eq,
    printf_eq_emits, show_landing_page, multicore_fifo_push_blocking, World.emit, World.emits]
  split <;> simp

theorem handle_show_config_apply_dev_addr (r : Nat) (w : World) :
    (handle_show_config_apply r w).dev_addr = w.dev_addr := by
  unfold handle_show_config_apply
  simp only [read_config_fst, read_config_snd, write_config_snd, parse_config_eq,
    printf_eq_emits, show_landing_page, multicore_fifo_push_blocking, World.emit, World.emits]
  split <;> simp

/-! ## The menus only use the console -/

theorem ConsoleOnly.cons_refl (w : World) : ConsoleOnly w w :=
  ⟨rfl, rfl, rfl, [], by simp, by simp⟩

theorem ConsoleOnly.cons_trans {w1 w2 w3 : World} (h12 : ConsoleOnly w1 w2) (h23 : ConsoleOnly w2 w3) :
    ConsoleOnly w1 w3 := by
  obtain ⟨ha, hb, hc, ev, ht, he⟩ := h12
  obtain ⟨ha', hb', hc', ev', ht', he'⟩ := h23
  refine ⟨Eq.trans ha' ha, Eq.trans hb' hb, Eq.trans hc' hc, ev ++ ev', ?_, ?_⟩
  · rw [ht', ht, List.append_assoc]
  · intro e hmem
    rcases List.mem_append.mp hmem with h | h
    · exact he e h
    · exact he' e h

theorem consoleOnly_emits (w : World) (ev : List Event) (h : ∀ e ∈ ev, e.is_console = true) :
    ConsoleOnly w (w.emits ev) :=
  ⟨rfl, rfl, rfl, ev, rfl, h⟩

theorem consoleOnly_clear_screen (w : World) : ConsoleOnly w (clear_screen w) :=
  ⟨rfl, rfl, rfl, [.clear_screen], rfl, by simp [Event.is_console]⟩

theorem consoleOnly_printf (fmt : String) (args : List PArg) (w : World) :
    ConsoleOnly w (printf fmt args w) :=
  ⟨rfl, rfl, rfl, [.printf fmt args], rfl, by simp [Event.is_console]⟩

theorem consoleOnly_sleep_ms (ms : Nat) (w : World) : ConsoleOnly w (sleep_ms ms w) :=
  ⟨rfl, rfl, rfl, [.sleep_ms ms], rfl, by simp [Event.is_console]⟩

theorem consoleOnly_scanf_char {w w' : World} {c : Char} (h : scanf_char w = some (c, w')) :
    ConsoleOnly w w' := by
  unfold scanf_char at h
  split at h
  · simp at h
  · simp only [Option.some.injEq, Prod.mk.injEq] at h
    obtain ⟨_, rfl⟩ := h
    exact ⟨rfl, rfl, rfl, [.scanf_char _], rfl, by simp [Event.is_console]⟩

theorem consoleOnly_get_input {E : Env} {n : Nat} {w w' : World} {text : List Char}
    (h : get_input E n w = some (text, w')) : ConsoleOnly w w' := by
  unfold get_input at h
  split at h
  · simp at h
  · simp only [Option.some.injEq, Prod.mk.injEq] at h
    obtain ⟨_, rfl⟩ := h
    exact ⟨rfl, rfl, rfl, [.get_input _], rfl, by simp [Event.is_console]⟩

theorem config_menu_prompt_console : ∀ e ∈ config_menu_prompt, e.is_console = true := by
  decide

theorem config_sub_menu_prompt_console (menu : Char) :
    ∀ e ∈ config_sub_menu_prompt menu, e.is_console = true := by
  unfold config_sub_menu_prompt
  split_ifs <;> decide

theorem config_sub_menu_spec (menu : Char) :
    ∀ (fuel : Nat) (w : World) (res : Option Nat) (w' : World),
      config_sub_menu menu fuel w = some (res, w') →
        ConsoleOnly w w' ∧
          ∀ r, res = some r → ∃ option, config_sub_menu_return menu option = some r := by
  intro fuel
  induction fuel with
  | zero => intro w res w' h; simp [config_sub_menu] at h
  | succ fuel ih =>
    intro w res w' h
    rw [config_sub_menu] at h
    have hp := consoleOnly_emits w _ (config_sub_menu_prompt_console menu)
    cases hs : scanf_char (w.emits (config_sub_menu_prompt menu)) with
    | none => simp [hs] at h
    | some p =>
      obtain ⟨option, w1⟩ := p
      have h1 := hp.cons_trans (consoleOnly_scanf_char hs)
      simp only [hs] at h
      cases hr : config_sub_menu_return menu option with
      | some r =>
        simp only [hr, Option.some.injEq, Prod.mk.injEq] at h
        obtain ⟨rfl, rfl⟩ := h
        exact ⟨h1, fun r' hr' => ⟨option, by rw [hr, hr']⟩⟩
      | none =>
        simp only [hr] at h
        split_ifs at h with hx
        · simp only [Option.some.injEq, Prod.mk.injEq] at h
          obtain ⟨rfl, rfl⟩ := h
          exact ⟨h1, fun r' hr' => by simp at hr'⟩
        · obtain ⟨h2, h3⟩ := ih w1 res w' h
          exact ⟨h1.cons_trans h2, h3⟩

theorem show_config_menu_loop_spec :
    ∀ (fuel : Nat) (w : World) (r : Nat) (w' : World),
      show_config_menu_loop fuel w = some (r, w') →
        ConsoleOnly w w' ∧
          (r = 1 <<< 16 ∨ ∃ menu option, config_sub_menu_return menu option = some r) := by
  intro fuel
  induction fuel with
  | zero => intro w r w' h; simp [show_config_menu_loop] at h
  | succ fuel ih =>
    intro w r w' h
    rw [show_config_menu_loop] at h
    have hp := consoleOnly_emits w _ config_menu_prompt_console
    cases hs : scanf_char (w.emits config_menu_prompt) with
    | none => simp [hs] at h
    | some p =>
      obtain ⟨option, w1⟩ := p
      have h1 := hp.cons_trans (consoleOnly_scanf_char hs)
      simp only [hs] at h
      split_ifs at h with hd hx
      · cases hm : config_sub_menu option fuel w1 with
        | none => simp [hm] at h
        | some q =>
          obtain ⟨res, w2⟩ := q
          obtain ⟨h2, h3⟩ := config_sub_menu_spec option fuel w1 res w2 hm
          cases res with
          | some r2 =>
            simp only [hm, Option.some.injEq, Prod.mk.injEq] at h
            obtain ⟨rfl, rfl⟩ := h
            exact ⟨h1.cons_trans h2, Or.inr ⟨option, h3 _ rfl⟩⟩
          | none =>
            simp only [hm] at h
            obtain ⟨h4, h5⟩ := ih w2 r w' h
            exact ⟨(h1.cons_trans h2).cons_trans h4, h5⟩
      · simp only [Option.some.injEq, Prod.mk.injEq] at h
        obtain ⟨rfl, rfl⟩ := h
        exact ⟨h1, Or.inl rfl⟩
      · obtain ⟨h4, h5⟩ := ih w1 r w' h
        exact ⟨h1.cons_trans h4, h5⟩

theorem filter_bus_of_console {l : List Event} (h : ∀ e ∈ l, e.is_console = true) :
    l.filter Event.is_bus = [] := by
  rw [List.filter_eq_nil_iff]
  intro e he
  have := h e he
  cases e <;> simp_all [Event.is_console, Event.is_bus]

theorem config_writes_append (a b : List Event) :
    config_writes (a ++ b) = config_writes a ++ config_writes b := by
  simp [config_writes, List.filterMap_append]

theorem config_writes_of_console {l : List Event} (h : ∀ e ∈ l, e.is_console = true) :
    config_writes l = [] := by
  unfold config_writes
  rw [List.filterMap_eq_nil_iff]
  intro e he
  have := h e he
  cases e <;> simp_all [Event.is_console]

theorem show_landing_page_events_console : ∀ e ∈ show_landing_page_events, e.is_console = true := by
  decide

theorem config_writes_read_config_events (a : Nat) (r1 r2 : BusReply) :
    config_writes (read_config_events a r1 r2) = [] := by
  simp [config_writes, read_config_events]

theorem config_writes_write_config_events (a conf : Nat) (r : BusReply) :
    config_writes (write_config_events a conf r) = [(a, conf)] := by
  simp [config_writes, write_config_events]

theorem config_writes_show_landing_page_events : config_writes show_landing_page_events = [] :=
  config_writes_of_console show_landing_page_events_console

theorem config_writes_parse_config_events (conf : Nat) :
    config_writes (parse_config_events conf) = [] :=
  config_writes_of_console (parse_config_events_console conf)

theorem filter_bus_show_landing_page_events :
    show_landing_page_events.filter Event.is_bus = [] :=
  filter_bus_of_console show_landing_page_events_console

theorem filter_bus_parse_config_events (conf : Nat) :
    (parse_config_events conf).filter Event.is_bus = [] :=
  filter_bus_of_console (parse_config_events_console conf)

theorem filter_bus_read_config_events (a : Nat) (r1 r2 : BusReply) :
    (read_config_events a r1 r2).filter Event.is_bus = read_config_events a r1 r2 := by
  simp [read_config_events, Event.is_bus]

theorem filter_bus_write_config_events (a conf : Nat) (r : BusReply) :
    (write_config_events a conf r).filter Event.is_bus = write_config_events a conf r := by
  simp [write_config_events, Event.is_bus]

theorem config_writes_singleton_console (fmt : String) (args : List PArg) :
    config_writes [.printf fmt args] = [] := rfl

theorem config_writes_singleton_push (v : Nat) :
    config_writes [.multicore_fifo_push_blocking v] = [] := rfl

theorem filter_bus_singleton_printf (fmt : String) (args : List PArg) :
    [Event.printf fmt args].filter Event.is_bus = [] := rfl

theorem filter_bus_singleton_push (v : Nat) :
    [Event.multicore_fifo_push_blocking v].filter Event.is_bus = [] := rfl

/-- The configuration bytes `handle_show_config` writes once the menu has
returned `r`. -/
theorem handle_show_config_apply_config_writes (r : Nat) (w : World) :
    config_writes (handle_show_config_apply r w).trace =
      config_writes w.trace ++
        (if (config_change r (read_config_byte (w.bus (w.bus_calls + 1)))).1 then
          [(w.dev_addr, (config_change r (read_config_byte (w.bus (w.bus_calls + 1)))).2)]
         else []) := by
  rw [handle_show_config_apply_trace]
  split <;>
    simp only [config_writes_append, config_writes_read_config_events,
      config_writes_write_config_events, config_writes_show_landing_page_events,
      config_writes_parse_config_events, config_writes_singleton_console,
      config_writes_singleton_push, List.append_nil, List.nil_append, if_true, if_false]

/-- The bus transfers of `handle_show_config` once the menu has returned
`r`. -/
theorem handle_show_config_apply_bus (r : Nat) (w : World) :
    (handle_show_config_apply r w).trace.filter Event.is_bus =
      w.trace.filter Event.is_bus ++
        read_config_events w.dev_addr (w.bus w.bus_calls) (w.bus (w.bus_calls + 1)) ++
        (if (config_change r (read_config_byte (w.bus (w.bus_calls + 1)))).1 then
          write_config_events w.dev_addr
              (config_change r (read_config_byte (w.bus (w.bus_calls + 1)))).2
              (w.bus (w.bus_calls + 2)) ++
            read_config_events w.dev_addr (w.bus (w.bus_calls + 3)) (w.bus (w.bus_calls + 4))
         else
          read_config_events w.dev_addr (w.bus (w.bus_calls + 2))
            (w.bus (w.bus_calls + 3))) := by
  rw [handle_show_config_apply_trace]
  split <;>
    simp only [List.filter_append, filter_bus_read_config_events,
      filter_bus_write_config_events, filter_bus_show_landing_page_events,
      filter_bus_parse_config_events, filter_bus_singleton_printf,
      filter_bus_singleton_push, List.append_nil, List.nil_append, List.append_assoc]

/-- C2. When the no-change flag (bit 16) is set in the request word `r`,
whatever its other bits and whatever the current register byte `b`, the chain
of tests leaves `has_new_change` false, the only bus transfers of
`handle_show_config` are those of its two `read_config` calls, and no
configuration byte is written. -/
theorem no_change_flag_issues_no_write (r b : Nat) (w : World)
    (h : r &&& NO_CHANGE_SHIFT ≠ 0) :
    config_change r b = (false, 0) ∧
      (handle_show_config_apply r w).trace.filter Event.is_bus =
        w.trace.filter Event.is_bus ++
          read_config_events w.dev_addr (w.bus w.bus_calls) (w.bus (w.bus_calls + 1)) ++
          read_config_events w.dev_addr (w.bus (w.bus_calls + 2)) (w.bus (w.bus_calls + 3)) ∧
      config_writes (handle_show_config_apply r w).trace = config_writes w.trace := by
  have hc : ∀ b, config_change r b = (false, 0) := by
    intro b
    unfold config_change
    rw [if_pos h]
  refine ⟨hc b, ?_, ?_⟩
  · rw [handle_show_config_apply_bus]
    simp [hc]
  · rw [handle_show_config_apply_config_writes]
    simp [hc]

theorem no_change_flag_issues_no_write_witness :
    (1 <<< 16 ||| 0x80000001) &&& NO_CHANGE_SHIFT ≠ 0 ∧
      config_change (1 <<< 16 ||| 0x80000001) 0xA5 = (false, 0) ∧
      config_writes (handle_show_config_apply (1 <<< 16 ||| 0x80000001) (sample_world [])).trace
        = config_writes (sample_world []).trace :=
  ⟨by decide,
   (no_change_flag_issues_no_write (1 <<< 16 ||| 0x80000001) 0xA5 (sample_world [])
      (by decide)).1,
   (no_change_flag_issues_no_write (1 <<< 16 ||| 0x80000001) 0xA5 (sample_world [])
      (by decide)).2.2⟩

/-- With the no-change flag clear and a selector flag set, the chain of tests
of `handle_show_config` takes the branch of the first set flag. -/
theorem config_change_first_selected (r b : Nat) (hn : r &&& NO_CHANGE_SHIFT = 0)
    (hs : ∃ p ∈ selector_priority, r &&& p.1 ≠ 0) :
    ∃ flag mask, first_selected r = some (flag, mask) ∧ mask < 256 ∧
      config_change r b = (true, ((b &&& (0xFFFFFFFF ^^^ mask)) ||| (r &&& mask)) % 256) := by
  by_cases h1 : r &&& SHUTDOWN_MODE_SHIFT = 0
  · by_cases h2 : r &&& COMP_INT_MODE_SHIFT = 0
    · by_cases h3 : r &&& ALERT_POLARITY_SHIFT = 0
      · by_cases h4 : r &&& FAULT_QUEUE_MODE_SHIFT = 0
        · by_cases h5 : r &&& ADC_RESOLUTION_SHIFT = 0
          · by_cases h6 : r &&& ONE_SHOT_MODE_SHIFT = 0
            · exfalso
              obtain ⟨p, hp, hne⟩ := hs
              simp only [selector_priority, List.mem_cons, List.mem_singleton,
                List.not_mem_nil, or_false] at hp
              rcases hp with rfl | rfl | rfl | rfl | rfl | rfl
              · exact hne h1
              · exact hne h2
              · exact hne h3
              · exact hne h4
              · exact hne h5
              · exact hne h6
            · refine ⟨ONE_SHOT_MODE_SHIFT, ONE_SHOT_MODE_REQ_MASK, ?_, by decide, ?_⟩
              · simp [first_selected, selector_priority, List.find?, h1, h2, h3, h4, h5, h6]
              · unfold config_change
                simp only [hn, h1, h2, h3, h4, h5, h6, ne_eq, not_true_eq_false, if_false,
                  not_false_eq_true, if_true]
          · refine ⟨ADC_RESOLUTION_SHIFT, ADC_RESOLUTION_REQ_MASK, ?_, by decide, ?_⟩
            · simp [first_selected, selector_priority, List.find?, h1, h2, h3, h4, h5]
            · unfold config_change
              simp only [hn, h1, h2, h3, h4, h5, ne_eq, not_true_eq_false, if_false,
                not_false_eq_true, if_true]
        · refine ⟨FAULT_QUEUE_MODE_SHIFT, FAULT_QUEUE_MODE_REQ_MASK, ?_, by decide, ?_⟩
          · simp [first_selected, selector_priority, List.find?, h1, h2, h3, h4]
          · unfold config_change
            simp only [hn, h1, h2, h3, h4, ne_eq, not_true_eq_false, if_false,
              not_false_eq_true, if_true]
      · refine ⟨ALERT_POLARITY_SHIFT, ALERT_POLARITY_REQ_MASK, ?_, by decide, ?_⟩
        · simp [first_selected, selector_priority, List.find?, h1, h2, h3]
        · unfold config_change
          simp only [hn, h1, h2, h3, ne_eq, not_true_eq_false, if_false,
            not_false_eq_true, if_true]
    · refine ⟨COMP_INT_MODE_SHIFT, COMP_INT_MODE_REQ_MASK, ?_, by decide, ?_⟩
      · simp [first_selected, selector_priority, List.find?, h1, h2]
      · unfold config_change
        simp only [hn, h1, h2, ne_eq, not_true_eq_false, if_false, not_false_eq_true, if_true]
  · refine ⟨SHUTDOWN_MODE_SHIFT, SHUTDOWN_MODE_REQ_MASK, ?_, by decide, ?_⟩
    · simp [first_selected, selector_priority, List.find?, h1]
    · unfold config_change
      simp only [hn, h1, ne_eq, not_true_eq_false, if_false, not_false_eq_true, if_true]

/-- C3. For every current byte `b` and every request word `r` with the
no-change flag clear and at least one selector flag set, only the first set
flag in the order Shutdown, Comp/Int, Alert Polarity, Fault Queue, ADC
Resolution, One-Shot counts: with `mask` the mask of that field, the byte
computed is `(b AND NOT mask) OR (r AND mask)`, each of its bits is the bit
of `r` inside the mask and the bit of `b` outside, and that byte, computed
from the byte just read, is the one configuration byte written. -/
theorem first_selector_flag_wins (r b : Nat) (w : World) (hb : b < 256)
    (hn : r &&& NO_CHANGE_SHIFT = 0) (hs : ∃ p ∈ selector_priority, r &&& p.1 ≠ 0) :
    ∃ flag mask, first_selected r = some (flag, mask) ∧
      config_change r b = (true, (b &&& (0xFF ^^^ mask)) ||| (r &&& mask)) ∧
      (∀ i, (config_change r b).2.testBit i =
        if mask.testBit i then r.testBit i else b.testBit i) ∧
      config_writes (handle_show_config_apply r w).trace =
        config_writes w.trace ++
          [(w.dev_addr,
            (read_config_byte (w.bus (w.bus_calls + 1)) &&& (0xFF ^^^ mask)) |||
              (r &&& mask))] := by
  obtain ⟨flag, mask, hf, hm, hc⟩ := config_change_first_selected r b hn hs
  obtain ⟨flag', mask', hf', _, hc'⟩ :=
    config_change_first_selected r (read_config_byte (w.bus (w.bus_calls + 1))) hn hs
  have hfm : flag' = flag ∧ mask' = mask := by
    rw [hf] at hf'
    simpa [eq_comm] using hf'
  obtain ⟨rfl, rfl⟩ := hfm
  refine ⟨flag', mask', hf, ?_, ?_, ?_⟩
  · rw [hc, field_update_eq mask' b r hm hb]
  · intro i
    rw [hc]
    exact field_update_testBit mask' b r i hm hb
  · rw [handle_show_config_apply_config_writes, hc',
      field_update_eq mask' _ r hm (read_config_byte_lt _)]
    simp

theorem first_selector_flag_wins_witness :
    ∃ flag mask, first_selected 0x50000058 = some (flag, mask) ∧
      config_change 0x50000058 0xA5 = (true, (0xA5 &&& (0xFF ^^^ mask)) ||| (0x50000058 &&& mask)) ∧
      (∀ i, (config_change 0x50000058 0xA5).2.testBit i =
        if mask.testBit i then (0x50000058 : Nat).testBit i else (0xA5 : Nat).testBit i) ∧
      config_writes (handle_show_config_apply 0x50000058 (sample_world [])).trace =
        config_writes (sample_world []).trace ++
          [((sample_world []).dev_addr,
            (read_config_byte ((sample_world []).bus ((sample_world []).bus_calls + 1)) &&&
              (0xFF ^^^ mask)) ||| (0x50000058 &&& mask))] :=
  first_selector_flag_wins 0x50000058 0xA5 (sample_world []) (by decide) (by decide)
    ⟨(COMP_INT_MODE_SHIFT, COMP_INT_MODE_REQ_MASK), by decide, by decide⟩

/-- C4. For every request word `r` and every answer of the bus, what
`handle_show_config` does after the menu has returned `r` is, in order: one
`read_config` at `dev_addr`; one `write_config` at `dev_addr` of the byte
computed from the byte just read, exactly when `r` has the no-change flag
clear and one of the six selector flags set (no write otherwise, so the
initial zero of `new_config_result` is never written); the landing page; one
more `read_config` at `dev_addr`; the heading and `parse_config` of the byte
this second read delivered; the push of `ENABLE_IRQ`.  `dev_addr` is the same
throughout. -/
theorem handle_show_config_register_operations (r : Nat) (w : World) :
    (handle_show_config_apply r w).dev_addr = w.dev_addr ∧
    (handle_show_config_apply r w).trace =
      w.trace ++ read_config_events w.dev_addr (w.bus w.bus_calls) (w.bus (w.bus_calls + 1)) ++
        (if r &&& NO_CHANGE_SHIFT = 0 ∧
            (r &&& SHUTDOWN_MODE_SHIFT ≠ 0 ∨ r &&& COMP_INT_MODE_SHIFT ≠ 0 ∨
             r &&& ALERT_POLARITY_SHIFT ≠ 0 ∨ r &&& FAULT_QUEUE_MODE_SHIFT ≠ 0 ∨
             r &&& ADC_RESOLUTION_SHIFT ≠ 0 ∨ r &&& ONE_SHOT_MODE_SHIFT ≠ 0) then
          write_config_events w.dev_addr
              (config_change r (read_config_byte (w.bus (w.bus_calls + 1)))).2
              (w.bus (w.bus_calls + 2)) ++
            show_landing_page_events ++
            read_config_events w.dev_addr (w.bus (w.bus_calls + 3)) (w.bus (w.bus_calls + 4)) ++
            [.printf "Sensor Config Status\n" []] ++
            parse_config_events (read_config_byte (w.bus (w.bus_calls + 4)))
         else
          show_landing_page_events ++
            read_config_events w.dev_addr (w.bus (w.bus_calls + 2)) (w.bus (w.bus_calls + 3)) ++
            [.printf "Sensor Config Status\n" []] ++
            parse_config_events (read_config_byte (w.bus (w.bus_calls + 3)))) ++
        [.multicore_fifo_push_blocking ENABLE_IRQ] := by
  refine ⟨handle_show_config_apply_dev_addr r w, ?_⟩
  rw [handle_show_config_apply_trace]
  by_cases hc : (config_change r (read_config_byte (w.bus (w.bus_calls + 1)))).1 = true
  · have hc' := (config_change_fst r _).mp hc
    rw [if_pos hc, if_pos hc, if_pos hc']
    simp only [List.append_assoc]
  · have hc' := fun h => hc ((config_change_fst r _).mpr h)
    rw [if_neg hc, if_neg hc, if_neg hc']
    simp only [List.append_assoc, List.append_nil]

/-! ## reserved_addr -/

/-- C5. For every 7-bit address `a`, `reserved_addr a` holds exactly when `a`
lies in 0x00..0x07 or in 0x78..0x7F; it holds at 0x00 and 0x78 and fails at
0x08 and 0x77. -/
theorem reserved_addr_iff_ranges (a : Nat) (ha : a ≤ 0x7F) :
    (reserved_addr a = true ↔ (a ≤ 0x07 ∨ 0x78 ≤ a)) ∧
      reserved_addr 0x00 = true ∧ reserved_addr 0x78 = true ∧
      reserved_addr 0x08 = false ∧ reserved_addr 0x77 = false := by
  refine ⟨?_, by decide, by decide, by decide, by decide⟩
  interval_cases a <;> decide

theorem reserved_addr_iff_ranges_witness :
    (0x7A : Nat) ≤ 0x7F ∧
      ((reserved_addr 0x7A = true ↔ ((0x7A : Nat) ≤ 0x07 ∨ 0x78 ≤ (0x7A : Nat))) ∧
        reserved_addr 0x00 = true ∧ reserved_addr 0x78 = true ∧
        reserved_addr 0x08 = false ∧ reserved_addr 0x77 = false) :=
  ⟨by decide, reserved_addr_iff_ranges 0x7A (by decide)⟩

/-! ## scan_i2c_bus -/

theorem probe_index_succ (a : Nat) :
    probe_index (a + 1) = probe_index a + (if reserved_addr a then 0 else 1) := by
  unfold probe_index
  rw [List.range_succ, List.filter_append, List.length_append]
  cases h : reserved_addr a <;> simp [List.filter_cons, h]

theorem scan_i2c_bus_body_eq (timeout a : Nat) (w : World) :
    scan_i2c_bus_body timeout a w =
      { w with bus_calls := w.bus_calls + (if reserved_addr a then 0 else 1),
               trace := w.trace ++ scan_row timeout a (w.bus w.bus_calls) } := by
  unfold scan_i2c_bus_body scan_row
  by_cases h16 : a % 16 = 0 <;> by_cases hr : reserved_addr a = true <;>
    simp [h16, hr, printf, World.emit, check_addr, i2c_read_timeout_us]

/-- The loop from address `a` on, started with enough fuel, runs the turns
for `a`, `a + 1`, ..., 127 and stops. -/
theorem scan_i2c_bus_loop_eq (timeout k0 : Nat) :
    ∀ (n a fuel : Nat) (w : World), a + n = 128 → n < fuel →
      w.bus_calls = k0 + probe_index a →
      scan_i2c_bus_loop timeout fuel a w =
        some { w with bus_calls := k0 + probe_index 128,
                      trace := w.trace ++ (List.range' a n).flatMap
                        (fun x => scan_row timeout x (w.bus (k0 + probe_index x))) } := by
  intro n
  induction n with
  | zero =>
    intro a fuel w ha hf hk
    obtain ⟨f, rfl⟩ : ∃ f, fuel = f + 1 := ⟨fuel - 1, by omega⟩
    have ha' : a = 128 := by omega
    subst ha'
    rw [scan_i2c_bus_loop]
    simp [← hk]
  | succ n ih =>
    intro a fuel w ha hf hk
    obtain ⟨f, rfl⟩ : ∃ f, fuel = f + 1 := ⟨fuel - 1, by omega⟩
    have hlt : a < 1 <<< 7 := by
      have : (1 <<< 7 : Nat) = 128 := by decide
      omega
    have hmod : (a + 1) % 256 = a + 1 := by
      apply Nat.mod_eq_of_lt
      omega
    rw [scan_i2c_bus_loop, if_pos hlt, hmod, scan_i2c_bus_body_eq]
    rw [ih (a + 1) f _ (by omega) (by omega) (by simp [hk, probe_index_succ, Nat.add_assoc])]
    simp [List.range'_succ, hk, List.append_assoc]

theorem probe_index_128 : probe_index 128 = 112 := by
  decide

theorem scan_i2c_bus_eq (timeout : Nat) (w : World) :
    scan_i2c_bus timeout w =
      some { w with bus_calls := w.bus_calls + 112,
                    trace := w.trace ++ scan_events timeout w.bus w.bus_calls } := by
  unfold scan_i2c_bus
  have hloop := scan_i2c_bus_loop_eq timeout w.bus_calls 128 0 256
    (printf "   0  1  2  3  4  5  6  7  8  9  A  B  C  D  E  F\n" []
      (printf "\nI2C Bus Scan\n" [] w))
    (by norm_num) (by norm_num) (by simp [printf, World.emit, probe_index])
  simp only [hloop]
  simp [printf, World.emit, scan_events, List.range_eq_range', probe_index_128]

theorem probes_append (a b : List Event) : probes (a ++ b) = probes a ++ probes b := by
  simp [probes, List.filterMap_append]

theorem markers_append (a b : List Event) : markers (a ++ b) = markers a ++ markers b := by
  simp [markers, List.filterMap_append]

theorem probes_scan_row (timeout a : Nat) (reply : BusReply) :
    probes (scan_row timeout a reply) = if reserved_addr a then [] else [(a, reply.ret)] := by
  unfold scan_row
  by_cases h16 : a % 16 = 0 <;> by_cases hr : reserved_addr a = true <;>
    simp [h16, hr, probes]

theorem markers_scan_row (timeout a : Nat) (reply : BusReply) :
    markers (scan_row timeout a reply) =
      [if reserved_addr a then "X" else if reply.ret > 0 then "@" else "."] := by
  unfold scan_row
  by_cases h16 : a % 16 = 0 <;> by_cases hr : reserved_addr a = true <;>
    by_cases h15 : a % 16 = 15 <;> by_cases hret : reply.ret ≤ 0 <;>
    simp [h16, hr, h15, hret, markers, not_lt.mpr, not_le.mp]

theorem probes_flatMap_scan_row (timeout : Nat) (f : Nat → BusReply) (l : List Nat) :
    probes (l.flatMap (fun a => scan_row timeout a (f a))) =
      (l.filter (fun a => !reserved_addr a)).map (fun a => (a, (f a).ret)) := by
  induction l with
  | nil => simp [probes]
  | cons x xs ih =>
    rw [List.flatMap_cons, probes_append, probes_scan_row, ih]
    cases h : reserved_addr x <;> simp [List.filter_cons, h]

theorem markers_flatMap_scan_row (timeout : Nat) (f : Nat → BusReply) (l : List Nat) :
    markers (l.flatMap (fun a => scan_row timeout a (f a))) =
      l.map (fun a => if reserved_addr a then "X" else if (f a).ret > 0 then "@" else ".") := by
  induction l with
  | nil => simp [markers]
  | cons x xs ih =>
    rw [List.flatMap_cons, markers_append, markers_scan_row, ih]
    simp

/-- C6. For every behaviour of the bus `scan_i2c_bus` returns.  What it adds
to the trace is the heading, then the turns for the addresses 0, 1, ..., 127,
each once and in ascending order, then the closing line.  Its probes are
exactly the 112 addresses for which `reserved_addr` is false, each once, in
ascending order (so none is reserved), and the marker printed for `a` is `X`
when `a` is reserved, `@` when the probe of `a` returned a value above 0 and
`.` when it returned 0 or less. -/
theorem scan_i2c_bus_visits_all (timeout : Nat) (w : World) :
    ∃ w', scan_i2c_bus timeout w = some w' ∧
      w'.trace = w.trace ++ scan_events timeout w.bus w.bus_calls ∧
      probes (scan_events timeout w.bus w.bus_calls) =
        ((List.range 128).filter (fun a => !reserved_addr a)).map
          (fun a => (a, (w.bus (w.bus_calls + probe_index a)).ret)) ∧
      ((List.range 128).filter (fun a => !reserved_addr a)).length = 112 ∧
      markers (scan_events timeout w.bus w.bus_calls) =
        (List.range 128).map (fun a =>
          if reserved_addr a then "X"
          else if (w.bus (w.bus_calls + probe_index a)).ret > 0 then "@" else ".") := by
  refine ⟨_, scan_i2c_bus_eq timeout w, rfl, ?_, probe_index_128, ?_⟩
  · unfold scan_events
    rw [probes_append, probes_append, probes_flatMap_scan_row]
    simp [probes]
  · unfold scan_events
    rw [markers_append, markers_append, markers_flatMap_scan_row]
    simp [markers]

/-! ## The remaining menus -/

theorem dev_change_menu_prompt_console : ∀ e ∈ dev_change_menu_prompt, e.is_console = true := by
  decide

theorem alert_menu_prompt_console : ∀ e ∈ alert_menu_prompt, e.is_console = true := by
  decide

theorem show_dev_change_menu_loop_spec :
    ∀ (fuel : Nat) (w : World) (addr : Nat) (w' : World),
      show_dev_change_menu_loop fuel w = some (addr, w') →
        ConsoleOnly w w' ∧ ∃ option, dev_change_menu_switch option = some addr := by
  intro fuel
  induction fuel with
  | zero => intro w addr w' h; simp [show_dev_change_menu_loop] at h
  | succ fuel ih =>
    intro w addr w' h
    rw [show_dev_change_menu_loop] at h
    have hp := consoleOnly_emits w _ dev_change_menu_prompt_console
    cases hs : scanf_char (w.emits dev_change_menu_prompt) with
    | none => simp [hs] at h
    | some p =>
      obtain ⟨option, w1⟩ := p
      have h1 := (hp.cons_trans (consoleOnly_scanf_char hs)).cons_trans (consoleOnly_clear_screen w1)
      simp only [hs] at h
      cases hr : dev_change_menu_switch option with
      | some a =>
        simp only [hr, Option.some.injEq, Prod.mk.injEq] at h
        obtain ⟨rfl, rfl⟩ := h
        exact ⟨h1, option, hr⟩
      | none =>
        simp only [hr] at h
        obtain ⟨h2, h3⟩ := ih _ addr w' h
        exact ⟨h1.cons_trans h2, h3⟩

theorem show_dev_change_menu_spec {d : Nat} {w w' : World} {addr : Nat}
    (h : show_dev_change_menu d w = some (addr, w')) :
    ConsoleOnly w w' ∧ ∃ option, dev_change_menu_switch option = some addr := by
  unfold show_dev_change_menu at h
  obtain ⟨h1, h2⟩ := show_dev_change_menu_loop_spec _ _ addr w' h
  exact ⟨(consoleOnly_clear_screen w).cons_trans h1, h2⟩

theorem alert_menu_enter_spec {E : Env} {question : String} {w w' : World}
    {res : Option (Nat × Nat)} (h : alert_menu_enter E question w = some (res, w')) :
    ConsoleOnly w w' := by
  unfold alert_menu_enter at h
  have h0 := (consoleOnly_clear_screen w).cons_trans (consoleOnly_printf question [] (clear_screen w))
  cases hg : get_input E 8 (printf question [] (clear_screen w)) with
  | none => simp [hg] at h
  | some p =>
    obtain ⟨input, w1⟩ := p
    have h1 := h0.cons_trans (consoleOnly_get_input hg)
    simp only [hg] at h
    split_ifs at h
    · simp only [Option.some.injEq, Prod.mk.injEq] at h
      obtain ⟨_, rfl⟩ := h
      exact h1
    · simp only [Option.some.injEq, Prod.mk.injEq] at h
      obtain ⟨_, rfl⟩ := h
      exact (h1.cons_trans (consoleOnly_printf _ _ _)).cons_trans (consoleOnly_sleep_ms _ _)

theorem show_alert_menu_loop_spec (E : Env) :
    ∀ (fuel : Nat) (buf : Nat × Nat) (w : World) (res : Nat × Nat × Nat) (w' : World),
      show_alert_menu_loop E fuel buf w = some (res, w') → ConsoleOnly w w' := by
  intro fuel
  induction fuel with
  | zero => intro buf w res w' h; simp [show_alert_menu_loop] at h
  | succ fuel ih =>
    intro buf w res w' h
    rw [show_alert_menu_loop] at h
    have hp := consoleOnly_emits w _ alert_menu_prompt_console
    cases hs : scanf_char (w.emits alert_menu_prompt) with
    | none => simp [hs] at h
    | some p =>
      obtain ⟨option, w1⟩ := p
      have h1 := hp.cons_trans (consoleOnly_scanf_char hs)
      simp only [hs] at h
      split_ifs at h
      · cases he : alert_menu_enter E "Enter Temp Hyst Limit: " w1 with
        | none => simp [he] at h
        | some q =>
          obtain ⟨nb, w2⟩ := q
          have h2 := h1.cons_trans (alert_menu_enter_spec he)
          cases nb with
          | some b =>
            simp only [he, Option.some.injEq, Prod.mk.injEq] at h
            obtain ⟨_, rfl⟩ := h
            exact h2
          | none =>
            simp only [he] at h
            exact h2.cons_trans (ih _ _ _ _ h)
      · cases he : alert_menu_enter E "Enter Temp Set Limit: " w1 with
        | none => simp [he] at h
        | some q =>
          obtain ⟨nb, w2⟩ := q
          have h2 := h1.cons_trans (alert_menu_enter_spec he)
          cases nb with
          | some b =>
            simp only [he, Option.some.injEq, Prod.mk.injEq] at h
            obtain ⟨_, rfl⟩ := h
            exact h2
          | none =>
            simp only [he] at h
            exact h2.cons_trans (ih _ _ _ _ h)
      · simp only [Option.some.injEq, Prod.mk.injEq] at h
        obtain ⟨_, rfl⟩ := h
        exact h1
      · simp only [Option.some.injEq, Prod.mk.injEq] at h
        obtain ⟨_, rfl⟩ := h
        exact h1
      · simp only [Option.some.injEq, Prod.mk.injEq] at h
        obtain ⟨_, rfl⟩ := h
        exact h1.cons_trans (consoleOnly_clear_screen _)
      · exact h1.cons_trans (ih _ _ _ _ h)

/-! ## No push between the two pushes of a bracket -/

theorem is_push_of_console {e : Event} (h : e.is_console = true) : e.is_push = false := by
  cases e <;> simp_all [Event.is_console, Event.is_push]

theorem NoPush.of_consoleOnly {w w' : World} (h : ConsoleOnly w w') : NoPush w w' := by
  obtain ⟨_, _, _, ev, ht, he⟩ := h
  exact ⟨ev, ht, fun e hmem => is_push_of_console (he e hmem)⟩

theorem NoPush.np_refl (w : World) : NoPush w w := ⟨[], by simp, by simp⟩

theorem NoPush.np_trans {w1 w2 w3 : World} (h12 : NoPush w1 w2) (h23 : NoPush w2 w3) :
    NoPush w1 w3 := by
  obtain ⟨ev, ht, he⟩ := h12
  obtain ⟨ev', ht', he'⟩ := h23
  refine ⟨ev ++ ev', by rw [ht', ht, List.append_assoc], ?_⟩
  intro e hmem
  rcases List.mem_append.mp hmem with h | h
  · exact he e h
  · exact he' e h

theorem noPush_read_temperature_registers (a reg : Nat) (buf : List Nat) (msg : String)
    (w : World) : NoPush w (read_temperature_registers a reg buf 2 msg w) := by
  refine ⟨(read_temperature_registers a reg buf 2 msg w).trace.drop w.trace.length, ?_, ?_⟩
  · simp [read_temperature_registers, read_temp_reg, reg_read, i2c_write_blocking,
      i2c_read_blocking, print_temp_table, printf, World.emit]
  · simp [read_temperature_registers, read_temp_reg, reg_read, i2c_write_blocking,
      i2c_read_blocking, print_temp_table, printf, World.emit, Event.is_push]

theorem noPush_write_temp_reg (a reg : Nat) (buf : List Nat) (n : Nat) (w : World) :
    NoPush w (write_temp_reg a reg buf n w) :=
  ⟨[.i2c_write_blocking a (reg :: buf.take n) false (w.bus w.bus_calls).ret], rfl,
    by simp [Event.is_push]⟩

theorem noPush_show_landing_page (w : World) : NoPush w (show_landing_page w) :=
  NoPush.of_consoleOnly (consoleOnly_emits w _ show_landing_page_events_console)

/-- After the alert menu has returned, `handle_show_alert_menu` pushes
`ENABLE_IRQ` last and pushes nothing before. -/
theorem handle_show_alert_menu_apply_trace (result : Nat) (buf : Nat × Nat) (w : World) :
    ∃ w1, NoPush w w1 ∧
      handle_show_alert_menu_apply result buf w = multicore_fifo_push_blocking ENABLE_IRQ w1 := by
  unfold handle_show_alert_menu_apply
  have h0 := noPush_show_landing_page w
  split_ifs
  · exact ⟨_, h0.np_trans (noPush_read_temperature_registers _ _ _ _ _), rfl⟩
  · exact ⟨_, h0.np_trans (noPush_read_temperature_registers _ _ _ _ _), rfl⟩
  · exact ⟨_, h0.np_trans ((noPush_write_temp_reg _ _ _ _ _).np_trans
      (noPush_read_temperature_registers _ _ _ _ _)), rfl⟩
  · exact ⟨_, h0.np_trans ((noPush_write_temp_reg _ _ _ _ _).np_trans
      (noPush_read_temperature_registers _ _ _ _ _)), rfl⟩
  · exact ⟨_, h0, rfl⟩

/-! ## The interrupt bracket -/

theorem noPush_read_config (a : Nat) (w : World) : NoPush w (read_config a w).2 := by
  rw [read_config_snd]
  exact ⟨_, rfl, by simp [read_config_events, Event.is_push]⟩

theorem noPush_write_config (a conf : Nat) (w : World) : NoPush w (write_config a conf w).2 := by
  rw [write_config_snd]
  exact ⟨_, rfl, by simp [write_config_events, Event.is_push]⟩

theorem noPush_parse_config (conf : Nat) (w : World) : NoPush w (parse_config conf w) := by
  rw [parse_config_eq]
  exact NoPush.of_consoleOnly (consoleOnly_emits w _ (parse_config_events_console conf))

theorem handle_show_config_apply_noPush (r : Nat) (w : World) :
    ∃ w1, NoPush w w1 ∧
      handle_show_config_apply r w = multicore_fifo_push_blocking ENABLE_IRQ w1 := by
  unfold handle_show_config_apply
  have h0 := noPush_read_config w.dev_addr w
  by_cases hc : (config_change r (read_config w.dev_addr w).1).1 = true
  · refine ⟨_, ?_, by simp only [hc, if_true]; rfl⟩
    exact ((((h0.np_trans (noPush_write_config _ _ _)).np_trans (noPush_show_landing_page _)).np_trans
      (noPush_read_config _ _)).np_trans
      (NoPush.of_consoleOnly (consoleOnly_printf _ _ _))).np_trans (noPush_parse_config _ _)
  · refine ⟨_, ?_, by simp only [hc]; rfl⟩
    exact (((h0.np_trans (noPush_show_landing_page _)).np_trans
      (noPush_read_config _ _)).np_trans
      (NoPush.of_consoleOnly (consoleOnly_printf _ _ _))).np_trans (noPush_parse_config _ _)

theorem irqBracketed_of_noPush {w w1 w2 : World}
    (h1 : NoPush (multicore_fifo_push_blocking DISABLE_IRQ w) w1) (h2 : NoPush w1 w2) :
    IrqBracketed w (multicore_fifo_push_blocking ENABLE_IRQ w2) := by
  obtain ⟨mid, ht, he⟩ := h1.np_trans h2
  refine ⟨mid, ?_, he⟩
  simp [multicore_fifo_push_blocking, World.emit, ht]

/-- C8. Whatever the user chooses in the menu and whatever the bus answers,
once the menu returns `handle_show_config` and `handle_show_alert_menu` each
return, and what each adds to the trace is one push of `DISABLE_IRQ`, then
events none of which is a push (the menu, every bus read and write, the
output), then one push of `ENABLE_IRQ` as the last event. -/
theorem irq_bracket_config_and_alert (E : Env) (w : World) :
    (∀ r wc, show_config_menu (multicore_fifo_push_blocking DISABLE_IRQ w) = some (r, wc) →
      ∃ wf, handle_show_config w = some wf ∧ IrqBracketed w wf) ∧
    (∀ res wa,
      show_alert_menu E E.alert_buf_uninit (multicore_fifo_push_blocking DISABLE_IRQ w)
        = some (res, wa) →
      ∃ wf, handle_show_alert_menu E w = some wf ∧ IrqBracketed w wf) := by
  constructor
  · intro r wc hmenu
    obtain ⟨hco, _⟩ := show_config_menu_loop_spec _ _ r wc hmenu
    obtain ⟨w1, hn, heq⟩ := handle_show_config_apply_noPush r wc
    refine ⟨handle_show_config_apply r wc, by simp [handle_show_config, hmenu], ?_⟩
    rw [heq]
    exact irqBracketed_of_noPush (NoPush.of_consoleOnly hco) hn
  · intro res wa hmenu
    obtain ⟨result, buf⟩ := res
    have hco := show_alert_menu_loop_spec E _ _ _ _ wa hmenu
    obtain ⟨w1, hn, heq⟩ := handle_show_alert_menu_apply_trace result buf wa
    refine ⟨handle_show_alert_menu_apply result buf wa,
      by simp [handle_show_alert_menu, hmenu], ?_⟩
    rw [heq]
    exact irqBracketed_of_noPush (NoPush.of_consoleOnly hco) hn

theorem irq_bracket_config_and_alert_witness :
    (∃ wf, handle_show_config (sample_world ['5', '1']) = some wf ∧
      IrqBracketed (sample_world ['5', '1']) wf) ∧
    (∃ wf, handle_show_alert_menu sample_env (sample_world ['0', '2', '5', '.', '5', '\n'])
        = some wf ∧
      IrqBracketed (sample_world ['0', '2', '5', '.', '5', '\n']) wf) :=
  ⟨(irq_bracket_config_and_alert sample_env (sample_world ['5', '1'])).1 _ _ rfl,
   (irq_bracket_config_and_alert sample_env
      (sample_world ['0', '2', '5', '.', '5', '\n'])).2 _ _ rfl⟩

/-! ## handle_show_dev_id -/

theorem handle_show_dev_id_apply_dev_addr (addr : Nat) (w : World) :
    (handle_show_dev_id_apply addr w).dev_addr =
      if addr ≠ 0 ∧ (w.bus w.bus_calls).ret > 0 then addr else w.dev_addr := by
  unfold handle_show_dev_id_apply
  by_cases ha : addr = 0
  · simp [ha, multicore_fifo_drain, multicore_fifo_push_blocking, show_landing_page,
      World.emit, World.emits]
  · by_cases hr : (w.bus w.bus_calls).ret > 0 <;>
      simp [ha, hr, multicore_fifo_drain, multicore_fifo_push_blocking, show_landing_page,
        World.emit, World.emits, check_addr, i2c_read_timeout_us, printf]

/-- Everything `handle_show_dev_id` does after the menu has returned `addr`,
as a list of events. -/
theorem handle_show_dev_id_apply_trace (addr : Nat) (w : World) :
    (handle_show_dev_id_apply addr w).trace =
      w.trace ++ show_landing_page_events ++ [.multicore_fifo_push_blocking ENABLE_IRQ] ++
        (if addr ≠ 0 then
          [Event.i2c_read_timeout_us addr 1 false I2C_READ_TIMEOUT_MICRO_SEC
              (w.bus w.bus_calls).ret (fill_buf [0] 1 (w.bus w.bus_calls).data)] ++
            (if (w.bus w.bus_calls).ret > 0 then
              [Event.store_dev_addr addr,
               Event.printf "[SUCCCESS] Dev ID changed to 0x%x\n" [.int addr]]
             else [Event.printf "[WARNING] Could not communicate with Dev ID 0x%x\n" [.int addr]])
         else []) ++
        [.multicore_fifo_drain] := by
  unfold handle_show_dev_id_apply
  by_cases ha : addr = 0
  · simp [ha, multicore_fifo_drain, multicore_fifo_push_blocking, show_landing_page,
      World.emit, World.emits]
  · by_cases hr : (w.bus w.bus_calls).ret > 0 <;>
      simp [ha, hr, multicore_fifo_drain, multicore_fifo_push_blocking, show_landing_page,
        World.emit, World.emits, check_addr, i2c_read_timeout_us, printf]

/-- C7. When `show_dev_change_menu` returns the candidate `addr`,
`handle_show_dev_id` returns, and afterwards `dev_addr` is `addr` if `addr`
is not 0 and the probe returned a value above 0, and is unchanged otherwise;
with `addr = 0` no probe is made at all, otherwise exactly one, of `addr`. -/
theorem handle_show_dev_id_commits_on_success_only (w w1 : World) (addr : Nat)
    (hmenu : show_dev_change_menu TCN75A_DEFAULT_ADDR
      (multicore_fifo_push_blocking DISABLE_IRQ w) = some (addr, w1)) :
    ∃ wf, handle_show_dev_id w = some wf ∧
      wf.dev_addr = (if addr ≠ 0 ∧ (w.bus w.bus_calls).ret > 0 then addr else w.dev_addr) ∧
      probes wf.trace =
        probes w.trace ++ (if addr ≠ 0 then [(addr, (w.bus w.bus_calls).ret)] else []) := by
  obtain ⟨⟨hd, hb, hk, ev, ht, hev⟩, _⟩ := show_dev_change_menu_spec hmenu
  have hd' : w1.dev_addr = w.dev_addr := hd
  have hb' : w1.bus = w.bus := hb
  have hk' : w1.bus_calls = w.bus_calls := hk
  have h1 : probes ev = [] := by
    unfold probes
    rw [List.filterMap_eq_nil_iff]
    intro e he
    have := hev e he
    cases e <;> simp_all [Event.is_console]
  have h2 : probes w1.trace = probes w.trace := by
    rw [ht]
    simp only [multicore_fifo_push_blocking, World.emit, probes_append, h1]
    simp [probes]
  refine ⟨handle_show_dev_id_apply addr w1, by simp [handle_show_dev_id, hmenu], ?_, ?_⟩
  · rw [handle_show_dev_id_apply_dev_addr, hd', hb', hk']
  · rw [handle_show_dev_id_apply_trace, hb', hk']
    have hl : probes show_landing_page_events = [] := by decide
    by_cases ha : addr = 0
    · simp [ha, probes_append, hl, h2]
      simp [probes]
    · by_cases hr : (w.bus w.bus_calls).ret > 0 <;>
        simp [ha, hr, probes_append, hl, h2] <;> simp [probes]

theorem handle_show_dev_id_commits_on_success_only_witness :
    ∃ wf, handle_show_dev_id (sample_world ['q', '3']) = some wf ∧
      wf.dev_addr = (if 0x4B ≠ 0 ∧ ((sample_world ['q', '3']).bus
          (sample_world ['q', '3']).bus_calls).ret > 0 then 0x4B
        else (sample_world ['q', '3']).dev_addr) ∧
      probes wf.trace =
        probes (sample_world ['q', '3']).trace ++
          (if 0x4B ≠ 0 then [(0x4B, ((sample_world ['q', '3']).bus
            (sample_world ['q', '3']).bus_calls).ret)] else []) :=
  handle_show_dev_id_commits_on_success_only (sample_world ['q', '3']) _ 0x4B rfl

/-- C9, as stated, fails.  With the key `1` and a bus that answers the probe
with 1, `handle_show_dev_id` pushes `DISABLE_IRQ`, pushes `ENABLE_IRQ`, and
only then probes 0x49 and stores it in `dev_addr`; the probe and the store
are outside the bracket. -/
theorem handle_show_dev_id_probe_after_enable :
    (handle_show_dev_id (sample_world ['1'])).map
        (fun w => w.trace.filter (fun e => !e.is_console)) =
      some [ .multicore_fifo_push_blocking DISABLE_IRQ,
             .multicore_fifo_push_blocking ENABLE_IRQ,
             .i2c_read_timeout_us 0x49 1 false I2C_READ_TIMEOUT_MICRO_SEC 1 [0xA5],
             .store_dev_addr 0x49,
             .multicore_fifo_drain ] ∧
    (handle_show_dev_id (sample_world ['1'])).map
        (fun w => transaction_inside_bracket w.trace) = some false := by
  constructor <;> rfl

/-- C9, amended. When `show_dev_change_menu` returns `addr`, what
`handle_show_dev_id` adds to the trace is, in order: the push of
`DISABLE_IRQ`; the console events of the menu; the landing page; the push of
`ENABLE_IRQ`; then, if `addr` is not 0, the probe of `addr` followed by the
store to `dev_addr` and the success message when the probe returned a value
above 0, or by the warning otherwise; and last the drain of the FIFO.  The
probe and the store come after the push of `ENABLE_IRQ`. -/
theorem handle_show_dev_id_order (w w1 : World) (addr : Nat)
    (hmenu : show_dev_change_menu TCN75A_DEFAULT_ADDR
      (multicore_fifo_push_blocking DISABLE_IRQ w) = some (addr, w1)) :
    ∃ wf menu_events, handle_show_dev_id w = some wf ∧
      (∀ e ∈ menu_events, e.is_console = true) ∧
      wf.trace =
        w.trace ++ [.multicore_fifo_push_blocking DISABLE_IRQ] ++ menu_events ++
          show_landing_page_events ++ [.multicore_fifo_push_blocking ENABLE_IRQ] ++
          (if addr ≠ 0 then
            [Event.i2c_read_timeout_us addr 1 false I2C_READ_TIMEOUT_MICRO_SEC
                (w.bus w.bus_calls).ret (fill_buf [0] 1 (w.bus w.bus_calls).data)] ++
              (if (w.bus w.bus_calls).ret > 0 then
                [Event.store_dev_addr addr,
                 Event.printf "[SUCCCESS] Dev ID changed to 0x%x\n" [.int addr]]
               else
                [Event.printf "[WARNING] Could not communicate with Dev ID 0x%x\n"
                  [.int addr]])
           else []) ++
          [.multicore_fifo_drain] := by
  obtain ⟨⟨_, hb, hk, ev, ht, hev⟩, _⟩ := show_dev_change_menu_spec hmenu
  have hb' : w1.bus = w.bus := hb
  have hk' : w1.bus_calls = w.bus_calls := hk
  refine ⟨handle_show_dev_id_apply addr w1, ev, by simp [handle_show_dev_id, hmenu], hev, ?_⟩
  rw [handle_show_dev_id_apply_trace, hb', hk', ht]
  simp [multicore_fifo_push_blocking, World.emit]

theorem handle_show_dev_id_order_witness :
    ∃ wf menu_events, handle_show_dev_id (sample_world ['1']) = some wf ∧
      (∀ e ∈ menu_events, e.is_console = true) ∧
      wf.trace =
        (sample_world ['1']).trace ++ [.multicore_fifo_push_blocking DISABLE_IRQ] ++
          menu_events ++
          show_landing_page_events ++ [.multicore_fifo_push_blocking ENABLE_IRQ] ++
          (if 0x49 ≠ 0 then
            [Event.i2c_read_timeout_us 0x49 1 false I2C_READ_TIMEOUT_MICRO_SEC
                ((sample_world ['1']).bus (sample_world ['1']).bus_calls).ret
                (fill_buf [0] 1 ((sample_world ['1']).bus (sample_world ['1']).bus_calls).data)] ++
              (if ((sample_world ['1']).bus (sample_world ['1']).bus_calls).ret > 0 then
                [Event.store_dev_addr 0x49,
                 Event.printf "[SUCCCESS] Dev ID changed to 0x%x\n" [.int 0x49]]
               else
                [Event.printf "[WARNING] Could not communicate with Dev ID 0x%x\n"
                  [.int 0x49]])
           else []) ++
          [.multicore_fifo_drain] :=
  handle_show_dev_id_order (sample_world ['1']) _ 0x49 rfl

/-! ## handle_request -/

theorem scan_row_noPush (timeout a : Nat) (reply : BusReply) :
    (scan_row timeout a reply).filter Event.is_push = [] := by
  unfold scan_row
  by_cases h16 : a % 16 = 0 <;> by_cases hr : reserved_addr a = true <;>
    simp [h16, hr, Event.is_push]

theorem scan_events_noPush (timeout : Nat) (bus : Nat → BusReply) (k0 : Nat) :
    (scan_events timeout bus k0).filter Event.is_push = [] := by
  unfold scan_events
  have h : ∀ l : List Nat,
      (l.flatMap (fun a => scan_row timeout a (bus (k0 + probe_index a)))).filter
        Event.is_push = [] := by
    intro l
    induction l with
    | nil => rfl
    | cons x xs ih => rw [List.flatMap_cons, List.filter_append, scan_row_noPush, ih]; rfl
  rw [List.filter_append, List.filter_append, h]
  simp [Event.is_push]

set_option maxRecDepth 100000 in
/-- C10, as stated, fails.  On a bus where every probe answers,
`handle_request(SCAN_I2C_BUS)` makes its 112 probes and pushes nothing to the
FIFO, neither `DISABLE_IRQ` before the scan nor `ENABLE_IRQ` after it; its
last event is the drain. -/
theorem handle_request_scan_pushes_nothing :
    (handle_request sample_env SCAN_I2C_BUS (sample_world [])).map
        (fun w => (w.trace.filter Event.is_push, (probes w.trace).length,
          w.trace.getLast?)) =
      some ([], 112, some .multicore_fifo_drain) := by
  rfl

/-- What a bracketed transaction pushes: `DISABLE_IRQ` as its first event
and, among the events after it, `ENABLE_IRQ` and nothing else. -/
theorem pushes_of_irqBracketed {w wf : World} (h : IrqBracketed w wf) :
    ∃ rest, wf.trace = w.trace ++ .multicore_fifo_push_blocking DISABLE_IRQ :: rest ∧
      rest.filter Event.is_push = [.multicore_fifo_push_blocking ENABLE_IRQ] := by
  obtain ⟨mid, ht, he⟩ := h
  refine ⟨mid ++ [.multicore_fifo_push_blocking ENABLE_IRQ], by simp [ht], ?_⟩
  have hmid : mid.filter Event.is_push = [] := by
    rw [List.filter_eq_nil_iff]
    intro e hmem
    simp [he e hmem]
  rw [List.filter_append, hmid]
  rfl

theorem handle_show_config_bracketed {w wf : World} (h : handle_show_config w = some wf) :
    IrqBracketed w wf := by
  unfold handle_show_config at h
  cases hm : show_config_menu (multicore_fifo_push_blocking DISABLE_IRQ w) with
  | none => simp [hm] at h
  | some p =>
    obtain ⟨r, wc⟩ := p
    simp only [hm, Option.some.injEq] at h
    subst h
    obtain ⟨hco, _⟩ := show_config_menu_loop_spec _ _ r wc hm
    obtain ⟨w1, hn, heq⟩ := handle_show_config_apply_noPush r wc
    rw [heq]
    exact irqBracketed_of_noPush (NoPush.of_consoleOnly hco) hn

theorem handle_show_alert_menu_bracketed {E : Env} {w wf : World}
    (h : handle_show_alert_menu E w = some wf) : IrqBracketed w wf := by
  unfold handle_show_alert_menu at h
  cases hm : show_alert_menu E E.alert_buf_uninit
      (multicore_fifo_push_blocking DISABLE_IRQ w) with
  | none => simp [hm] at h
  | some p =>
    obtain ⟨⟨result, buf⟩, wa⟩ := p
    simp only [hm, Option.some.injEq] at h
    subst h
    have hco := show_alert_menu_loop_spec E _ _ _ _ wa hm
    obtain ⟨w1, hn, heq⟩ := handle_show_alert_menu_apply_trace result buf wa
    rw [heq]
    exact irqBracketed_of_noPush (NoPush.of_consoleOnly hco) hn

theorem handle_show_dev_id_pushes {w wf : World} (h : handle_show_dev_id w = some wf) :
    ∃ rest, wf.trace = w.trace ++ .multicore_fifo_push_blocking DISABLE_IRQ :: rest ∧
      rest.filter Event.is_push = [.multicore_fifo_push_blocking ENABLE_IRQ] := by
  unfold handle_show_dev_id at h
  cases hm : show_dev_change_menu TCN75A_DEFAULT_ADDR
      (multicore_fifo_push_blocking DISABLE_IRQ w) with
  | none => simp [hm] at h
  | some p =>
    obtain ⟨addr, w1⟩ := p
    simp only [hm, Option.some.injEq] at h
    subst h
    obtain ⟨⟨_, _, _, ev, ht, hev⟩, _⟩ := show_dev_change_menu_spec hm
    have hevp : ev.filter Event.is_push = [] := by
      rw [List.filter_eq_nil_iff]
      intro e hmem
      simp [is_push_of_console (hev e hmem)]
    have hl : show_landing_page_events.filter Event.is_push = [] := by decide
    rw [handle_show_dev_id_apply_trace, ht]
    refine ⟨_, by simp only [multicore_fifo_push_blocking, World.emit, List.append_assoc,
      List.singleton_append]; rfl, ?_⟩
    simp only [List.append_eq, List.filter_append, hevp, hl, List.nil_append]
    by_cases ha : addr = 0
    · simp [ha, Event.is_push]
    · by_cases hr : (w1.bus w1.bus_calls).ret > 0 <;> simp [ha, hr, Event.is_push]

/-- C10, amended.  `handle_request(SCAN_I2C_BUS)` returns for every behaviour
of the bus, and what it adds to the trace is the landing page, the scan and
the drain of the FIFO; it pushes neither `DISABLE_IRQ` nor `ENABLE_IRQ` (nor
anything else).  The other three transactions differ: whenever
`handle_request` returns for `SHOW_CONFIG`, `SHOW_DEV_ID` or
`SHOW_ALERT_MENU`, the first event it adds is the push of `DISABLE_IRQ`, and
among the events after it there is one push, of `ENABLE_IRQ`. -/
theorem handle_request_scan_no_push (E : Env) (w : World) :
    (∃ wf, handle_request E SCAN_I2C_BUS w = some wf ∧
      wf.trace =
        w.trace ++ show_landing_page_events ++
          scan_events I2C_READ_TIMEOUT_MICRO_SEC w.bus w.bus_calls ++
          [.multicore_fifo_drain] ∧
      (show_landing_page_events ++ scan_events I2C_READ_TIMEOUT_MICRO_SEC w.bus w.bus_calls ++
          [Event.multicore_fifo_drain]).filter Event.is_push = []) ∧
    (∀ request wf,
      request = SHOW_CONFIG ∨ request = SHOW_DEV_ID ∨ request = SHOW_ALERT_MENU →
      handle_request E request w = some wf →
      ∃ rest, wf.trace = w.trace ++ .multicore_fifo_push_blocking DISABLE_IRQ :: rest ∧
        rest.filter Event.is_push = [.multicore_fifo_push_blocking ENABLE_IRQ]) := by
  refine ⟨⟨_, by simp only [handle_request, if_true, scan_i2c_bus_eq]; rfl, ?_, ?_⟩, ?_⟩
  · simp [multicore_fifo_drain, World.emit, show_landing_page, World.emits]
  · rw [List.filter_append, List.filter_append, scan_events_noPush]
    have hl : show_landing_page_events.filter Event.is_push = [] := by decide
    rw [hl]
    rfl
  · intro request wf hreq h
    rcases hreq with rfl | rfl | rfl
    · exact pushes_of_irqBracketed (handle_show_config_bracketed h)
    · exact handle_show_dev_id_pushes h
    · exact pushes_of_irqBracketed (handle_show_alert_menu_bracketed h)

set_option maxRecDepth 100000 in
theorem handle_request_scan_no_push_witness :
    ∃ rest,
      ((handle_request sample_env SHOW_CONFIG (sample_world ['5', '1'])).getD
          (sample_world [])).trace =
        (sample_world ['5', '1']).trace ++ .multicore_fifo_push_blocking DISABLE_IRQ :: rest ∧
      rest.filter Event.is_push = [.multicore_fifo_push_blocking ENABLE_IRQ] :=
  (handle_request_scan_no_push sample_env (sample_world ['5', '1'])).2 SHOW_CONFIG
    ((handle_request sample_env SHOW_CONFIG (sample_world ['5', '1'])).getD (sample_world []))
    (Or.inl rfl) rfl

/-! ## gpio_callback -/

theorem gpio_callback_target_cases {gpio : Nat} {i : Fin NUMBER_OF_BTNS} {a : Nat}
    (h : gpio_callback_target gpio = some (i, a)) :
    (gpio = BTN0 ∧ i = 0 ∧ a = SCAN_I2C_BUS) ∨ (gpio = BTN1 ∧ i = 1 ∧ a = SHOW_CONFIG) ∨
      (gpio = BTN2 ∧ i = 2 ∧ a = SHOW_DEV_ID) ∨ (gpio = BTN3 ∧ i = 3 ∧ a = SHOW_ALERT_MENU) ∨
      (gpio = BTN4 ∧ i = 4 ∧ a = SHOW_TEMP) := by
  unfold gpio_callback_target at h
  split_ifs at h with h0 h1 h2 h3 h4 <;>
    simp only [Option.some.injEq, Prod.mk.injEq, reduceCtorEq] at h <;>
    obtain ⟨rfl, rfl⟩ := h <;> simp [*]

/-- What `gpio_callback` adds to the trace, case by case. -/
theorem gpio_callback_events_eq (L : BtnLib) (gpio events : Nat) (w : World) :
    gpio_callback_events L gpio events w =
      match gpio_callback_target gpio with
      | none => []
      | some (i, a) =>
        if events &&& GPIO_IRQ_EDGE_RISE ≠ 0 ∧ events &&& GPIO_IRQ_EDGE_FALL ≠ 0 then
          [.reset_btn_state i.val]
        else if events &&& GPIO_IRQ_EDGE_RISE ≠ 0 then [.set_rising_edge_state i.val]
        else
          (if events &&& GPIO_IRQ_EDGE_FALL ≠ 0 then [Event.set_falling_edge_state i.val]
           else []) ++
            [Event.debounce i.val (L.debounce (debounce_arg L events (w.btns i)))] ++
            (if L.debounce (debounce_arg L events (w.btns i)) = true then
              (if a = SHOW_TEMP then [Event.store_enable_read_temp true]
               else [Event.store_enable_read_temp false, Event.multicore_fifo_drain,
                     Event.multicore_fifo_push_timeout_us a 1000
                       (w.fifo_push_ok w.fifo_pushes)])
             else []) := by
  unfold gpio_callback_events gpio_callback debounce_arg
  cases ht : gpio_callback_target gpio with
  | none => simp
  | some p =>
    obtain ⟨i, a⟩ := p
    simp only []
    by_cases hr : events &&& GPIO_IRQ_EDGE_RISE = 0 <;>
      by_cases hf : events &&& GPIO_IRQ_EDGE_FALL = 0 <;>
      simp only [hr, hf, ne_eq, not_true_eq_false, not_false_eq_true, and_self, and_false,
        false_and, if_true, if_false, List.drop_left, List.nil_append] <;>
      (try cases hd : L.debounce (L.set_falling_edge_state (w.btns i))) <;>
      (try cases hd' : L.debounce (w.btns i)) <;>
      (try by_cases ha : a = SHOW_TEMP) <;>
      simp_all [World.emit, multicore_fifo_drain, multicore_fifo_push_timeout_us]

theorem gpio_callback_trace (L : BtnLib) (gpio events : Nat) (w : World) :
    (gpio_callback L gpio events w).trace = w.trace ++ gpio_callback_events L gpio events w := by
  unfold gpio_callback_events gpio_callback
  cases ht : gpio_callback_target gpio with
  | none => simp
  | some p =>
    obtain ⟨i, a⟩ := p
    simp only []
    split_ifs <;>
      simp [World.emit, multicore_fifo_drain, multicore_fifo_push_timeout_us]

/-- C11. For each of the five button pins (BTN0 .. BTN4 = GPIO 15 .. 11, the
button on pin `15 - k` having its state in `btns[k]`) and every `events` with
both `GPIO_IRQ_EDGE_RISE` and `GPIO_IRQ_EDGE_FALL` set, `gpio_callback` calls
`reset_btn_state` on that button's state and returns: the only new event is
that call, so `debounce` is not called and the FIFO is neither drained nor
pushed to, and `enable_read_temp` and every other variable is unchanged. -/
theorem gpio_callback_both_edges_resets (L : BtnLib) (gpio events : Nat) (w : World)
    (hpin : gpio = BTN0 ∨ gpio = BTN1 ∨ gpio = BTN2 ∨ gpio = BTN3 ∨ gpio = BTN4)
    (hrise : events &&& GPIO_IRQ_EDGE_RISE ≠ 0) (hfall : events &&& GPIO_IRQ_EDGE_FALL ≠ 0) :
    ∃ i : Fin NUMBER_OF_BTNS, i.val = 15 - gpio ∧
      gpio_callback L gpio events w =
        { w with btns := Function.update w.btns i (L.reset_btn_state (w.btns i)),
                 trace := w.trace ++ [.reset_btn_state i.val] } ∧
      (gpio_callback L gpio events w).enable_read_temp = w.enable_read_temp ∧
      gpio_callback_events L gpio events w = [.reset_btn_state i.val] := by
  rcases hpin with rfl | rfl | rfl | rfl | rfl
  · exact ⟨0, rfl, by simp [gpio_callback, gpio_callback_target, hrise, hfall],
      by simp [gpio_callback, gpio_callback_target, hrise, hfall],
      by simp [gpio_callback_events_eq, gpio_callback_target, hrise, hfall]⟩
  · exact ⟨1, rfl, by simp [gpio_callback, gpio_callback_target, hrise, hfall],
      by simp [gpio_callback, gpio_callback_target, hrise, hfall],
      by simp [gpio_callback_events_eq, gpio_callback_target, hrise, hfall]⟩
  · exact ⟨2, rfl, by simp [gpio_callback, gpio_callback_target, hrise, hfall],
      by simp [gpio_callback, gpio_callback_target, hrise, hfall],
      by simp [gpio_callback_events_eq, gpio_callback_target, hrise, hfall]⟩
  · exact ⟨3, rfl, by simp [gpio_callback, gpio_callback_target, hrise, hfall],
      by simp [gpio_callback, gpio_callback_target, hrise, hfall],
      by simp [gpio_callback_events_eq, gpio_callback_target, hrise, hfall]⟩
  · exact ⟨4, rfl, by simp [gpio_callback, gpio_callback_target, hrise, hfall],
      by simp [gpio_callback, gpio_callback_target, hrise, hfall],
      by simp [gpio_callback_events_eq, gpio_callback_target, hrise, hfall]⟩

theorem gpio_callback_both_edges_resets_witness :
    ∃ i : Fin NUMBER_OF_BTNS, i.val = 15 - 13 ∧
      gpio_callback sample_lib 13 0xC (sample_world []) =
        { sample_world [] with
            btns := Function.update (sample_world []).btns i
              (sample_lib.reset_btn_state ((sample_world []).btns i)),
            trace := (sample_world []).trace ++ [.reset_btn_state i.val] } ∧
      (gpio_callback sample_lib 13 0xC (sample_world [])).enable_read_temp =
        (sample_world []).enable_read_temp ∧
      gpio_callback_events sample_lib 13 0xC (sample_world []) = [.reset_btn_state i.val] :=
  gpio_callback_both_edges_resets sample_lib 13 0xC (sample_world [])
    (by decide) (by decide) (by decide)

/-- Whatever `gpio_callback` sends is the timed push, with a bound of 1000
microseconds, of the action of a button other than BTN4, after `debounce`
returned true on a delivery without a rising edge. -/
theorem gpio_callback_send (L : BtnLib) (gpio events : Nat) (w : World) (e : Event)
    (he : e ∈ gpio_callback_events L gpio events w) (hs : e.is_send = true) :
    ∃ i a, gpio_callback_target gpio = some (i, a) ∧ a ≠ SHOW_TEMP ∧
      events &&& GPIO_IRQ_EDGE_RISE = 0 ∧
      L.debounce (debounce_arg L events (w.btns i)) = true ∧
      e = .multicore_fifo_push_timeout_us a 1000 (w.fifo_push_ok w.fifo_pushes) ∧
      Event.debounce i.val true ∈ gpio_callback_events L gpio events w := by
  rw [gpio_callback_events_eq] at he ⊢
  cases ht : gpio_callback_target gpio with
  | none => simp [ht] at he
  | some p =>
    obtain ⟨i, a⟩ := p
    simp only [ht] at he ⊢
    by_cases hr : events &&& GPIO_IRQ_EDGE_RISE = 0
    · by_cases hd : L.debounce (debounce_arg L events (w.btns i)) = true
      · by_cases ha : a = SHOW_TEMP
        · by_cases hf : events &&& GPIO_IRQ_EDGE_FALL = 0 <;>
            simp [hr, hf, hd, ha] at he <;>
            rcases he with rfl | rfl | rfl <;> simp [Event.is_send] at hs
        · refine ⟨i, a, rfl, ha, hr, hd, ?_, ?_⟩
          · by_cases hf : events &&& GPIO_IRQ_EDGE_FALL = 0 <;>
              simp [hr, hf, hd, ha] at he <;>
              rcases he with rfl | rfl | rfl | rfl | rfl <;>
              first
                | rfl
                | simp [Event.is_send] at hs
          · by_cases hf : events &&& GPIO_IRQ_EDGE_FALL = 0 <;> simp [hr, hf, hd, ha]
      · by_cases hf : events &&& GPIO_IRQ_EDGE_FALL = 0 <;>
          simp [hr, hf, hd] at he <;>
          (try rcases he with rfl | rfl) <;> simp [Event.is_send] at hs
    · by_cases hf : events &&& GPIO_IRQ_EDGE_FALL = 0 <;>
        simp [hr, hf] at he <;> subst he <;> simp [Event.is_send] at hs

theorem gpio_callback_send_count (L : BtnLib) (gpio events : Nat) (w : World) :
    ((gpio_callback_events L gpio events w).filter Event.is_send).length ≤ 1 := by
  rw [gpio_callback_events_eq]
  cases ht : gpio_callback_target gpio with
  | none => simp
  | some p =>
    obtain ⟨i, a⟩ := p
    simp only []
    by_cases hr : events &&& GPIO_IRQ_EDGE_RISE = 0 <;>
      by_cases hf : events &&& GPIO_IRQ_EDGE_FALL = 0 <;>
      by_cases hd : L.debounce (debounce_arg L events (w.btns i)) = true <;>
      by_cases ha : a = SHOW_TEMP <;>
      simp [hr, hf, hd, ha, Event.is_send, List.filter_cons]

/-- C12. For every pin, `events` value, button state and outcome of
`debounce`, `gpio_callback` never pushes `SHOW_TEMP`, neither with the timed
nor with the blocking push.  When `debounce` returns true on BTN4 the call
sets `enable_read_temp` to true and the FIFO is neither drained nor pushed
to: after the optional `set_falling_edge_state` the new events are the call
of `debounce` and the store. -/
theorem gpio_callback_never_pushes_show_temp (L : BtnLib) (gpio events : Nat) (w : World) :
    (∀ t ret, Event.multicore_fifo_push_timeout_us SHOW_TEMP t ret ∉
        gpio_callback_events L gpio events w) ∧
    Event.multicore_fifo_push_blocking SHOW_TEMP ∉ gpio_callback_events L gpio events w ∧
    (gpio = BTN4 → Event.debounce 4 true ∈ gpio_callback_events L gpio events w →
      (gpio_callback L gpio events w).enable_read_temp = true ∧
      (gpio_callback_events L gpio events w).filter Event.is_channel = [] ∧
      gpio_callback_events L gpio events w =
        (if events &&& GPIO_IRQ_EDGE_FALL ≠ 0 then [Event.set_falling_edge_state 4] else []) ++
          [Event.debounce 4 true, Event.store_enable_read_temp true]) := by
  refine ⟨?_, ?_, ?_⟩
  · intro t ret hmem
    obtain ⟨i, a, _, ha, _, _, heq, _⟩ :=
      gpio_callback_send L gpio events w _ hmem rfl
    simp only [Event.multicore_fifo_push_timeout_us.injEq] at heq
    exact ha heq.1.symm
  · intro hmem
    obtain ⟨i, a, _, _, _, _, heq, _⟩ := gpio_callback_send L gpio events w _ hmem rfl
    simp at heq
  · rintro rfl hmem
    have hev := gpio_callback_events_eq L BTN4 events w
    have ht : gpio_callback_target BTN4 = some (4, SHOW_TEMP) := rfl
    simp only [ht] at hev
    rw [hev] at hmem ⊢
    by_cases hr : events &&& GPIO_IRQ_EDGE_RISE = 0
    · by_cases hd : L.debounce (debounce_arg L events (w.btns 4)) = true
      · refine ⟨?_, ?_, ?_⟩
        · unfold gpio_callback
          unfold debounce_arg at hd
          by_cases hf : events &&& GPIO_IRQ_EDGE_FALL = 0 <;>
            simp_all [World.emit]
        · by_cases hf : events &&& GPIO_IRQ_EDGE_FALL = 0 <;>
            simp [hr, hf, hd, Event.is_channel]
        · by_cases hf : events &&& GPIO_IRQ_EDGE_FALL = 0 <;> simp [hr, hf, hd] <;> rfl
      · by_cases hf : events &&& GPIO_IRQ_EDGE_FALL = 0 <;> simp [hr, hf, hd] at hmem
    · by_cases hf : events &&& GPIO_IRQ_EDGE_FALL = 0 <;> simp [hr, hf] at hmem

theorem gpio_callback_never_pushes_show_temp_witness :
    (gpio_callback sample_lib BTN4 0x4 (sample_world [])).enable_read_temp = true ∧
      (gpio_callback_events sample_lib BTN4 0x4 (sample_world [])).filter Event.is_channel
        = [] ∧
      gpio_callback_events sample_lib BTN4 0x4 (sample_world []) =
        (if 0x4 &&& GPIO_IRQ_EDGE_FALL ≠ 0 then [Event.set_falling_edge_state 4] else []) ++
          [Event.debounce 4 true, Event.store_enable_read_temp true] :=
  (gpio_callback_never_pushes_show_temp sample_lib BTN4 0x4 (sample_world [])).2.2 rfl
    (by decide)

/-- C13. Every invocation of `gpio_callback` sends at most one message and
never uses the blocking push.  A message it sends goes through
`multicore_fifo_push_timeout_us` with a bound of 1000 microseconds, in an
invocation in which `debounce` was called and returned true; the delivery
then reports no rising edge (so it is neither rising-only nor both-edges) and
the pin is one of the five buttons (in fact one of BTN0 .. BTN3). -/
theorem gpio_callback_sends_at_most_once (L : BtnLib) (gpio events : Nat) (w : World) :
    ((gpio_callback_events L gpio events w).filter Event.is_send).length ≤ 1 ∧
    (∀ v, Event.multicore_fifo_push_blocking v ∉ gpio_callback_events L gpio events w) ∧
    (∀ e ∈ gpio_callback_events L gpio events w, e.is_send = true →
      (∃ v ret, e = .multicore_fifo_push_timeout_us v 1000 ret) ∧
      (∃ btn, Event.debounce btn true ∈ gpio_callback_events L gpio events w) ∧
      events &&& GPIO_IRQ_EDGE_RISE = 0 ∧
      (gpio = BTN0 ∨ gpio = BTN1 ∨ gpio = BTN2 ∨ gpio = BTN3)) := by
  refine ⟨gpio_callback_send_count L gpio events w, ?_, ?_⟩
  · intro v hmem
    obtain ⟨i, a, _, _, _, _, heq, _⟩ := gpio_callback_send L gpio events w _ hmem rfl
    simp at heq
  · intro e he hs
    obtain ⟨i, a, ht, ha, hr, _, heq, hdeb⟩ := gpio_callback_send L gpio events w e he hs
    refine ⟨⟨a, _, heq⟩, ⟨i.val, hdeb⟩, hr, ?_⟩
    rcases gpio_callback_target_cases ht with h | h | h | h | h
    · exact Or.inl h.1
    · exact Or.inr (Or.inl h.1)
    · exact Or.inr (Or.inr (Or.inl h.1))
    · exact Or.inr (Or.inr (Or.inr h.1))
    · exact absurd h.2.2 ha

theorem gpio_callback_sends_at_most_once_witness :
    (∃ v ret, Event.multicore_fifo_push_timeout_us SHOW_DEV_ID 1000 true =
        .multicore_fifo_push_timeout_us v 1000 ret) ∧
      (∃ btn, Event.debounce btn true ∈
        gpio_callback_events sample_lib BTN2 0x4 (sample_world [])) ∧
      0x4 &&& GPIO_IRQ_EDGE_RISE = 0 ∧
      (BTN2 = BTN0 ∨ BTN2 = BTN1 ∨ BTN2 = BTN2 ∨ BTN2 = BTN3) :=
  (gpio_callback_sends_at_most_once sample_lib BTN2 0x4 (sample_world [])).2.2
    (.multicore_fifo_push_timeout_us SHOW_DEV_ID 1000 true) (by decide) rfl

theorem handle_request_cases (E : Env) (w : World) :
    handle_request E SCAN_I2C_BUS w =
        (scan_i2c_bus I2C_READ_TIMEOUT_MICRO_SEC (show_landing_page w)).map
          multicore_fifo_drain ∧
      handle_request E SHOW_CONFIG w = handle_show_config w ∧
      handle_request E SHOW_DEV_ID w = handle_show_dev_id w ∧
      handle_request E SHOW_ALERT_MENU w = handle_show_alert_menu E w := by
  refine ⟨?_, rfl, rfl, rfl⟩
  simp only [handle_request, if_true]
  cases scan_i2c_bus I2C_READ_TIMEOUT_MICRO_SEC (show_landing_page w) <;> rfl

/-- A delivery in which `debounce` returned true, on a button whose action is
not `SHOW_TEMP`: the store of false and the one timed push. -/
theorem gpio_callback_stable (L : BtnLib) (gpio events : Nat) (w : World)
    (i : Fin NUMBER_OF_BTNS) (a : Nat) (ht : gpio_callback_target gpio = some (i, a))
    (ha : a ≠ SHOW_TEMP)
    (hstable : ∃ btn, Event.debounce btn true ∈ gpio_callback_events L gpio events w) :
    (gpio_callback L gpio events w).enable_read_temp = false ∧
    (gpio_callback_events L gpio events w).filter Event.is_send =
      [.multicore_fifo_push_timeout_us a 1000 (w.fifo_push_ok w.fifo_pushes)] := by
  obtain ⟨btn, hmem⟩ := hstable
  have hev := gpio_callback_events_eq L gpio events w
  simp only [ht] at hev
  rw [hev] at hmem ⊢
  by_cases hr : events &&& GPIO_IRQ_EDGE_RISE = 0
  · by_cases hd : L.debounce (debounce_arg L events (w.btns i)) = true
    · constructor
      · unfold gpio_callback
        unfold debounce_arg at hd
        by_cases hf : events &&& GPIO_IRQ_EDGE_FALL = 0 <;>
          simp_all [World.emit, multicore_fifo_drain, multicore_fifo_push_timeout_us]
      · by_cases hf : events &&& GPIO_IRQ_EDGE_FALL = 0 <;>
          simp [hr, hf, hd, ha, Event.is_send, List.filter_cons]
    · by_cases hf : events &&& GPIO_IRQ_EDGE_FALL = 0 <;> simp [hr, hf, hd] at hmem
  · by_cases hf : events &&& GPIO_IRQ_EDGE_FALL = 0 <;> simp [hr, hf] at hmem

/-- C14. When `debounce` returns true in a delivery to `gpio_callback` on pin
BTN0, BTN1, BTN2 or BTN3 (GPIO 15, 14, 13, 12), the call stores false in
`enable_read_temp` and the one message it sends is the timed push of
`SCAN_I2C_BUS`, `SHOW_CONFIG`, `SHOW_DEV_ID` or `SHOW_ALERT_MENU`
respectively.  On these four codes `handle_request` runs the landing page,
the bus scan and the drain, `handle_show_config`, `handle_show_dev_id` and
`handle_show_alert_menu` respectively, which is what the landing page
announces for the buttons 0 to 3. -/
theorem stable_press_dispatch (L : BtnLib) (E : Env) (gpio code events : Nat) (w w' : World)
    (hbtn : (gpio, code) ∈ [(BTN0, SCAN_I2C_BUS), (BTN1, SHOW_CONFIG), (BTN2, SHOW_DEV_ID),
      (BTN3, SHOW_ALERT_MENU)])
    (hstable : ∃ btn, Event.debounce btn true ∈ gpio_callback_events L gpio events w) :
    (gpio_callback L gpio events w).enable_read_temp = false ∧
    (gpio_callback_events L gpio events w).filter Event.is_send =
      [.multicore_fifo_push_timeout_us code 1000 (w.fifo_push_ok w.fifo_pushes)] ∧
    handle_request E SCAN_I2C_BUS w' =
      (scan_i2c_bus I2C_READ_TIMEOUT_MICRO_SEC (show_landing_page w')).map
        multicore_fifo_drain ∧
    handle_request E SHOW_CONFIG w' = handle_show_config w' ∧
    handle_request E SHOW_DEV_ID w' = handle_show_dev_id w' ∧
    handle_request E SHOW_ALERT_MENU w' = handle_show_alert_menu E w' ∧
    [Event.printf "| Press button 0 to scan addresses         | \n" [],
     Event.printf "| Press button 1 to access config menu     | \n" [],
     Event.printf "| Press button 2 to access device ID menu  | \n" [],
     Event.printf "| Press button 3 to access alert  menu     | \n" [],
     Event.printf "| Press button 4 to print temperature      | \n" []] =
      (show_landing_page_events.drop 7).take 5 := by
  obtain ⟨h1, h2, h3, h4⟩ := handle_request_cases E w'
  simp only [List.mem_cons, Prod.mk.injEq, List.mem_singleton, List.not_mem_nil,
    or_false] at hbtn
  have hcb : (gpio_callback L gpio events w).enable_read_temp = false ∧
      (gpio_callback_events L gpio events w).filter Event.is_send =
        [.multicore_fifo_push_timeout_us code 1000 (w.fifo_push_ok w.fifo_pushes)] := by
    rcases hbtn with ⟨rfl, rfl⟩ | ⟨rfl, rfl⟩ | ⟨rfl, rfl⟩ | ⟨rfl, rfl⟩
    · exact gpio_callback_stable L _ events w 0 _ rfl (by decide) hstable
    · exact gpio_callback_stable L _ events w 1 _ rfl (by decide) hstable
    · exact gpio_callback_stable L _ events w 2 _ rfl (by decide) hstable
    · exact gpio_callback_stable L _ events w 3 _ rfl (by decide) hstable
  exact ⟨hcb.1, hcb.2, h1, h2, h3, h4, rfl⟩

theorem stable_press_dispatch_witness :
    (gpio_callback sample_lib BTN3 0x4 (sample_world [])).enable_read_temp = false ∧
    (gpio_callback_events sample_lib BTN3 0x4 (sample_world [])).filter Event.is_send =
      [.multicore_fifo_push_timeout_us SHOW_ALERT_MENU 1000
        ((sample_world []).fifo_push_ok (sample_world []).fifo_pushes)] ∧
    handle_request sample_env SCAN_I2C_BUS (sample_world ['x']) =
      (scan_i2c_bus I2C_READ_TIMEOUT_MICRO_SEC (show_landing_page (sample_world ['x']))).map
        multicore_fifo_drain ∧
    handle_request sample_env SHOW_CONFIG (sample_world ['x']) =
      handle_show_config (sample_world ['x']) ∧
    handle_request sample_env SHOW_DEV_ID (sample_world ['x']) =
      handle_show_dev_id (sample_world ['x']) ∧
    handle_request sample_env SHOW_ALERT_MENU (sample_world ['x']) =
      handle_show_alert_menu sample_env (sample_world ['x']) ∧
    [Event.printf "| Press button 0 to scan addresses         | \n" [],
     Event.printf "| Press button 1 to access config menu     | \n" [],
     Event.printf "| Press button 2 to access device ID menu  | \n" [],
     Event.printf "| Press button 3 to access alert  menu     | \n" [],
     Event.printf "| Press button 4 to print temperature      | \n" []] =
      (show_landing_page_events.drop 7).take 5 :=
  stable_press_dispatch sample_lib sample_env BTN3 SHOW_ALERT_MENU 0x4 (sample_world [])
    (sample_world ['x']) (by decide) ⟨3, by decide⟩

/-- C15, as stated, fails.  A stable press on BTN1 with a FIFO that stays
full (the timed push returns false) and the same press with room in the FIFO
(the push returns true) leave the same values in `dev_addr`,
`enable_read_temp` and `btns`: nothing records the drop. -/
theorem gpio_callback_drop_leaves_no_record :
    (gpio_callback sample_lib BTN1 0x4
        { sample_world [] with fifo_push_ok := fun _ => false }).trace.getLast? =
      some (.multicore_fifo_push_timeout_us SHOW_CONFIG 1000 false) ∧
    (gpio_callback sample_lib BTN1 0x4
        { sample_world [] with fifo_push_ok := fun _ => true }).trace.getLast? =
      some (.multicore_fifo_push_timeout_us SHOW_CONFIG 1000 true) ∧
    (gpio_callback sample_lib BTN1 0x4
        { sample_world [] with fifo_push_ok := fun _ => false }).vars =
      (gpio_callback sample_lib BTN1 0x4
        { sample_world [] with fifo_push_ok := fun _ => true }).vars :=
  ⟨rfl, rfl, rfl⟩

/-- C15, amended.  The value `multicore_fifo_push_timeout_us` returns is
discarded: for every pin, `events` value and state, the variables
`dev_addr`, `enable_read_temp` and `btns` left by `gpio_callback` are the
same whatever the timed push answers, so a failed send leaves the same
program state as a successful send of the same action. -/
theorem gpio_callback_ignores_push_result (L : BtnLib) (gpio events : Nat) (w : World)
    (ok ok' : Nat → Bool) :
    (gpio_callback L gpio events { w with fifo_push_ok := ok }).vars =
      (gpio_callback L gpio events { w with fifo_push_ok := ok' }).vars := by
  unfold gpio_callback World.vars
  cases ht : gpio_callback_target gpio with
  | none => rfl
  | some p =>
    obtain ⟨i, a⟩ := p
    simp only []
    split_ifs <;>
      simp_all [World.emit, multicore_fifo_drain, multicore_fifo_push_timeout_us]

/-! ## handle_show_alert_menu -/

theorem read_temperature_registers_bus (a reg : Nat) (msg : String) (w : World) :
    (read_temperature_registers a reg [0, 0] 2 msg w).trace.filter Event.is_bus =
      w.trace.filter Event.is_bus ++
        read_temp_events a reg (w.bus w.bus_calls) (w.bus (w.bus_calls + 1)) := by
  simp [read_temperature_registers, read_temp_reg, reg_read, i2c_write_blocking,
    i2c_read_blocking, print_temp_table, printf, World.emit, read_temp_events,
    List.filter_append, Event.is_bus]

theorem read_temperature_registers_fields (a reg : Nat) (msg : String) (w : World) :
    (read_temperature_registers a reg [0, 0] 2 msg w).bus = w.bus ∧
      (read_temperature_registers a reg [0, 0] 2 msg w).bus_calls = w.bus_calls + 2 ∧
      (read_temperature_registers a reg [0, 0] 2 msg w).dev_addr = w.dev_addr := by
  simp [read_temperature_registers, read_temp_reg, reg_read, i2c_write_blocking,
    i2c_read_blocking, print_temp_table, printf, World.emit]

theorem write_temp_reg_bus (a reg b0 b1 : Nat) (w : World) :
    write_temp_reg a reg [b0, b1] 2 w =
      { w with bus_calls := w.bus_calls + 1,
               trace := w.trace ++ write_temp_events a reg b0 b1 (w.bus w.bus_calls) } := by
  simp [write_temp_reg, reg_write, i2c_write_blocking, write_temp_events]

theorem handle_show_alert_menu_apply_codes (buf : Nat × Nat) (w : World) :
    handle_show_alert_menu_apply READ_TEMP_HYST_LIMIT buf w =
        multicore_fifo_push_blocking ENABLE_IRQ
          (read_temp_hyst_limit w.dev_addr (show_landing_page w)) ∧
      handle_show_alert_menu_apply READ_TEMP_SET_LIMIT buf w =
        multicore_fifo_push_blocking ENABLE_IRQ
          (read_temp_set_limit w.dev_addr (show_landing_page w)) ∧
      handle_show_alert_menu_apply WRITE_TEMP_HYST_LIMIT buf w =
        multicore_fifo_push_blocking ENABLE_IRQ
          (write_temp_hyst_limit w.dev_addr buf.1 buf.2 (show_landing_page w)) ∧
      handle_show_alert_menu_apply WRITE_TEMP_SET_LIMIT buf w =
        multicore_fifo_push_blocking ENABLE_IRQ
          (write_temp_set_limit w.dev_addr buf.1 buf.2 (show_landing_page w)) :=
  ⟨rfl, rfl, rfl, rfl⟩

/-- C16. For each of the four codes `show_alert_menu` can return and every
payload `buf`, the bus transfers of `handle_show_alert_menu` after the menu
are exactly, at the current `dev_addr`: for `READ_TEMP_HYST_LIMIT` a read of
2 bytes of register 0b10; for `READ_TEMP_SET_LIMIT` a read of 2 bytes of
register 0b11; for `WRITE_TEMP_HYST_LIMIT` a write of `buf[0]`, `buf[1]` to
register 0b10 followed by a read of 2 bytes of it; for `WRITE_TEMP_SET_LIMIT`
the same on register 0b11.  There is no other transfer. -/
theorem handle_show_alert_menu_register_operation (result : Nat) (buf : Nat × Nat) (w : World)
    (hres : result ∈ [READ_TEMP_HYST_LIMIT, READ_TEMP_SET_LIMIT, WRITE_TEMP_HYST_LIMIT,
      WRITE_TEMP_SET_LIMIT]) :
    (handle_show_alert_menu_apply result buf w).trace.filter Event.is_bus =
      w.trace.filter Event.is_bus ++
        (if result = READ_TEMP_HYST_LIMIT then
          read_temp_events w.dev_addr 0b10 (w.bus w.bus_calls) (w.bus (w.bus_calls + 1))
         else if result = READ_TEMP_SET_LIMIT then
          read_temp_events w.dev_addr 0b11 (w.bus w.bus_calls) (w.bus (w.bus_calls + 1))
         else if result = WRITE_TEMP_HYST_LIMIT then
          write_temp_events w.dev_addr 0b10 buf.1 buf.2 (w.bus w.bus_calls) ++
            read_temp_events w.dev_addr 0b10 (w.bus (w.bus_calls + 1)) (w.bus (w.bus_calls + 2))
         else
          write_temp_events w.dev_addr 0b11 buf.1 buf.2 (w.bus w.bus_calls) ++
            read_temp_events w.dev_addr 0b11 (w.bus (w.bus_calls + 1))
              (w.bus (w.bus_calls + 2))) := by
  have hl : ∀ w : World, (show_landing_page w).trace.filter Event.is_bus =
      w.trace.filter Event.is_bus := by
    intro w
    simp [show_landing_page, World.emits, List.filter_append,
      filter_bus_show_landing_page_events]
  have hp : ∀ w : World, (multicore_fifo_push_blocking ENABLE_IRQ w).trace.filter Event.is_bus =
      w.trace.filter Event.is_bus := by
    intro w
    simp [multicore_fifo_push_blocking, World.emit, List.filter_append, Event.is_bus]
  obtain ⟨h1, h2, h3, h4⟩ := handle_show_alert_menu_apply_codes buf w
  have e1 : READ_TEMP_SET_LIMIT ≠ READ_TEMP_HYST_LIMIT := by decide
  have e2 : WRITE_TEMP_HYST_LIMIT ≠ READ_TEMP_HYST_LIMIT := by decide
  have e3 : WRITE_TEMP_HYST_LIMIT ≠ READ_TEMP_SET_LIMIT := by decide
  have e4 : WRITE_TEMP_SET_LIMIT ≠ READ_TEMP_HYST_LIMIT := by decide
  have e5 : WRITE_TEMP_SET_LIMIT ≠ READ_TEMP_SET_LIMIT := by decide
  have e6 : WRITE_TEMP_SET_LIMIT ≠ WRITE_TEMP_HYST_LIMIT := by decide
  simp only [List.mem_cons, List.mem_singleton, List.not_mem_nil, or_false] at hres
  rcases hres with rfl | rfl | rfl | rfl
  · rw [h1, hp, read_temp_hyst_limit, read_temperature_registers_bus, hl]
    simp [show_landing_page, World.emits]
  · rw [h2, hp, read_temp_set_limit, read_temperature_registers_bus, hl]
    simp [show_landing_page, World.emits, e1]
  · rw [h3, hp, write_temp_hyst_limit, read_temp_hyst_limit, read_temperature_registers_bus,
      write_temp_reg_bus]
    simp [show_landing_page, World.emits, List.filter_append,
      filter_bus_show_landing_page_events, write_temp_events, Event.is_bus, e2, e3,
      Nat.add_assoc]
  · rw [h4, hp, write_temp_set_limit, read_temp_set_limit, read_temperature_registers_bus,
      write_temp_reg_bus]
    simp [show_landing_page, World.emits, List.filter_append,
      filter_bus_show_landing_page_events, write_temp_events, Event.is_bus, e4, e5, e6,
      Nat.add_assoc]

theorem handle_show_alert_menu_register_operation_witness :
    (handle_show_alert_menu_apply WRITE_TEMP_SET_LIMIT (25, 128)
        (sample_world [])).trace.filter Event.is_bus =
      [ .i2c_write_blocking 0x48 [0b11, 25, 128] false 1,
        .i2c_write_blocking 0x48 [0b11] true 1,
        .i2c_read_blocking 0x48 2 false 1 [0xA5, 0] ] :=
  (handle_show_alert_menu_register_operation WRITE_TEMP_SET_LIMIT (25, 128) (sample_world [])
    (by decide)).trans rfl

/-! ## show_alert_menu -/

/-- C17, the code at the failing input.  When the only key is `x`,
`show_alert_menu` leaves its loop through `break` with the buffer unmodified,
but the word its caller receives is the indeterminate value of a function
that ends without `return`.  When that value has bit 27 set (`quit_env`),
`handle_show_alert_menu` reads the hysteresis register. -/
theorem alert_menu_quit_result_indeterminate (E : Env) (buf : Nat × Nat) :
    (show_alert_menu E buf (sample_world ['x'])).map Prod.fst =
      some (E.alert_menu_no_return, buf) ∧
    (handle_show_alert_menu quit_env (sample_world ['x'])).map
        (fun w => w.trace.filter Event.is_bus) =
      some [ .i2c_write_blocking 0x48 [0b10] true 1,
             .i2c_read_blocking 0x48 2 false 1 [0xA5, 0] ] :=
  ⟨rfl, rfl⟩

/-- The branch of a write option: the entry returns the converted bytes
exactly when `str_to_fixed_point` accepts the text that `get_input`
delivered, and otherwise ends with the message and the pause. -/
theorem alert_menu_enter_cases {E : Env} {question : String} {w w' : World}
    {res : Option (Nat × Nat)} (h : alert_menu_enter E question w = some (res, w')) :
    ∃ input w1, get_input E 8 (printf question [] (clear_screen w)) = some (input, w1) ∧
      (((E.str_to_fixed_point input).1 = true ∧
          res = some (to_uint8 (E.str_to_fixed_point input).2.1,
                      to_uint8 (E.str_to_fixed_point input).2.2) ∧ w' = w1) ∨
       ((E.str_to_fixed_point input).1 = false ∧ res = none ∧
          w' = sleep_ms 2000
            (printf "Invalid input! Returning to the previous menu\n" [] w1))) := by
  unfold alert_menu_enter at h
  cases hg : get_input E 8 (printf question [] (clear_screen w)) with
  | none => simp [hg] at h
  | some p =>
    obtain ⟨input, w1⟩ := p
    refine ⟨input, w1, rfl, ?_⟩
    simp only [hg] at h
    rcases hs : E.str_to_fixed_point input with ⟨ok, o0, o1⟩
    simp only [hs] at h
    cases ok with
    | true =>
      simp only [if_true, Option.some.injEq, Prod.mk.injEq] at h
      exact Or.inl ⟨rfl, h.1.symm, h.2.symm⟩
    | false =>
      simp only [Bool.false_eq_true, if_false, Option.some.injEq, Prod.mk.injEq] at h
      exact Or.inr ⟨rfl, h.1.symm, h.2.symm⟩

/-- The buffer `show_alert_menu` hands back differs from the one it received
only when a write code is returned after a successful conversion. -/
theorem show_alert_menu_loop_buf (E : Env) :
    ∀ (fuel : Nat) (buf : Nat × Nat) (w : World) (code : Nat) (buf' : Nat × Nat) (w' : World),
      show_alert_menu_loop E fuel buf w = some ((code, buf'), w') →
        (buf' = buf ∧ (code = READ_TEMP_HYST_LIMIT ∨ code = READ_TEMP_SET_LIMIT ∨
            code = E.alert_menu_no_return)) ∨
        ((code = WRITE_TEMP_HYST_LIMIT ∨ code = WRITE_TEMP_SET_LIMIT) ∧
          ∃ input, (E.str_to_fixed_point input).1 = true ∧
            buf' = (to_uint8 (E.str_to_fixed_point input).2.1,
                    to_uint8 (E.str_to_fixed_point input).2.2)) := by
  intro fuel
  induction fuel with
  | zero => intro buf w code buf' w' h; simp [show_alert_menu_loop] at h
  | succ fuel ih =>
    intro buf w code buf' w' h
    rw [show_alert_menu_loop] at h
    cases hs : scanf_char (w.emits alert_menu_prompt) with
    | none => simp [hs] at h
    | some p =>
      obtain ⟨option, w1⟩ := p
      simp only [hs] at h
      split_ifs at h
      · cases he : alert_menu_enter E "Enter Temp Hyst Limit: " w1 with
        | none => simp [he] at h
        | some q =>
          obtain ⟨nb, w2⟩ := q
          obtain ⟨input, _, _, hc⟩ := alert_menu_enter_cases he
          cases nb with
          | some b =>
            simp only [he, Option.some.injEq, Prod.mk.injEq] at h
            obtain ⟨⟨rfl, rfl⟩, _⟩ := h
            rcases hc with ⟨hok, hb, _⟩ | ⟨_, hb, _⟩
            · exact Or.inr ⟨Or.inl rfl, input, hok, (Option.some.inj hb)⟩
            · simp at hb
          | none =>
            simp only [he] at h
            exact ih _ _ _ _ _ h
      · cases he : alert_menu_enter E "Enter Temp Set Limit: " w1 with
        | none => simp [he] at h
        | some q =>
          obtain ⟨nb, w2⟩ := q
          obtain ⟨input, _, _, hc⟩ := alert_menu_enter_cases he
          cases nb with
          | some b =>
            simp only [he, Option.some.injEq, Prod.mk.injEq] at h
            obtain ⟨⟨rfl, rfl⟩, _⟩ := h
            rcases hc with ⟨hok, hb, _⟩ | ⟨_, hb, _⟩
            · exact Or.inr ⟨Or.inr rfl, input, hok, (Option.some.inj hb)⟩
            · simp at hb
          | none =>
            simp only [he] at h
            exact ih _ _ _ _ _ h
      · simp only [Option.some.injEq, Prod.mk.injEq] at h
        obtain ⟨⟨rfl, rfl⟩, _⟩ := h
        exact Or.inl ⟨rfl, Or.inl rfl⟩
      · simp only [Option.some.injEq, Prod.mk.injEq] at h
        obtain ⟨⟨rfl, rfl⟩, _⟩ := h
        exact Or.inl ⟨rfl, Or.inr (Or.inl rfl)⟩
      · simp only [Option.some.injEq, Prod.mk.injEq] at h
        obtain ⟨⟨rfl, rfl⟩, _⟩ := h
        exact Or.inl ⟨rfl, Or.inr (Or.inr rfl)⟩
      · exact ih _ _ _ _ _ h

/-- C18. In `show_alert_menu`, after the key `0` or `1` and the text `input`
read by `get_input`: when `str_to_fixed_point` reports failure the function
prints the message, pauses and continues at the menu prompt with the buffer
it had (it returns nothing for that entry); when it reports success the
function stores the two converted bytes and returns `WRITE_TEMP_HYST_LIMIT`
(key `0`) or `WRITE_TEMP_SET_LIMIT` (key `1`) at once.  Over a whole call the
buffer handed back differs from the one received only together with a write
code, after a successful conversion. -/
theorem show_alert_menu_buffer_only_on_success (E : Env) (key : Char) (fuel : Nat)
    (buf : Nat × Nat) (w w1 w2 : World) (input : List Char)
    (hkey : key = '0' ∨ key = '1')
    (hscan : scanf_char (w.emits alert_menu_prompt) = some (key, w1))
    (hinput : get_input E 8
      (printf (if key = '0' then "Enter Temp Hyst Limit: " else "Enter Temp Set Limit: ") []
        (clear_screen w1)) = some (input, w2)) :
    ((E.str_to_fixed_point input).1 = false →
      show_alert_menu_loop E (fuel + 1) buf w =
        show_alert_menu_loop E fuel buf
          (sleep_ms 2000 (printf "Invalid input! Returning to the previous menu\n" [] w2))) ∧
    ((E.str_to_fixed_point input).1 = true →
      show_alert_menu_loop E (fuel + 1) buf w =
        some ((if key = '0' then WRITE_TEMP_HYST_LIMIT else WRITE_TEMP_SET_LIMIT,
               to_uint8 (E.str_to_fixed_point input).2.1,
               to_uint8 (E.str_to_fixed_point input).2.2), w2)) ∧
    (∀ code buf' w', show_alert_menu E buf w = some ((code, buf'), w') →
      (buf' = buf ∧ (code = READ_TEMP_HYST_LIMIT ∨ code = READ_TEMP_SET_LIMIT ∨
          code = E.alert_menu_no_return)) ∨
      ((code = WRITE_TEMP_HYST_LIMIT ∨ code = WRITE_TEMP_SET_LIMIT) ∧
        ∃ text, (E.str_to_fixed_point text).1 = true ∧
          buf' = (to_uint8 (E.str_to_fixed_point text).2.1,
                  to_uint8 (E.str_to_fixed_point text).2.2))) := by
  refine ⟨?_, ?_, fun code buf' w' h => show_alert_menu_loop_buf E _ buf w code buf' w' h⟩
  · intro hfail
    rw [show_alert_menu_loop]
    rcases hs : E.str_to_fixed_point input with ⟨ok, o0, o1⟩
    rw [hs] at hfail
    simp only at hfail
    subst hfail
    rcases hkey with rfl | rfl
    · simp only [if_true] at hinput
      simp [hscan, alert_menu_enter, hinput, hs]
    · simp only [show ('1' : Char) = '0' ↔ False from by decide, if_false] at hinput
      simp [hscan, alert_menu_enter, hinput, hs]
  · intro hok
    rw [show_alert_menu_loop]
    rcases hs : E.str_to_fixed_point input with ⟨ok, o0, o1⟩
    rw [hs] at hok
    simp only at hok
    subst hok
    rcases hkey with rfl | rfl
    · simp only [if_true] at hinput
      simp [hscan, alert_menu_enter, hinput, hs]
    · simp only [show ('1' : Char) = '0' ↔ False from by decide, if_false] at hinput
      simp [hscan, alert_menu_enter, hinput, hs]

theorem show_alert_menu_buffer_only_on_success_witness :
    ((7, 9) = ((7, 9) : Nat × Nat) ∧
        (READ_TEMP_HYST_LIMIT = READ_TEMP_HYST_LIMIT ∨
          READ_TEMP_HYST_LIMIT = READ_TEMP_SET_LIMIT ∨
          READ_TEMP_HYST_LIMIT = sample_env.alert_menu_no_return)) ∨
      ((READ_TEMP_HYST_LIMIT = WRITE_TEMP_HYST_LIMIT ∨
          READ_TEMP_HYST_LIMIT = WRITE_TEMP_SET_LIMIT) ∧
        ∃ text, (sample_env.str_to_fixed_point text).1 = true ∧
          (7, 9) = (to_uint8 (sample_env.str_to_fixed_point text).2.1,
                    to_uint8 (sample_env.str_to_fixed_point text).2.2)) :=
  (show_alert_menu_buffer_only_on_success sample_env '0' 5 (7, 9)
      (sample_world ['0', 'a', 'b', 'c', '\n', '2']) _ _ ['a', 'b', 'c']
      (Or.inl rfl) rfl rfl).2.2 READ_TEMP_HYST_LIMIT (7, 9) _ rfl

/-! ## parse_config -/

set_option maxRecDepth 100000 in
theorem parse_config_events_eq_table (conf : Nat) (h : conf < 256) :
    parse_config_events conf = config_table (config_rows conf) := by
  interval_cases conf <;> rfl

theorem config_rows_known (conf : Nat) :
    ∀ a ∈ config_rows conf, a ≠ PArg.str "UNKNOWN" := by
  have h4 : conf / 8 % 4 < 4 := Nat.mod_lt _ (by norm_num)
  have h5 : conf / 32 % 4 < 4 := Nat.mod_lt _ (by norm_num)
  intro a ha
  simp only [config_rows, List.mem_cons, List.mem_singleton, List.not_mem_nil, or_false] at ha
  rcases ha with rfl | rfl | rfl | rfl | rfl | rfl
  · split_ifs <;> simp
  · split_ifs <;> simp
  · split_ifs <;> simp
  · simp
  · interval_cases conf / 32 % 4 <;> simp
  · split_ifs <;> simp

/-- C19. For every byte `conf`, what `parse_config` prints is the table whose
six rows are read off the fixed layout: Shutdown from bit 0 (Disable,
Enable), Alert Mode from bit 1 (Comp, Intr), Alert Polarity from bit 2 (Low,
High), Fault Queue from bits 3-4 (1, 2, 4, 6), ADC Resolution from bits 5-6
(0.5C, 0.25C, 0.125C, 0.0625C) and One-Shot from bit 7 (Disable, Enable).
Each row is a function of the bits of its own field only, and no row shows
UNKNOWN. -/
theorem parse_config_rows_follow_layout (conf : Nat) (h : conf < 256) :
    parse_config_events conf = config_table (config_rows conf) ∧
      (∀ e ∈ parse_config_events conf, ∀ fmt, e ≠ Event.printf fmt [.str "UNKNOWN"]) := by
  have heq := parse_config_events_eq_table conf h
  refine ⟨heq, ?_⟩
  rw [heq]
  have hk := config_rows_known conf
  have hk' : ∀ i : Nat, (config_rows conf)[i]?.getD (.str "") ≠ PArg.str "UNKNOWN" := by
    intro i
    cases hi : (config_rows conf)[i]? with
    | none => simp
    | some a => exact hk a (List.getElem?_mem hi)
  intro e he fmt
  simp only [config_table, List.mem_cons, List.mem_singleton, List.not_mem_nil, or_false] at he
  rcases he with rfl | rfl | rfl | rfl | rfl | rfl | rfl | rfl | rfl | rfl | rfl | rfl | rfl |
    rfl | rfl | rfl <;>
    simp [hk']

theorem parse_config_rows_follow_layout_witness :
    (0xB5 : Nat) < 256 ∧
      parse_config_events 0xB5 =
        config_table [.str "Enable", .str "Comp", .str "High", .int 4, .str "0.25C",
          .str "Enable"] :=
  ⟨by decide, (parse_config_rows_follow_layout 0xB5 (by decide)).1.trans rfl⟩

/-! ## The words of the configuration menu -/

/-- The shape of a request word: exactly one of the seven flags is set; with
the no-change flag the word is that flag alone; with a selector flag the low
byte lies inside the mask of that field and the word has no other bit. -/
theorem config_sub_menu_return_shape {menu option : Char} {r : Nat}
    (h : config_sub_menu_return menu option = some r) :
    (request_flags.filter (fun f => r &&& f ≠ 0)).length = 1 ∧
      r &&& NO_CHANGE_SHIFT = 0 ∧
      ∀ p ∈ selector_priority, r &&& p.1 ≠ 0 →
        (r &&& 0xFF) &&& (0xFF ^^^ p.2) = 0 ∧ r = p.1 ||| (r &&& p.2) := by
  unfold config_sub_menu_return at h
  split_ifs at h <;> simp only [Option.some.injEq, reduceCtorEq] at h <;> subst h <;> decide

/-- C20. Every word `show_config_menu` returns, whatever the keys pressed,
has exactly one of the seven flags set (the six selector flags at bits 31 to
26, the no-change flag at bit 16).  If it is the no-change flag the word is
exactly that flag, with a zero low byte; if it is a selector flag the low
byte has no bit outside the register mask of that field (and the word has no
other bit at all). -/
theorem show_config_menu_word_shape (w w' : World) (r : Nat)
    (h : show_config_menu w = some (r, w')) :
    (request_flags.filter (fun f => r &&& f ≠ 0)).length = 1 ∧
      (r &&& NO_CHANGE_SHIFT ≠ 0 → r = NO_CHANGE_SHIFT ∧ r &&& 0xFF = 0) ∧
      (∀ p ∈ selector_priority, r &&& p.1 ≠ 0 →
        (r &&& 0xFF) &&& (0xFF ^^^ p.2) = 0 ∧ r = p.1 ||| (r &&& p.2)) := by
  obtain ⟨_, hres⟩ := show_config_menu_loop_spec _ w r w' h
  rcases hres with rfl | ⟨menu, option, hret⟩
  · decide
  · obtain ⟨h1, h2, h3⟩ := config_sub_menu_return_shape hret
    exact ⟨h1, fun hn => absurd h2 hn, h3⟩

theorem show_config_menu_word_shape_witness :
    (request_flags.filter (fun f => (1 <<< 27 ||| 0b01000000) &&& f ≠ 0)).length = 1 ∧
      ((1 <<< 27 ||| 0b01000000) &&& NO_CHANGE_SHIFT ≠ 0 →
        (1 <<< 27 ||| 0b01000000) = NO_CHANGE_SHIFT ∧ (1 <<< 27 ||| 0b01000000) &&& 0xFF = 0) ∧
      (∀ p ∈ selector_priority, (1 <<< 27 ||| 0b01000000) &&& p.1 ≠ 0 →
        ((1 <<< 27 ||| 0b01000000) &&& 0xFF) &&& (0xFF ^^^ p.2) = 0 ∧
          (1 <<< 27 ||| 0b01000000) = p.1 ||| ((1 <<< 27 ||| 0b01000000) &&& p.2)) :=
  show_config_menu_word_shape (sample_world ['q', '4', 'x', '4', '2']) _
    (1 <<< 27 ||| 0b01000000) rfl

/-! ## handle_request on other values, and the loop of core 1 -/

/-- C22. For every request value other than `SCAN_I2C_BUS`, `SHOW_CONFIG`,
`SHOW_DEV_ID` and `SHOW_ALERT_MENU` (for instance `SHOW_TEMP`),
`handle_request` returns and leaves the world as it was: nothing is added to
the trace (no bus transfer, no push, no drain, no output) and `dev_addr` and
every other variable keeps its value. -/
theorem handle_request_other_does_nothing (E : Env) (request : Nat) (w : World)
    (h0 : request ≠ SCAN_I2C_BUS) (h1 : request ≠ SHOW_CONFIG) (h2 : request ≠ SHOW_DEV_ID)
    (h3 : request ≠ SHOW_ALERT_MENU) :
    handle_request E request w = some w := by
  unfold handle_request
  rw [if_neg h0, if_neg h1, if_neg h2, if_neg h3]

theorem handle_request_other_does_nothing_witness :
    handle_request sample_env SHOW_TEMP (sample_world ['x']) = some (sample_world ['x']) :=
  handle_request_other_does_nothing sample_env SHOW_TEMP (sample_world ['x'])
    (by decide) (by decide) (by decide) (by decide)

/-- C23. One turn of the loop of `core1_entry` reads the alert pin once,
writes the negation of the level read to LED1 and the level read to LED0 (two
complementary values), and only then looks at the FIFO.  With an empty FIFO
the turn ends there: its events are the read, the two writes and the look.
With a word waiting, the word is popped and `handle_request` is called on
it. -/
theorem core1_entry_iteration_order (E : Env) (w : World) :
    (w.fifo_rx w.fifo_checks = none →
      core1_entry_iteration E w =
        some { w with gpio_reads := w.gpio_reads + 1, fifo_checks := w.fifo_checks + 1,
                      trace := w.trace ++
                        [ .gpio_get ALERT_GP (w.gpio_levels w.gpio_reads),
                          .gpio_put LED1 (!(w.gpio_levels w.gpio_reads)),
                          .gpio_put LED0 (w.gpio_levels w.gpio_reads),
                          .multicore_fifo_rvalid false ] }) ∧
    (∀ request, w.fifo_rx w.fifo_checks = some request →
      core1_entry_iteration E w =
        handle_request E request
          { w with gpio_reads := w.gpio_reads + 1, fifo_checks := w.fifo_checks + 1,
                   trace := w.trace ++
                     [ .gpio_get ALERT_GP (w.gpio_levels w.gpio_reads),
                       .gpio_put LED1 (!(w.gpio_levels w.gpio_reads)),
                       .gpio_put LED0 (w.gpio_levels w.gpio_reads),
                       .multicore_fifo_rvalid true,
                       .multicore_fifo_pop_blocking request ] }) := by
  constructor
  · intro h
    simp [core1_entry_iteration, gpio_get, gpio_put, multicore_fifo_rvalid, World.emit, h]
  · intro request h
    simp [core1_entry_iteration, gpio_get, gpio_put, multicore_fifo_rvalid,
      multicore_fifo_pop_blocking, World.emit, h]

theorem core1_entry_iteration_order_witness :
    core1_entry_iteration sample_env (sample_world []) =
        some { sample_world [] with
                 gpio_reads := 1, fifo_checks := 1,
                 trace := [ .gpio_get ALERT_GP true, .gpio_put LED1 false,
                            .gpio_put LED0 true, .multicore_fifo_rvalid false ] } ∧
      core1_entry_iteration sample_env (pending_world SHOW_TEMP) =
        handle_request sample_env SHOW_TEMP
          { pending_world SHOW_TEMP with
              gpio_reads := 1, fifo_checks := 1,
              trace := [ .gpio_get ALERT_GP true, .gpio_put LED1 false,
                         .gpio_put LED0 true, .multicore_fifo_rvalid true,
                         .multicore_fifo_pop_blocking SHOW_TEMP ] } :=
  ⟨(core1_entry_iteration_order sample_env (sample_world [])).1 rfl,
   (core1_entry_iteration_order sample_env (pending_world SHOW_TEMP)).2 SHOW_TEMP rfl⟩

/-! ## set_i2c -/

/-- C24, the code at the failing input.  Whatever follows the first entry of
the array, `set_i2c` does the same: every turn of its loop configures the
first entry.  On the two entries (16, 17, pull-up) and (2, 3, no pull-up) it
sets the function and the pull-ups of the pins 16 and 17 twice and never
touches the pins 2 and 3. -/
theorem set_i2c_uses_first_entry_only (c : I2CConfig) (tl tl' : List I2CConfig) (len : Nat)
    (w : World) :
    set_i2c (c :: tl) len w = set_i2c (c :: tl') len w ∧
    (set_i2c [⟨16, 17, true⟩, ⟨2, 3, false⟩] 2 (sample_world [])).trace =
      [ .gpio_set_function 16 GPIO_FUNC_I2C, .gpio_set_function 17 GPIO_FUNC_I2C,
        .gpio_pull_up 16, .gpio_pull_up 17,
        .gpio_set_function 16 GPIO_FUNC_I2C, .gpio_set_function 17 GPIO_FUNC_I2C,
        .gpio_pull_up 16, .gpio_pull_up 17 ] :=
  ⟨rfl, rfl⟩

/-! ## The loop of main -/

theorem disable_irq_eq (w : World) :
    disable_irq proj_gpio NUMBER_OF_GPIOS w = w.emits (irq_events false) := by
  simp [disable_irq, proj_gpio, irq_events, gpio_set_irq_enabled, irq_set_enabled,
    World.emit, World.emits]

theorem enable_irq_eq (w : World) :
    enable_irq proj_gpio NUMBER_OF_GPIOS w = w.emits (irq_events true) := by
  simp [enable_irq, proj_gpio, irq_events, gpio_set_irq_enabled, irq_set_enabled,
    World.emit, World.emits]

theorem filter_irq_irq_events (enabled : Bool) :
    (irq_events enabled).filter Event.is_irq_control = irq_events enabled := by
  cases enabled <;> rfl

/-- The end of a turn of the loop of `main`, after the FIFO has been dealt
with, enables or disables nothing. -/
theorem main_loop_tail_irq (b : Bool) (a : Nat) (w : World) :
    (sleep_ms BLINK_LED_DELAY (gpio_put ONBOARD_LED false (sleep_ms BLINK_LED_DELAY
        (gpio_put ONBOARD_LED true
          (if b = true then print_ambient_temperature a w else w))))).trace.filter
        Event.is_irq_control =
      w.trace.filter Event.is_irq_control := by
  cases b <;>
    simp [sleep_ms, gpio_put, World.emit, List.filter_append, Event.is_irq_control,
      print_ambient_temperature, clear_screen, read_temperature_registers, read_temp_reg,
      reg_read, i2c_write_blocking, i2c_read_blocking, print_temp_table, printf]

/-- What a turn of the loop of `main` does to the interrupts when the word
`request` waits in the FIFO. -/
theorem main_loop_iteration_irq (w : World) (request : Nat)
    (h : w.fifo_rx w.fifo_checks = some request) :
    ∃ w', main_loop_iteration w = some w' ∧
      w'.trace.filter Event.is_irq_control =
        w.trace.filter Event.is_irq_control ++
          (if request = DISABLE_IRQ then irq_events false
           else if request = ENABLE_IRQ then irq_events true else []) := by
  unfold main_loop_iteration
  simp only [multicore_fifo_rvalid, multicore_fifo_pop_blocking, h, World.emit, if_true]
  by_cases hd : request = DISABLE_IRQ
  · simp only [hd, if_true]
    refine ⟨_, rfl, ?_⟩
    rw [main_loop_tail_irq, disable_irq_eq]
    simp [World.emits, List.filter_append, filter_irq_irq_events, Event.is_irq_control]
  · by_cases he : request = ENABLE_IRQ
    · simp only [he, if_true]
      refine ⟨_, rfl, ?_⟩
      rw [main_loop_tail_irq, enable_irq_eq]
      simp [World.emits, List.filter_append, filter_irq_irq_events, Event.is_irq_control]
    · simp only [hd, he, if_false]
      refine ⟨_, rfl, ?_⟩
      rw [main_loop_tail_irq]
      simp [List.filter_append, Event.is_irq_control]

/-! ## Control codes and action codes -/

set_option maxRecDepth 100000 in
/-- C27, as stated, fails.  `DISABLE_IRQ` is 0, the value of `SCAN_I2C_BUS`,
and `ENABLE_IRQ` is 1, the value of `SHOW_CONFIG`.  `handle_request` applied
to `DISABLE_IRQ` runs the bus scan (112 probes), and a turn of the loop of
`main` that pops `SCAN_I2C_BUS` disables the interrupts of the five
buttons. -/
theorem control_codes_collide_with_action_codes :
    DISABLE_IRQ = SCAN_I2C_BUS ∧ ENABLE_IRQ = SHOW_CONFIG ∧
    (handle_request sample_env DISABLE_IRQ (sample_world [])).map
        (fun w => (probes w.trace).length) = some 112 ∧
    (main_loop_iteration (pending_world SCAN_I2C_BUS)).map
        (fun w => w.trace.filter Event.is_irq_control) = some (irq_events false) :=
  ⟨rfl, rfl, rfl, rfl⟩

/-- C27, amended.  The control codes share their values with two action
codes: `handle_request` applied to `DISABLE_IRQ` does what it does for
`SCAN_I2C_BUS` (landing page, scan, drain) and applied to `ENABLE_IRQ` runs
`handle_show_config`.  When the word `request` waits in its FIFO, a turn of
the loop of `main` disables the interrupts if `request` is `SCAN_I2C_BUS`,
enables them if it is `SHOW_CONFIG`, and does neither for `SHOW_DEV_ID`,
`SHOW_ALERT_MENU` and every other value. -/
theorem control_and_action_codes_share_values (E : Env) (w : World) (request : Nat)
    (h : w.fifo_rx w.fifo_checks = some request) :
    (∃ w', handle_request E DISABLE_IRQ w = some w' ∧
      w'.trace = w.trace ++ show_landing_page_events ++
        scan_events I2C_READ_TIMEOUT_MICRO_SEC w.bus w.bus_calls ++ [.multicore_fifo_drain]) ∧
    handle_request E ENABLE_IRQ w = handle_show_config w ∧
    (∃ w', main_loop_iteration w = some w' ∧
      w'.trace.filter Event.is_irq_control =
        w.trace.filter Event.is_irq_control ++
          (if request = SCAN_I2C_BUS then irq_events false
           else if request = SHOW_CONFIG then irq_events true else [])) := by
  refine ⟨⟨_, by simp only [handle_request, if_true, scan_i2c_bus_eq]; rfl, ?_⟩, rfl,
    main_loop_iteration_irq w request h⟩
  simp [multicore_fifo_drain, World.emit, show_landing_page, World.emits]

theorem control_and_action_codes_share_values_witness :
    ∃ w', main_loop_iteration (pending_world SHOW_CONFIG) = some w' ∧
      w'.trace.filter Event.is_irq_control =
        (pending_world SHOW_CONFIG).trace.filter Event.is_irq_control ++
          (if SHOW_CONFIG = SCAN_I2C_BUS then irq_events false
           else if SHOW_CONFIG = SHOW_CONFIG then irq_events true else []) :=
  (control_and_action_codes_share_values sample_env (pending_world SHOW_CONFIG) SHOW_CONFIG
    rfl).2.2

/-! ## The drain of gpio_callback -/

/-- C26, the code at the failing input.  `gpio_callback` runs on core 0,
where the GPIO interrupt is taken.  Whenever it sends (a stable press on
BTN0 .. BTN3), the drain it performs first empties the FIFO that core 0
reads, whatever core 1 had queued there.  With `DISABLE_IRQ` pending for the
loop of `main`, a stable press on BTN0 leaves that FIFO empty: the control
message is gone. -/
theorem gpio_callback_drain_discards_control_messages (L : BtnLib) (gpio events : Nat)
    (w : World) (q : Fifos) :
    (Event.multicore_fifo_drain ∈ gpio_callback_events L gpio events w →
      (fifo_run 0 (gpio_callback_events L gpio events w) q).to_core0 = []) ∧
    fifo_run 0 (gpio_callback_events sample_lib BTN0 0x4 (sample_world []))
        ⟨[DISABLE_IRQ], []⟩ = ⟨[], [SCAN_I2C_BUS]⟩ := by
  refine ⟨?_, rfl⟩
  intro hmem
  rw [gpio_callback_events_eq] at hmem ⊢
  cases ht : gpio_callback_target gpio with
  | none => simp [ht] at hmem
  | some p =>
    obtain ⟨i, a⟩ := p
    simp only [ht] at hmem ⊢
    by_cases hr : events &&& GPIO_IRQ_EDGE_RISE = 0 <;>
      by_cases hf : events &&& GPIO_IRQ_EDGE_FALL = 0 <;>
      by_cases hd : L.debounce (debounce_arg L events (w.btns i)) = true <;>
      by_cases ha : a = SHOW_TEMP <;>
      simp [hr, hf, hd, ha] at hmem ⊢ <;>
      cases hok : w.fifo_push_ok w.fifo_pushes <;>
      simp [fifo_run, fifo_effect]

theorem gpio_callback_drain_discards_control_messages_witness :
    (fifo_run 0 (gpio_callback_events sample_lib BTN1 0x4 (sample_world []))
        ⟨[DISABLE_IRQ, ENABLE_IRQ], []⟩).to_core0 = [] :=
  (gpio_callback_drain_discards_control_messages sample_lib BTN1 0x4 (sample_world [])
    ⟨[DISABLE_IRQ, ENABLE_IRQ], []⟩).1 (by decide)

/-! ## The range of dev_addr -/

theorem dev_change_menu_switch_range {option : Char} {addr : Nat}
    (h : dev_change_menu_switch option = some addr) :
    addr = 0 ∨ ∃ k, k < 8 ∧ addr = 0x48 + k := by
  unfold dev_change_menu_switch at h
  split_ifs at h <;> simp only [Option.some.injEq] at h <;> subst h
  · exact Or.inl rfl
  · exact Or.inr ⟨0, by decide, rfl⟩
  · exact Or.inr ⟨1, by decide, rfl⟩
  · exact Or.inr ⟨2, by decide, rfl⟩
  · exact Or.inr ⟨3, by decide, rfl⟩
  · exact Or.inr ⟨4, by decide, rfl⟩
  · exact Or.inr ⟨5, by decide, rfl⟩
  · exact Or.inr ⟨6, by decide, rfl⟩
  · exact Or.inr ⟨7, by decide, rfl⟩

theorem handle_show_alert_menu_apply_dev_addr (result : Nat) (buf : Nat × Nat) (w : World) :
    (handle_show_alert_menu_apply result buf w).dev_addr = w.dev_addr := by
  unfold handle_show_alert_menu_apply
  simp only [multicore_fifo_push_blocking, World.emit]
  split_ifs <;>
    simp [read_temp_hyst_limit, read_temp_set_limit, write_temp_hyst_limit,
      write_temp_set_limit, read_temperature_registers_fields, write_temp_reg_bus,
      show_landing_page, World.emits]

theorem print_ambient_temperature_dev_addr (a : Nat) (w : World) :
    (print_ambient_temperature a w).dev_addr = w.dev_addr := by
  simp [print_ambient_temperature, read_temperature_registers_fields, clear_screen, World.emit]

/-- A request handled by `handle_request` leaves `dev_addr` alone, unless it
is `SHOW_DEV_ID`, and then the new value is one of 0x48 .. 0x4F. -/
theorem handle_request_dev_addr {E : Env} {request : Nat} {w w' : World}
    (h : handle_request E request w = some w') :
    w'.dev_addr = w.dev_addr ∨
      (request = SHOW_DEV_ID ∧ 0x48 ≤ w'.dev_addr ∧ w'.dev_addr ≤ 0x4F) := by
  unfold handle_request at h
  split_ifs at h with h0 h1 h2 h3
  · left
    simp only [scan_i2c_bus_eq, Option.some.injEq] at h
    subst h
    rfl
  · left
    unfold handle_show_config at h
    cases hm : show_config_menu (multicore_fifo_push_blocking DISABLE_IRQ w) with
    | none => simp [hm] at h
    | some p =>
      obtain ⟨r, w1⟩ := p
      simp only [hm, Option.some.injEq] at h
      subst h
      rw [handle_show_config_apply_dev_addr]
      exact (show_config_menu_loop_spec _ _ _ _ hm).1.1
  · unfold handle_show_dev_id at h
    cases hm : show_dev_change_menu TCN75A_DEFAULT_ADDR
        (multicore_fifo_push_blocking DISABLE_IRQ w) with
    | none => simp [hm] at h
    | some p =>
      obtain ⟨addr, w1⟩ := p
      simp only [hm, Option.some.injEq] at h
      subst h
      obtain ⟨hc, option, hsw⟩ := show_dev_change_menu_spec hm
      have hd : w1.dev_addr = w.dev_addr := hc.1
      rw [handle_show_dev_id_apply_dev_addr]
      split_ifs with hcond
      · right
        rcases dev_change_menu_switch_range hsw with h0 | ⟨k, hk, rfl⟩
        · exact absurd h0 hcond.1
        · exact ⟨h2, by omega, by omega⟩
      · exact Or.inl hd
  · left
    unfold handle_show_alert_menu at h
    cases hm : show_alert_menu E E.alert_buf_uninit
        (multicore_fifo_push_blocking DISABLE_IRQ w) with
    | none => simp [hm] at h
    | some p =>
      obtain ⟨⟨result, buf⟩, w1⟩ := p
      simp only [hm, Option.some.injEq] at h
      subst h
      rw [handle_show_alert_menu_apply_dev_addr]
      exact (show_alert_menu_loop_spec E _ _ _ _ _ hm).1
  · left
    simp only [Option.some.injEq] at h
    subst h
    rfl

theorem gpio_callback_dev_addr (L : BtnLib) (gpio events : Nat) (w : World) :
    (gpio_callback L gpio events w).dev_addr = w.dev_addr := by
  unfold gpio_callback
  split
  · rfl
  · split_ifs <;> simp [World.emit, multicore_fifo_drain, multicore_fifo_push_timeout_us] <;>
      split_ifs <;> rfl

theorem core1_entry_iteration_dev_addr {E : Env} {w w' : World}
    (h : core1_entry_iteration E w = some w') :
    w'.dev_addr = w.dev_addr ∨ (0x48 ≤ w'.dev_addr ∧ w'.dev_addr ≤ 0x4F) := by
  unfold core1_entry_iteration at h
  simp only [gpio_get, gpio_put, World.emit, multicore_fifo_rvalid,
    multicore_fifo_pop_blocking] at h
  cases hrx : w.fifo_rx w.fifo_checks with
  | none =>
    simp [hrx] at h
    subst h
    exact Or.inl rfl
  | some v =>
    simp [hrx] at h
    rcases handle_request_dev_addr h with h1 | ⟨_, h2⟩
    · exact Or.inl h1
    · exact Or.inr h2

theorem main_loop_tail_dev_addr (b : Bool) (a : Nat) (w : World) :
    (sleep_ms BLINK_LED_DELAY (gpio_put ONBOARD_LED false (sleep_ms BLINK_LED_DELAY
        (gpio_put ONBOARD_LED true
          (if b = true then print_ambient_temperature a w else w))))).dev_addr =
      w.dev_addr := by
  cases b <;> simp [sleep_ms, gpio_put, World.emit, print_ambient_temperature_dev_addr]

theorem main_loop_iteration_dev_addr {w w' : World} (h : main_loop_iteration w = some w') :
    w'.dev_addr = w.dev_addr := by
  unfold main_loop_iteration at h
  cases hrx : w.fifo_rx w.fifo_checks with
  | none =>
    simp only [multicore_fifo_rvalid, hrx, Bool.false_eq_true, if_false,
      Option.some.injEq] at h
    subst h
    rw [main_loop_tail_dev_addr]
  | some v =>
    simp only [multicore_fifo_rvalid, multicore_fifo_pop_blocking, hrx, World.emit, if_true,
      disable_irq_eq, enable_irq_eq] at h
    split_ifs at h <;> simp only [Option.some.injEq] at h <;> subst h <;>
      rw [main_loop_tail_dev_addr] <;> rfl

/-- The menu returns what the switch assigns for the last key read, and that
key and the final `clear_screen` end its trace. -/
theorem show_dev_change_menu_loop_key :
    ∀ (fuel : Nat) (w : World) (addr : Nat) (w' : World),
      show_dev_change_menu_loop fuel w = some (addr, w') →
        ∃ option tr, dev_change_menu_switch option = some addr ∧
          w'.trace = tr ++ [.scanf_char option, .clear_screen] := by
  intro fuel
  induction fuel with
  | zero => intro w addr w' h; simp [show_dev_change_menu_loop] at h
  | succ fuel ih =>
    intro w addr w' h
    rw [show_dev_change_menu_loop] at h
    cases hs : scanf_char (w.emits dev_change_menu_prompt) with
    | none => simp [hs] at h
    | some p =>
      obtain ⟨option, w1⟩ := p
      simp only [hs] at h
      cases hr : dev_change_menu_switch option with
      | some r =>
        simp only [hr, Option.some.injEq, Prod.mk.injEq] at h
        obtain ⟨rfl, rfl⟩ := h
        unfold scanf_char at hs
        split at hs
        · simp at hs
        · simp only [Option.some.injEq, Prod.mk.injEq] at hs
          obtain ⟨rfl, rfl⟩ := hs
          exact ⟨_, (w.emits dev_change_menu_prompt).trace, hr, by simp [clear_screen, World.emit]⟩
      | none =>
        simp only [hr] at h
        exact ih _ addr w' h

theorem reserved_addr_sensor_range {a : Nat} (h : 0x48 ≤ a ∧ a ≤ 0x4F) :
    a < 128 ∧ reserved_addr a = false := by
  obtain ⟨h1, h2⟩ := h
  interval_cases a <;> exact ⟨by decide, by decide⟩

theorem reachable_dev_addr {E : Env} {L : BtnLib} {w : World} (h : Reachable E L w) :
    0x48 ≤ w.dev_addr ∧ w.dev_addr ≤ 0x4F := by
  induction h with
  | start w h0 => rw [h0]; decide
  | keys w typed _ ih => exact ih
  | request w w' request _ hstep ih =>
    rcases handle_request_dev_addr hstep with h1 | ⟨_, h2⟩
    · rw [h1]; exact ih
    · exact h2
  | callback w gpio events _ ih => rw [gpio_callback_dev_addr]; exact ih
  | core1_turn w w' _ hstep ih =>
    rcases core1_entry_iteration_dev_addr hstep with h1 | h2
    · rw [h1]; exact ih
    · exact h2
  | main_turn w w' _ hstep ih => rw [main_loop_iteration_dev_addr hstep]; exact ih

/-- C25. In every reachable state `dev_addr` is one of 0x48 .. 0x4F, a 7-bit
address that `reserved_addr` does not reserve.  From such a state only a
request `SHOW_DEV_ID` can change it (`gpio_callback` and the loop of `main`
never do), and `show_dev_change_menu` returns only 0, for the key `x`, or
0x48 + k for the digit key k in 0 .. 7 read last, whatever its argument
`default_addr` is. -/
theorem dev_addr_stays_in_sensor_range (E : Env) (L : BtnLib) (w : World)
    (h : Reachable E L w) :
    (0x48 ≤ w.dev_addr ∧ w.dev_addr ≤ 0x4F) ∧ w.dev_addr < 128 ∧
    reserved_addr w.dev_addr = false ∧
    (∀ request w', handle_request E request w = some w' → w'.dev_addr ≠ w.dev_addr →
      request = SHOW_DEV_ID) ∧
    (∀ gpio events, (gpio_callback L gpio events w).dev_addr = w.dev_addr) ∧
    (∀ w', main_loop_iteration w = some w' → w'.dev_addr = w.dev_addr) ∧
    (∀ d addr w', show_dev_change_menu d w = some (addr, w') →
      (∀ d', show_dev_change_menu d' w = some (addr, w')) ∧
      ∃ option tr, w'.trace = tr ++ [.scanf_char option, .clear_screen] ∧
        (addr = 0 ∧ option = 'x' ∨
          ∃ k, k < 8 ∧ addr = 0x48 + k ∧ option = Char.ofNat (48 + k))) := by
  have hr := reachable_dev_addr h
  refine ⟨hr, (reserved_addr_sensor_range hr).1, (reserved_addr_sensor_range hr).2, ?_,
    fun gpio events => gpio_callback_dev_addr L gpio events w,
    fun w' hstep => main_loop_iteration_dev_addr hstep, ?_⟩
  · intro request w' hstep hne
    rcases handle_request_dev_addr hstep with h1 | ⟨h2, _⟩
    · exact absurd h1 hne
    · exact h2
  · intro d addr w' hm
    refine ⟨fun _ => hm, ?_⟩
    obtain ⟨option, tr, hsw, htr⟩ := show_dev_change_menu_loop_key _ _ _ _ hm
    refine ⟨option, tr, htr, ?_⟩
    unfold dev_change_menu_switch at hsw
    split_ifs at hsw with c0 c1 c2 c3 c4 c5 c6 c7 c8 <;>
      simp only [Option.some.injEq] at hsw <;> subst hsw
    · exact Or.inl ⟨rfl, c0⟩
    · exact Or.inr ⟨0, by decide, rfl, c1⟩
    · exact Or.inr ⟨1, by decide, rfl, c2⟩
    · exact Or.inr ⟨2, by decide, rfl, c3⟩
    · exact Or.inr ⟨3, by decide, rfl, c4⟩
    · exact Or.inr ⟨4, by decide, rfl, c5⟩
    · exact Or.inr ⟨5, by decide, rfl, c6⟩
    · exact Or.inr ⟨6, by decide, rfl, c7⟩
    · exact Or.inr ⟨7, by decide, rfl, c8⟩

theorem dev_addr_stays_in_sensor_range_witness :
    Reachable sample_env sample_lib changed_world ∧ changed_world.dev_addr = 0x4B ∧
      reserved_addr changed_world.dev_addr = false :=
  ⟨Reachable.request (sample_world ['3']) changed_world SHOW_DEV_ID
      (Reachable.start _ rfl) rfl,
    rfl,
    (dev_addr_stays_in_sensor_range sample_env sample_lib changed_world
      (Reachable.request (sample_world ['3']) changed_world SHOW_DEV_ID
        (Reachable.start _ rfl) rfl)).2.2.1⟩

/-! ## The temperature round trip -/

theorem fixedToFloat_eq_steps (i f : Nat) :
    fixedToFloat i f = ((fixed_steps i f : Int) : ℚ) / 16 := by
  simp only [fixedToFloat, fixed_steps, Int.cast_add, Int.cast_mul, Int.cast_natCast,
    Int.cast_ofNat]
  ring

/-- The signed number a parsed text stands for, before the point is taken
into account. -/
theorem decimal_value_of_parse {text : List Char} {negative : Bool} {m d : Nat}
    (h : parse_decimal text = some (negative, m, d)) :
    decimal_value text =
      some ((((if negative then -(m : Int) else (m : Int)) : Int) : ℚ) / 10 ^ d) := by
  simp only [decimal_value, h, Option.map_some']
  cases negative <;> simp

theorem round_to_steps (num s : Int) (d : Nat) (h : 16 * num = s * 10 ^ d) :
    (2 * 16 * num + 10 ^ d) / (2 * 10 ^ d) = s := by
  have hpos : (0 : Int) < 10 ^ d := by positivity
  have h1 : 2 * 16 * num + 10 ^ d = 10 ^ d + 2 * 10 ^ d * s := by
    have : 2 * 16 * num = 2 * (16 * num) := by ring
    rw [this, h]
    ring
  rw [h1, Int.add_mul_ediv_left _ _ (by omega), Int.ediv_eq_zero_of_lt (by omega) (by omega)]
  simp

theorem fixed_steps_bytes (i f : Nat) (hi : i < 256) (hf : f < 256) (hrep : f % 16 = 0) :
    to_uint8 (fixed_steps i f / 16) = i ∧ to_uint8 (fixed_steps i f % 16 * 16) = f := by
  unfold to_uint8 fixed_steps signed8
  split_ifs <;> constructor <;> omega

/-- Every text that denotes the temperature in the bytes `(i, f)` is
converted to these bytes. -/
theorem str_to_fixed_point_of_value (i f : Nat) (hi : i < 256) (hf : f < 256)
    (hrep : f % 16 = 0) (text : List Char)
    (h : decimal_value text = some (fixedToFloat i f)) :
    ∃ o0 o1, str_to_fixed_point text = (true, o0, o1) ∧ to_uint8 o0 = i ∧ to_uint8 o1 = f := by
  cases hp : parse_decimal text with
  | none => simp [decimal_value, hp] at h
  | some p =>
    obtain ⟨negative, m, d⟩ := p
    rw [decimal_value_of_parse hp, fixedToFloat_eq_steps] at h
    simp only [Option.some.injEq] at h
    have h10 : ((10 : ℚ) ^ d) ≠ 0 := by positivity
    have hq : (16 : ℚ) * (((if negative then -(m : Int) else (m : Int)) : Int) : ℚ) =
        ((fixed_steps i f : Int) : ℚ) * 10 ^ d := by
      cases negative with
      | false =>
        simp only [Bool.false_eq_true, if_false] at h ⊢
        field_simp at h
        push_cast
        linarith
      | true =>
        simp only [if_true] at h ⊢
        field_simp at h
        push_cast
        linarith
    have hz : 16 * (if negative then -(m : Int) else (m : Int)) = fixed_steps i f * 10 ^ d := by
      exact_mod_cast hq
    have hs := round_to_steps _ _ _ hz
    obtain ⟨hb0, hb1⟩ := fixed_steps_bytes i f hi hf hrep
    refine ⟨fixed_steps i f / 16, fixed_steps i f % 16 * 16, ?_, hb0, hb1⟩
    simp only [str_to_fixed_point, hp]
    rw [hs]

theorem parse_unsigned_point (whole frac : List Char) (h : ∀ c ∈ whole, c ≠ '.') :
    parse_unsigned (whole ++ '.' :: frac) =
      match parse_digits whole, parse_digits frac with
      | some a, some b => some (a * 10 ^ frac.length + b, frac.length)
      | _, _ => none := by
  have h1 : (whole ++ '.' :: frac).takeWhile (fun c => decide (c ≠ '.')) = whole := by
    rw [List.takeWhile_append_of_pos (by simpa using h)]
    simp
  have h2 : (whole ++ '.' :: frac).dropWhile (fun c => decide (c ≠ '.')) = '.' :: frac := by
    rw [List.dropWhile_append_of_pos (by simpa using h)]
    simp
  simp only [parse_unsigned, h1, h2]

set_option maxRecDepth 100000 in
theorem parse_whole_digits :
    ∀ a, a < 129 →
      parse_digits (Nat.toDigits 10 a) = some a ∧ (∀ c ∈ Nat.toDigits 10 a, c ≠ '.') ∧
        (Nat.toDigits 10 a).head? ≠ none ∧ (Nat.toDigits 10 a).head? ≠ some '-' := by
  decide

set_option maxRecDepth 100000 in
theorem parse_fraction_digits :
    ∀ r, r < 16 →
      parse_digits (fraction_digits (r * 625)) = some (r * 625) ∧
        (fraction_digits (r * 625)).length = 4 := by
  decide

theorem parse_decimal_text (i f : Nat) :
    parse_decimal (decimal_text i f) =
      some (decide (fixed_steps i f < 0),
        (fixed_steps i f).natAbs / 16 * 10000 + (fixed_steps i f).natAbs % 16 * 625, 4) := by
  have ha : (fixed_steps i f).natAbs / 16 < 129 := by
    unfold fixed_steps signed8
    split_ifs <;> omega
  have hr : (fixed_steps i f).natAbs % 16 < 16 := Nat.mod_lt _ (by decide)
  obtain ⟨hw, hdot, hnone, hminus⟩ := parse_whole_digits _ ha
  obtain ⟨hfr, hlen⟩ := parse_fraction_digits _ hr
  have hu := parse_unsigned_point _ (fraction_digits ((fixed_steps i f).natAbs % 16 * 625)) hdot
  simp only [hw, hfr, hlen] at hu
  unfold decimal_text
  by_cases hneg : fixed_steps i f < 0
  · simp only [hneg, if_true, parse_decimal, List.singleton_append, List.head?_cons,
      List.tail_cons, hu]
    simp
  · have hhead : (Nat.toDigits 10 ((fixed_steps i f).natAbs / 16) ++
        '.' :: fraction_digits ((fixed_steps i f).natAbs % 16 * 625)).head? ≠ some '-' := by
      cases hc : Nat.toDigits 10 ((fixed_steps i f).natAbs / 16) with
      | nil => simp [hc] at hnone
      | cons c rest => simpa [hc] using hminus
    simp only [hneg, if_false, List.nil_append, parse_decimal, hhead, hu]
    simp

theorem steps_ratio (n a r : Nat) (h : 16 * a + r = n) :
    (((a * 10000 + r * 625 : Nat) : Int) : ℚ) / 10 ^ 4 = (n : ℚ) / 16 := by
  subst h
  push_cast
  ring

theorem decimal_value_decimal_text (i f : Nat) :
    decimal_value (decimal_text i f) = some (fixedToFloat i f) := by
  rw [decimal_value_of_parse (parse_decimal_text i f), fixedToFloat_eq_steps]
  have hsplit := Nat.div_add_mod (fixed_steps i f).natAbs 16
  have hr := steps_ratio _ _ _ hsplit
  congr 1
  by_cases hneg : fixed_steps i f < 0
  · obtain ⟨n, hn, hs⟩ : ∃ n : Nat, (fixed_steps i f).natAbs = n ∧ fixed_steps i f = -(n : Int) :=
      ⟨_, rfl, by omega⟩
    simp only [hneg, decide_True, if_true]
    rw [hn] at hr ⊢
    rw [hs, Int.cast_neg, Int.cast_neg, neg_div, hr, Int.cast_natCast, neg_div]
  · obtain ⟨n, hn, hs⟩ : ∃ n : Nat, (fixed_steps i f).natAbs = n ∧ fixed_steps i f = (n : Int) :=
      ⟨_, rfl, by omega⟩
    simp only [hneg, decide_False, if_false, Bool.false_eq_true]
    rw [hn] at hr ⊢
    rw [hs, hr, Int.cast_natCast]

theorem fixedToFloat_example : fixedToFloat 0x19 0x80 = 51 / 2 := by
  rw [fixedToFloat_eq_steps, show fixed_steps 0x19 0x80 = 408 by decide]
  norm_num

theorem decimal_value_example :
    decimal_value ['2', '5', '.', '5'] = some (fixedToFloat 0x19 0x80) := by
  rw [decimal_value_of_parse
      (show parse_decimal ['2', '5', '.', '5'] = some (false, 255, 1) by decide),
    fixedToFloat_example]
  norm_num

/-- C21. For every temperature held exactly by an integer byte `i` and a
fraction byte `f` (a multiple of a sixteenth of a degree), the decimal text
of the value `fixedToFloat` decodes from `(i, f)` denotes that value, and
`str_to_fixed_point` converts every text denoting it to an output that
`show_alert_menu` stores as the bytes `(i, f)` in `buf[0]`, `buf[1]`. -/
theorem temperature_round_trip (i f : Nat) (hi : i < 256) (hf : f < 256)
    (hrep : f % 16 = 0) :
    decimal_value (decimal_text i f) = some (fixedToFloat i f) ∧
    ∀ text, decimal_value text = some (fixedToFloat i f) →
      ∃ o0 o1, str_to_fixed_point text = (true, o0, o1) ∧ to_uint8 o0 = i ∧ to_uint8 o1 = f ∧
        ∀ (E : Env) (question : String) (w w1 : World),
          E.str_to_fixed_point = str_to_fixed_point →
          get_input E 8 (printf question [] (clear_screen w)) = some (text, w1) →
          alert_menu_enter E question w = some (some (i, f), w1) := by
  refine ⟨decimal_value_decimal_text i f, ?_⟩
  intro text hval
  obtain ⟨o0, o1, hs, h0, h1⟩ := str_to_fixed_point_of_value i f hi hf hrep text hval
  refine ⟨o0, o1, hs, h0, h1, ?_⟩
  intro E question w w1 hE hg
  simp only [alert_menu_enter, hg, hE, hs, if_true, h0, h1]

theorem temperature_round_trip_witness :
    fixedToFloat 0x19 0x80 = 51 / 2 ∧
    decimal_value ['2', '5', '.', '5'] = some (fixedToFloat 0x19 0x80) ∧
    str_to_fixed_point ['2', '5', '.', '5'] = (true, 25, 128) ∧
    ∃ o0 o1, str_to_fixed_point ['2', '5', '.', '5'] = (true, o0, o1) ∧
      to_uint8 o0 = 0x19 ∧ to_uint8 o1 = 0x80 := by
  refine ⟨fixedToFloat_example, decimal_value_example, by decide, ?_⟩
  obtain ⟨o0, o1, hs, h0, h1, _⟩ :=
    (temperature_round_trip 0x19 0x80 (by decide) (by decide) (by decide)).2
      ['2', '5', '.', '5'] decimal_value_example
  exact ⟨o0, o1, hs, h0, h1⟩

end I2CTemp
